import Mathlib

/-!
# AThermostat: thermostat control core and debounced inputs

A shallow embedding of `src/src/Thermostat.cpp`, `src/include/Thermostat.h`,
`src/src/InputPin.cpp` and the input queue of `src/src/main.cpp`.

Conventions of the embedding:

* `millis()` is a parameter `now : Nat` of every operation that reads the clock; one
  operation reads one clock value. Elapsed times are the 32-bit unsigned difference
  `wsub now ref = (now - ref) mod 2^32`, as `unsigned long` subtraction computes it.
* `float` temperatures, setpoints, deadbands and overruns are IEEE 754 binary32 values
  (`F32`): sums and differences are rounded to nearest, ties to even, comparisons with a
  NaN are false. The sign of a zero, which no comparison, sum or difference of the control
  flow can observe, is not kept.
* The eight relay handles `_outputs[i]` are the eight Booleans of `Relays`.
* The two input handles are read through `Inputs`: each Boolean is the value of
  `_inputs[i] && _inputs[i]->isActive()` at the tick.
-/

/-! ## Enumerations of `Thermostat.h` -/

/-- User-selectable modes (`enum class ThermostatMode`). -/
inductive ThermostatMode where
  | OFF | HEAT | COOL | HEAT_COOL | FAN_ONLY
  deriving DecidableEq, Repr

/-- System-determined actions (`enum class ThermostatAction`). -/
inductive ThermostatAction where
  | OFF | IDLE | HEATING | COOLING | FAN_RUNNING
  deriving DecidableEq, Repr

/-- Heat levels (`enum class HeatLevel`). -/
inductive HeatLevel where
  | IDLE | HP_LOW | HP_HIGH | FURNACE_LOW | FURNACE_HIGH | DEFROST
  deriving DecidableEq, Repr

/-- Cool levels (`enum class CoolLevel`). -/
inductive CoolLevel where
  | IDLE | COOL | COOL_SUPP
  deriving DecidableEq, Repr

/-- The underlying `uint8_t` value of a heat level: the declaration order of the enum. -/
def HeatLevel.rank : HeatLevel → Nat
  | .IDLE => 0
  | .HP_LOW => 1
  | .HP_HIGH => 2
  | .FURNACE_LOW => 3
  | .FURNACE_HIGH => 4
  | .DEFROST => 5

/-- The underlying `uint8_t` value of a cool level. -/
def CoolLevel.rank : CoolLevel → Nat
  | .IDLE => 0
  | .COOL => 1
  | .COOL_SUPP => 2

/-! ## Relays -/

/-- Modelled from the spec: the `OutPin` relay handles (`OutPin.h` is not part of the
sources). A relay is an on/off actuator with `turnOn()`, `turnOff()` and `isOn()`; the
record holds `isOn()` of `_outputs[OUT_FAN1] .. _outputs[OUT_COMP2]`, in the order of
`enum OutputIdx`. -/
structure Relays where
  fan1 : Bool
  rev : Bool
  furnCoolLow : Bool
  furnCoolHigh : Bool
  w1 : Bool
  w2 : Bool
  comp1 : Bool
  comp2 : Bool
  deriving DecidableEq, Repr

/-- Every relay off. -/
def Relays.allOff : Relays :=
  ⟨false, false, false, false, false, false, false, false⟩

/-! ## Binary32 arithmetic -/

/-- A value of the C++ type `float` (IEEE 754 binary32): not-a-number, an infinity with its
sign, or a finite value. Every finite binary32 value is an integer multiple of `2^-149`, the
smallest subnormal; `fin n` is the value `n * 2^-149`. -/
inductive F32 where
  | nan
  | inf (neg : Bool)
  | fin (n : Int)
  deriving DecidableEq, Repr

namespace F32

/-- The overflow bound `2^277` in units of `2^-149`, that is `2^128`: a magnitude that
rounds to this or more becomes an infinity. -/
def overflowBound : Nat := 2 ^ 139 * 2 ^ 138

/-- One step of the binary search of `shift`. -/
def shiftStep (n b k : Nat) : Nat :=
  if n / 2 ^ (k + b - 1) ≥ 16777216 then k + b else k

/-- The number of low bits that rounding drops from a magnitude `n < 2^277`: the least `k`
with `n / 2^k < 2^24`, so that a 24-bit significand remains (`0` in the subnormal range and
in the lowest binade). -/
def shift (n : Nat) : Nat :=
  shiftStep n 1 (shiftStep n 2 (shiftStep n 4 (shiftStep n 8 (shiftStep n 16
    (shiftStep n 32 (shiftStep n 64 (shiftStep n 128 0)))))))

/-- Rounding to binary32, to nearest and ties to even, of the magnitude `N / D` (in units of
`2^-149`, `D > 0`) with sign `neg`. -/
def round (neg : Bool) (N D : Nat) : F32 :=
  if N / D ≥ overflowBound then .inf neg
  else
    let k := shift (N / D)
    let d := D * 2 ^ k
    let q := N / d
    let r := N % d
    let q1 := if 2 * r > d ∨ (2 * r = d ∧ q % 2 = 1) then q + 1 else q
    if q1 * 2 ^ k ≥ overflowBound then .inf neg
    else .fin (if neg = true then -((q1 * 2 ^ k : Nat) : Int) else ((q1 * 2 ^ k : Nat) : Int))

/-- The binary32 value nearest to the fraction `num / den`. -/
def ofRat (num : Int) (den : Nat) : F32 :=
  if den = 0 then .nan else round (decide (num < 0)) (num.natAbs * 2 ^ 149) den

/-- The `float` literal with one decimal digit: `ofTenths 683` is `68.3f`. -/
def ofTenths (t : Int) : F32 := ofRat t 10

/-- The integer `n` is a binary32 value in units of `2^-149`: its magnitude is below the
overflow bound and the bits that rounding would drop are all zero. -/
def representable (n : Int) : Bool :=
  decide (n.natAbs < overflowBound) && decide (n.natAbs % 2 ^ shift n.natAbs = 0)

/-- The sum of two `float` values. -/
def add : F32 → F32 → F32
  | .nan, _ => .nan
  | _, .nan => .nan
  | .inf a, .inf b => if a = b then .inf a else .nan
  | .inf a, .fin _ => .inf a
  | .fin _, .inf b => .inf b
  | .fin a, .fin b => round (decide (a + b < 0)) (a + b).natAbs 1

/-- The negation of a `float` value. -/
def neg : F32 → F32
  | .nan => .nan
  | .inf a => .inf (!a)
  | .fin a => .fin (-a)

/-- The difference of two `float` values. -/
def sub (a b : F32) : F32 := add a (neg b)

/-- The comparison `a < b` of two `float` values. -/
def lt : F32 → F32 → Bool
  | .fin a, .fin b => decide (a < b)
  | .fin _, .inf b => !b
  | .inf a, .fin _ => a
  | .inf a, .inf b => a && !b
  | _, _ => false

/-- The comparison `a <= b` of two `float` values. -/
def le : F32 → F32 → Bool
  | .fin a, .fin b => decide (a ≤ b)
  | .fin _, .inf b => !b
  | .inf a, .fin _ => a
  | .inf a, .inf b => a || !b
  | _, _ => false

end F32

instance : LT F32 := ⟨fun a b => F32.lt a b = true⟩

instance : LE F32 := ⟨fun a b => F32.le a b = true⟩

instance (a b : F32) : Decidable (a < b) := inferInstanceAs (Decidable (F32.lt a b = true))

instance (a b : F32) : Decidable (a ≤ b) := inferInstanceAs (Decidable (F32.le a b = true))

instance : Add F32 := ⟨F32.add⟩

instance : Sub F32 := ⟨F32.sub⟩

/-! ## Configuration and controller state -/

/-- The record `struct ThermostatConfig`, with its default values. -/
structure ThermostatConfig where
  heatDeadband : F32 := F32.ofTenths 5
  coolDeadband : F32 := F32.ofTenths 5
  heatOverrun : F32 := F32.ofTenths 5
  coolOverrun : F32 := F32.ofTenths 5
  minOnTimeMs : Nat := 180000
  minOffTimeMs : Nat := 180000
  minIdleTimeMs : Nat := 60000
  maxRunTimeMs : Nat := 1800000
  escalationDelayMs : Nat := 600000
  fanIdleEnabled : Bool := false
  fanIdleWaitMin : Nat := 15
  fanIdleRunMin : Nat := 5
  deriving DecidableEq, Repr

/-- The confirmed input values a tick reads: `outTempOk` is
`_inputs[IN_OUT_TEMP_OK] && _inputs[IN_OUT_TEMP_OK]->isActive()` and `defrostMode` is
`_inputs[IN_DEFROST_MODE] && _inputs[IN_DEFROST_MODE]->isActive()`. -/
structure Inputs where
  outTempOk : Bool
  defrostMode : Bool
  deriving DecidableEq, Repr

/-- The private state of `class Thermostat`, with its member initialisers (`68.0f`,
`76.0f`, and `NAN` for the temperature). -/
structure Thermostat where
  outputs : Relays
  mode : ThermostatMode := .OFF
  action : ThermostatAction := .OFF
  heatLevel : HeatLevel := .IDLE
  coolLevel : CoolLevel := .IDLE
  currentTemp : F32 := .nan
  heatSetpoint : F32 := F32.ofTenths 680
  coolSetpoint : F32 := F32.ofTenths 760
  tempValid : Bool := false
  lastTempUpdate : Nat := 0
  forceFurnace : Bool := false
  forceNoHP : Bool := false
  defrostActive : Bool := false
  preDefrostLevel : HeatLevel := .IDLE
  lastActionChange : Nat := 0
  lastEscalation : Nat := 0
  actionStartTime : Nat := 0
  fanIdleLastRun : Nat := 0
  fanIdleRunning : Bool := false
  config : ThermostatConfig := {}
  deriving DecidableEq, Repr

/-- The 32-bit unsigned difference `a - b` of two `unsigned long` clock values. -/
def wsub (a b : Nat) : Nat :=
  (a % 4294967296 + 4294967296 - b % 4294967296) % 4294967296

/-- The 32-bit unsigned product `a * b`. -/
def wmul (a b : Nat) : Nat :=
  (a * b) % 4294967296

namespace Thermostat

/-- The controller as constructed (member initialisers of `class Thermostat`), wired to
relays in state `r`. -/
def initial (r : Relays) : Thermostat :=
  { outputs := r }

/-- The method `Thermostat::begin()`: the timers start at the current clock value. -/
def begin (now : Nat) (s : Thermostat) : Thermostat :=
  { s with lastActionChange := now, actionStartTime := now, fanIdleLastRun := now }

/-- The method `Thermostat::setCurrentTemperature`. -/
def setCurrentTemperature (now : Nat) (temp : F32) (s : Thermostat) : Thermostat :=
  { s with currentTemp := temp, tempValid := true, lastTempUpdate := now }

/-- The method `Thermostat::allRelaysOff`. -/
def allRelaysOff (s : Thermostat) : Thermostat :=
  { s with outputs := Relays.allOff }

/-- The method `Thermostat::setMode`. -/
def setMode (now : Nat) (m : ThermostatMode) (s : Thermostat) : Thermostat :=
  if m = s.mode then s
  else if m = .OFF then
    { allRelaysOff { s with mode := m } with
      action := .OFF, heatLevel := .IDLE, coolLevel := .IDLE,
      defrostActive := false, fanIdleRunning := false }
  else
    { s with mode := m, action := .IDLE, lastActionChange := now,
             actionStartTime := now, fanIdleLastRun := now }

/-- Timing guard `canTurnOn`. -/
def canTurnOn (now : Nat) (s : Thermostat) : Bool :=
  decide (s.config.minOffTimeMs ≤ wsub now s.lastActionChange)

/-- Timing guard `canTurnOff`. -/
def canTurnOff (now : Nat) (s : Thermostat) : Bool :=
  decide (s.config.minOnTimeMs ≤ wsub now s.actionStartTime)

/-- Timing guard `canEscalate`. -/
def canEscalate (now : Nat) (s : Thermostat) : Bool :=
  decide (s.config.escalationDelayMs ≤ wsub now s.lastEscalation)

/-- The method `Thermostat::applyHeatLevel`: all relays off, then the relays of the
level on. -/
def applyHeatLevel (level : HeatLevel) (s : Thermostat) : Thermostat :=
  let s := allRelaysOff { s with heatLevel := level, coolLevel := .IDLE }
  match level with
  | .HP_LOW =>
    { s with outputs := { s.outputs with fan1 := true, furnCoolLow := true, comp1 := true } }
  | .HP_HIGH =>
    { s with outputs := { s.outputs with fan1 := true, furnCoolLow := true, comp1 := true,
                                         comp2 := true } }
  | .FURNACE_LOW =>
    { s with outputs := { s.outputs with fan1 := true, w1 := true } }
  | .FURNACE_HIGH =>
    { s with outputs := { s.outputs with fan1 := true, w1 := true, w2 := true } }
  | .DEFROST =>
    { s with outputs := { s.outputs with fan1 := true, furnCoolLow := true, w1 := true,
                                         comp1 := true } }
  | .IDLE => s

/-- The method `Thermostat::applyCoolLevel`. -/
def applyCoolLevel (level : CoolLevel) (s : Thermostat) : Thermostat :=
  let s := allRelaysOff { s with coolLevel := level, heatLevel := .IDLE }
  match level with
  | .COOL =>
    { s with outputs := { s.outputs with fan1 := true, rev := true, furnCoolLow := true,
                                         comp1 := true } }
  | .COOL_SUPP =>
    { s with outputs := { s.outputs with fan1 := true, rev := true, furnCoolLow := true,
                                         furnCoolHigh := true, comp1 := true,
                                         comp2 := true } }
  | .IDLE => s

/-- The method `Thermostat::enterDefrost`. -/
def enterDefrost (s : Thermostat) : Thermostat :=
  if s.defrostActive = true then s
  else applyHeatLevel .DEFROST { s with defrostActive := true, preDefrostLevel := s.heatLevel }

/-- The method `Thermostat::exitDefrost`. -/
def exitDefrost (now : Nat) (s : Thermostat) : Thermostat :=
  if s.defrostActive = false then s
  else
    let s := { s with defrostActive := false }
    if s.action = .HEATING ∧ s.preDefrostLevel ≠ .IDLE then
      applyHeatLevel s.preDefrostLevel s
    else
      { allRelaysOff s with heatLevel := .IDLE, action := .IDLE, lastActionChange := now }

/-- The method `Thermostat::updateFanIdle`. -/
def updateFanIdle (now : Nat) (s : Thermostat) : Thermostat :=
  if s.config.fanIdleEnabled = false then s
  else if s.action ≠ .IDLE ∧ s.action ≠ .FAN_RUNNING then s
  else if s.fanIdleRunning = true then
    if wsub now s.fanIdleLastRun > wmul s.config.fanIdleRunMin 60000 then
      { s with outputs := { s.outputs with fan1 := false }, action := .IDLE,
               fanIdleRunning := false, fanIdleLastRun := now }
    else s
  else
    if wsub now s.fanIdleLastRun > wmul s.config.fanIdleWaitMin 60000 then
      { s with outputs := { s.outputs with fan1 := true }, action := .FAN_RUNNING,
               fanIdleRunning := true, fanIdleLastRun := now }
    else s

/-- The method `Thermostat::updateFanOnly`. -/
def updateFanOnly (now : Nat) (s : Thermostat) : Thermostat :=
  if s.action ≠ .FAN_RUNNING then
    let s := allRelaysOff { s with action := .FAN_RUNNING }
    { s with outputs := { s.outputs with fan1 := true }, lastActionChange := now }
  else s

/-- The escalation block of `updateHeating` (taken when `canEscalate()` holds). -/
def escalateHeat (now : Nat) (s : Thermostat) : Thermostat :=
  if s.heatLevel = .HP_LOW ∧ s.forceFurnace = false then
    { applyHeatLevel .HP_HIGH s with lastEscalation := now }
  else if s.heatLevel = .HP_HIGH ∨ (s.heatLevel = .HP_LOW ∧ s.forceFurnace = true) then
    { applyHeatLevel .FURNACE_LOW s with lastEscalation := now }
  else if s.heatLevel = .FURNACE_LOW then
    { applyHeatLevel .FURNACE_HIGH s with lastEscalation := now }
  else s

/-- The last block of `updateHeating`: the switch from a heat-pump stage to the furnace
when the outdoor-temperature permission is not active. -/
def outTempSwitch (now : Nat) (inp : Inputs) (s : Thermostat) : Thermostat :=
  if inp.outTempOk = false ∧ s.forceFurnace = false ∧ s.forceNoHP = false ∧
      (s.heatLevel = .HP_LOW ∨ s.heatLevel = .HP_HIGH) then
    { applyHeatLevel .FURNACE_LOW s with lastEscalation := now }
  else s

/-- The start block of `updateHeating` (taken when `canTurnOn()` holds): the action
becomes HEATING, the timers are set and the initial heat level is applied. -/
def startHeating (now : Nat) (inp : Inputs) (s : Thermostat) : Thermostat :=
  let s := { s with action := .HEATING, lastActionChange := now, actionStartTime := now,
                    lastEscalation := now, fanIdleRunning := false }
  if inp.outTempOk = true ∧ s.forceFurnace = false ∧ s.forceNoHP = false then
    applyHeatLevel .HP_LOW s
  else
    applyHeatLevel .FURNACE_LOW s

/-- The stop block of `updateHeating` (taken when `canTurnOff()` holds). -/
def stopHeating (now : Nat) (s : Thermostat) : Thermostat :=
  { allRelaysOff s with action := .IDLE, heatLevel := .IDLE, lastActionChange := now,
                        fanIdleLastRun := now }

/-- The method `Thermostat::updateHeating`. -/
def updateHeating (now : Nat) (inp : Inputs) (s : Thermostat) : Thermostat :=
  if s.defrostActive = true then s
  else if s.action = .IDLE ∨ s.action = .FAN_RUNNING then
    if s.currentTemp < s.heatSetpoint - s.config.heatDeadband then
      if canTurnOn now s = false then s
      else startHeating now inp s
    else updateFanIdle now s
  else if s.action = .HEATING then
    if s.currentTemp ≥ s.heatSetpoint + s.config.heatOverrun then
      if canTurnOff now s = false then s
      else stopHeating now s
    else
      outTempSwitch now inp (if canEscalate now s = true then escalateHeat now s else s)
  else s

/-- The start block of `updateCooling` (taken when `canTurnOn()` holds). -/
def startCooling (now : Nat) (s : Thermostat) : Thermostat :=
  applyCoolLevel .COOL
    { s with action := .COOLING, lastActionChange := now, actionStartTime := now,
             lastEscalation := now, fanIdleRunning := false }

/-- The stop block of `updateCooling` (taken when `canTurnOff()` holds). -/
def stopCooling (now : Nat) (s : Thermostat) : Thermostat :=
  { allRelaysOff s with action := .IDLE, coolLevel := .IDLE, lastActionChange := now,
                        fanIdleLastRun := now }

/-- The escalation block of `updateCooling`. -/
def escalateCool (now : Nat) (s : Thermostat) : Thermostat :=
  { applyCoolLevel .COOL_SUPP s with lastEscalation := now }

/-- The method `Thermostat::updateCooling`. -/
def updateCooling (now : Nat) (s : Thermostat) : Thermostat :=
  if s.action = .IDLE ∨ s.action = .FAN_RUNNING then
    if s.currentTemp > s.coolSetpoint + s.config.coolDeadband then
      if canTurnOn now s = false then s
      else startCooling now s
    else updateFanIdle now s
  else if s.action = .COOLING then
    if s.currentTemp ≤ s.coolSetpoint - s.config.coolOverrun then
      if canTurnOff now s = false then s
      else stopCooling now s
    else if s.coolLevel = .COOL ∧ canEscalate now s = true then escalateCool now s
    else s
  else s

/-- Step 2 of `update`: a temperature older than 300000 ms becomes invalid. -/
def checkStale (now : Nat) (s : Thermostat) : Thermostat :=
  if s.tempValid = true ∧ wsub now s.lastTempUpdate > 300000 then
    { s with tempValid := false }
  else s

/-- Step 3 of `update`: the defrost input. -/
def handleDefrost (now : Nat) (inp : Inputs) (s : Thermostat) : Thermostat :=
  if inp.defrostMode = true then
    if s.defrostActive = false ∧ s.action = .HEATING then enterDefrost s else s
  else
    if s.defrostActive = true then exitDefrost now s else s

/-- The condition of the max-run branch of `update`. -/
def maxRunExceeded (now : Nat) (s : Thermostat) : Bool :=
  (s.action = .HEATING ∨ s.action = .COOLING) ∧
    wsub now s.actionStartTime > s.config.maxRunTimeMs

/-- The body of the max-run branch of `update`. -/
def maxRunShutdown (now : Nat) (s : Thermostat) : Thermostat :=
  { allRelaysOff s with action := .IDLE, heatLevel := .IDLE, coolLevel := .IDLE,
                        lastActionChange := now }

/-- The `switch (_mode)` of `update`. -/
def dispatch (now : Nat) (inp : Inputs) (s : Thermostat) : Thermostat :=
  match s.mode with
  | .HEAT => updateHeating now inp s
  | .COOL => updateCooling now s
  | .HEAT_COOL =>
    if s.action = .HEATING then updateHeating now inp s
    else if s.action = .COOLING then updateCooling now s
    else if s.currentTemp < s.heatSetpoint - s.config.heatDeadband then
      updateHeating now inp s
    else if s.currentTemp > s.coolSetpoint + s.config.coolDeadband then
      updateCooling now s
    else updateFanIdle now s
  | .FAN_ONLY => updateFanOnly now s
  | .OFF => s

/-- The part of `update` after the defrost input has been handled: max-run enforcement,
the temperature validity gate and the mode dispatch. -/
def afterDefrost (now : Nat) (inp : Inputs) (s : Thermostat) : Thermostat :=
  if maxRunExceeded now s = true then maxRunShutdown now s
  else if s.tempValid = false then s
  else dispatch now inp s

/-- The method `Thermostat::update()`, one tick at clock value `now` with the confirmed
input values `inp`. -/
def update (now : Nat) (inp : Inputs) (s : Thermostat) : Thermostat :=
  if s.mode = .OFF then s
  else afterDefrost now inp (handleDefrost now inp (checkStale now s))

end Thermostat

/-! ## Executions of the controller -/

/-- One call into the controller from the scheduler or from the configuration/API layer.
`setConfig` stands for any assignment through `config()`. -/
inductive Op where
  | update (now : Nat) (inp : Inputs)
  | setMode (now : Nat) (m : ThermostatMode)
  | setCurrentTemperature (now : Nat) (temp : F32)
  | setHeatSetpoint (temp : F32)
  | setCoolSetpoint (temp : F32)
  | setForceFurnace (force : Bool)
  | setForceNoHP (noHP : Bool)
  | setConfig (c : ThermostatConfig)
  deriving DecidableEq, Repr

/-- The effect of one call. -/
def Op.apply : Op → Thermostat → Thermostat
  | .update now inp, s => s.update now inp
  | .setMode now m, s => s.setMode now m
  | .setCurrentTemperature now temp, s => s.setCurrentTemperature now temp
  | .setHeatSetpoint temp, s => { s with heatSetpoint := temp }
  | .setCoolSetpoint temp, s => { s with coolSetpoint := temp }
  | .setForceFurnace force, s => { s with forceFurnace := force }
  | .setForceNoHP noHP, s => { s with forceNoHP := noHP }
  | .setConfig c, s => { s with config := c }

/-- The state after a sequence of calls, first call first. -/
def run : List Op → Thermostat → Thermostat
  | [], s => s
  | op :: ops, s => run ops (op.apply s)

/-- The exclusivity property of a controller state. -/
def Exclusive (s : Thermostat) : Prop :=
  (s.heatLevel ≠ .IDLE → s.coolLevel = .IDLE) ∧
  (s.coolLevel ≠ .IDLE → s.heatLevel = .IDLE) ∧
  (s.action = .HEATING → s.coolLevel = .IDLE) ∧
  (s.action = .COOLING → s.heatLevel = .IDLE)

/-- The relay row of a heat level, as the relay mapping table lists it. -/
def heatRow : HeatLevel → Relays
  | .IDLE => Relays.allOff
  | .HP_LOW => { Relays.allOff with fan1 := true, furnCoolLow := true, comp1 := true }
  | .HP_HIGH =>
    { Relays.allOff with fan1 := true, furnCoolLow := true, comp1 := true, comp2 := true }
  | .FURNACE_LOW => { Relays.allOff with fan1 := true, w1 := true }
  | .FURNACE_HIGH => { Relays.allOff with fan1 := true, w1 := true, w2 := true }
  | .DEFROST =>
    { Relays.allOff with fan1 := true, furnCoolLow := true, w1 := true, comp1 := true }

/-- The relay row of a cool level, as the relay mapping table lists it. -/
def coolRow : CoolLevel → Relays
  | .IDLE => Relays.allOff
  | .COOL => { Relays.allOff with fan1 := true, rev := true, furnCoolLow := true, comp1 := true }
  | .COOL_SUPP =>
    { Relays.allOff with fan1 := true, rev := true, furnCoolLow := true, furnCoolHigh := true,
                         comp1 := true, comp2 := true }

/-- The tick's defrost handling ends the cycle: the defrost flag is set, the indicator is
confirmed-inactive, and `exitDefrost` takes its second branch (the action is not HEATING
or no pre-defrost level is recorded), which turns all relays off and sets the action to
IDLE. -/
def defrostExitForcesIdle (inp : Inputs) (s : Thermostat) : Bool :=
  s.defrostActive && !inp.defrostMode &&
    !(decide (s.action = .HEATING) && decide (s.preDefrostLevel ≠ .IDLE))

/-- The heating stage the controller holds: the pre-defrost level while the defrost flag is
set, the heat level otherwise. -/
def Thermostat.heldLevel (s : Thermostat) : HeatLevel :=
  if s.defrostActive = true then s.preDefrostLevel else s.heatLevel

/-! ## Debounced inputs (`InputPin.cpp` and the input queue of `main.cpp`) -/

/-- The state of one `InputPin` (the members `InputPin.cpp` reads and writes), together with
the state of its one-shot verification task `_tsk` and its slot in the queue `_isrEvent`.

`taskEnabled` says that `_tsk` is armed (`restartDelayed()` arms it; it is created disarmed
and, being a `TASK_ONCE` task, is disarmed again once it has run); `taskStart` is the clock
value at which it was armed and `delay` its interval. `queued` says that `_isrEvent` has an
entry for the pin, `hasClbk` that `_clbk` is not null, and `clbkCalls` counts the calls of
`_clbk`. -/
structure InputPin where
  preValue : Nat := 0
  value : Nat := 0
  confirmedActive : Bool := false
  pendingState : Int := -1
  changedAtTick : Nat := 0
  verifiedAtTick : Nat := 0
  lastActiveTick : Nat := 0
  lastInactiveTick : Nat := 0
  delay : Nat
  hasClbk : Bool
  taskEnabled : Bool := false
  taskStart : Nat := 0
  queued : Bool := false
  clbkCalls : Nat := 0
  deriving DecidableEq, Repr

namespace InputPin

/-- The constructor `InputPin::InputPin` for a pin object in static storage. -/
def create (delay : Nat) (clbk : Bool) : InputPin :=
  { delay := delay, hasClbk := clbk }

/-- The method `InputPin::initPin`; `raw1` and `raw2` are the two reads of the pin made by
`setPrevValue()` and `setValue()`. -/
def initPin (now : Nat) (raw1 raw2 : Nat) (p : InputPin) : InputPin :=
  { p with preValue := raw1, value := raw2, confirmedActive := decide (raw2 > 0),
           pendingState := -1, changedAtTick := now }

/-- The method `InputPin::Callback` (the verify step); `raw` is the live read
`getPinState()`. -/
def Callback (now : Nat) (raw : Nat) (p : InputPin) : InputPin :=
  let p := { p with verifiedAtTick := now }
  let liveState := decide (raw > 0)
  if p.pendingState ≥ 0 ∧ liveState ≠ decide (p.pendingState = 1) then
    { p with pendingState := -1 }
  else
    let p := { p with confirmedActive := liveState, pendingState := -1 }
    let p := if liveState = true then { p with lastActiveTick := now }
             else { p with lastInactiveTick := now }
    if p.hasClbk = true then { p with clbkCalls := p.clbkCalls + 1 } else p

/-- The interrupt handler `inputISRChange` (the edge step); `raw` is the read made by
`setPrevValue()`. -/
def inputISRChange (now : Nat) (raw : Nat) (p : InputPin) : InputPin :=
  { p with preValue := raw, changedAtTick := now, queued := true }

/-- The function `CheckTickTime` of `main.cpp`; the sum `changedAtTick() + 50` is a 32-bit
unsigned sum. -/
def CheckTickTime (now : Nat) (p : InputPin) : Bool :=
  decide (now ≥ (p.changedAtTick + 50) % 4294967296) || decide (p.preValue ≠ p.value)

/-- The loop body of `onCheckInputQueue` for one pin (the poll step); `raw` is the read made
by `readLiveState()`. -/
def onCheckInputQueue (now : Nat) (raw : Nat) (p : InputPin) : InputPin :=
  if p.queued = false then p
  else if CheckTickTime now p = true then
    { p with pendingState := if raw > 0 then 1 else 0, taskEnabled := true,
             taskStart := now, queued := false }
  else p

/-- Modelled from the spec: one run of the scheduler over the one-shot task `_tsk` (the
task scheduler is not part of the sources). The poll step schedules the verify step; an
armed task runs `Callback` once and is disarmed, and a task that is not armed does not
run. -/
def taskRun (now : Nat) (raw : Nat) (p : InputPin) : InputPin :=
  if p.taskEnabled = true then Callback now raw { p with taskEnabled := false } else p

end InputPin

/-- One step of the debounce protocol on an input, with the clock value and the raw level
it reads. -/
inductive InStep where
  | onEdge (now : Nat) (raw : Nat)
  | poll (now : Nat) (raw : Nat)
  | verify (now : Nat) (raw : Nat)
  deriving DecidableEq, Repr

/-- The effect of one protocol step. -/
def InStep.apply : InStep → InputPin → InputPin
  | .onEdge now raw, p => p.inputISRChange now raw
  | .poll now raw, p => p.onCheckInputQueue now raw
  | .verify now raw, p => p.taskRun now raw

/-- The input state after a sequence of protocol steps, first step first. -/
def runInput : List InStep → InputPin → InputPin
  | [], p => p
  | st :: sts, p => runInput sts (st.apply p)

/-- The fields that the part of a tick after the defrost handling never writes: the mode,
the configuration, the defrost flag and pre-defrost level, the force flags, the setpoints
and the temperature sample. -/
def Thermostat.Frame (s t : Thermostat) : Prop :=
  t.mode = s.mode ∧ t.config = s.config ∧ t.defrostActive = s.defrostActive ∧
  t.preDefrostLevel = s.preDefrostLevel ∧ t.forceFurnace = s.forceFurnace ∧
  t.forceNoHP = s.forceNoHP ∧ t.heatSetpoint = s.heatSetpoint ∧
  t.coolSetpoint = s.coolSetpoint ∧ t.currentTemp = s.currentTemp ∧
  t.tempValid = s.tempValid ∧ t.lastTempUpdate = s.lastTempUpdate

/-- An armed verification task has a pending predicted level, 0 or 1. -/
def InputPin.Armed (p : InputPin) : Prop :=
  p.taskEnabled = true → p.pendingState = 0 ∨ p.pendingState = 1

/-! ## Cycles of the controller -/

/-- The stage a running controller holds, as a number: the rank of the held heat level while
HEATING, the rank of the cool level while COOLING. -/
def Thermostat.stage (s : Thermostat) : Nat :=
  match s.action with
  | .HEATING => s.heldLevel.rank
  | .COOLING => s.coolLevel.rank
  | _ => 0

/-- The calls `ops`, made from state `s`, stay inside one heating or cooling cycle: none of
them is a mode change or a configuration change, and every tick leaves the action as it
was, without its defrost handling ending the cycle. -/
def sameCycle : List Op → Thermostat → Bool
  | [], _ => true
  | op :: ops, s =>
    (match op with
      | .update now inp =>
        !defrostExitForcesIdle inp s && decide ((s.update now inp).action = s.action)
      | .setMode _ _ => false
      | .setConfig _ => false
      | _ => true) && sameCycle ops (op.apply s)

/-- The calls `ops`, made from state `s`, stay inside one cycle (`sameCycle`) and every tick
among them leaves the stage as it was. -/
def sameStage : List Op → Thermostat → Bool
  | [], _ => true
  | op :: ops, s =>
    (match op with
      | .update now inp =>
        !defrostExitForcesIdle inp s && decide ((s.update now inp).action = s.action) &&
          decide ((s.update now inp).stage = s.stage)
      | .setMode _ _ => false
      | .setConfig _ => false
      | _ => true) && sameStage ops (op.apply s)

/-- The calls `ops`, made from state `s`, happen while the defrost indicator stays
confirmed-active and the action stays HEATING: every tick among them reads the indicator
active, and the action is HEATING after every call. -/
def defrostHeld : List Op → Thermostat → Bool
  | [], _ => true
  | op :: ops, s =>
    (match op with
      | .update _ inp => inp.defrostMode
      | _ => true) && decide ((op.apply s).action = .HEATING) && defrostHeld ops (op.apply s)

/-- The clock value a call reads, for the calls that read the clock. -/
def Op.time : Op → Option Nat
  | .update now _ => some now
  | .setMode now _ => some now
  | .setCurrentTemperature now _ => some now
  | _ => none

/-- The calls `ops` read clock values that never decrease, all of them at least `lo` and
below `hi`, and none of the calls changes the configuration. -/
def chrono (lo hi : Nat) : List Op → Bool
  | [] => true
  | op :: ops =>
    (match op with
      | .setConfig _ => false
      | _ => true) &&
    (match op.time with
      | some t => decide (lo ≤ t) && decide (t < hi) && chrono t hi ops
      | none => chrono lo hi ops)

/-! ## Example executions -/

/-- The controller started at clock value 0 with all relays off. -/
def exStart : Thermostat :=
  (Thermostat.initial Relays.allOff).begin 0

/-- Mode HEAT with a temperature of 60.0, below the heat setpoint of 68.0; the controller is
idle. -/
def exHeatIdle : Thermostat :=
  run [.setMode 0 .HEAT, .setCurrentTemperature 0 (F32.ofTenths 600)] exStart

/-- Heating in stage HP_LOW since clock value 180000, the temperature refreshed at 600000. -/
def exHeating : Thermostat :=
  run [.update 180000 ⟨true, false⟩, .setCurrentTemperature 600000 (F32.ofTenths 600)] exHeatIdle

/-- Heating has started at 180000, defrost has been entered at 181000, and the mode has then
been changed to COOL at 182000 with a temperature of 90.0: the controller is idle and the
defrost flag is still set. -/
def exCoolIdle : Thermostat :=
  run [.update 180000 ⟨true, false⟩, .update 181000 ⟨true, true⟩, .setMode 182000 .COOL,
       .setCurrentTemperature 182000 (F32.ofTenths 900)] exHeatIdle

/-- Cooling started from `exCoolIdle` by the tick at 362000, the defrost flag still set. -/
def exCooling : Thermostat :=
  exCoolIdle.update 362000 ⟨true, true⟩

/-- An input with a verify delay of 2000 ms and a change callback, initialised at clock
value 0 on a low level. -/
def exPin : InputPin :=
  (InputPin.create 2000 true).initPin 0 0 0

/-- Heating in stage HP_LOW since clock value 180000, with a temperature of 70.0, above the
stop threshold of 68.5, fed at 600000. -/
def exHeatingWarm : Thermostat :=
  run [.update 180000 ⟨true, false⟩, .setCurrentTemperature 600000 (F32.ofTenths 700)] exHeatIdle

/-- The run of `exCooling` with the fan-idle duty cycle enabled: cooling since 362000 with
the defrost flag still set, and a temperature of 76.0, inside both cooling thresholds, fed
at 2162000. -/
def exCoolingFan : Thermostat :=
  run [.setConfig { fanIdleEnabled := true }, .setMode 0 .HEAT, .setCurrentTemperature 0 (F32.ofTenths 600),
       .update 180000 ⟨true, false⟩, .update 181000 ⟨true, true⟩, .setMode 182000 .COOL,
       .setCurrentTemperature 182000 (F32.ofTenths 900), .update 362000 ⟨true, true⟩,
       .setCurrentTemperature 2162000 (F32.ofTenths 760)] exStart

/-- The state of a tick on arrival at the max-run check of `update`: the staleness check
and the defrost handling are done. -/
def Thermostat.atSwitch (now : Nat) (inp : Inputs) (s : Thermostat) : Thermostat :=
  (s.checkStale now).handleDefrost now inp

/-- The reported stage agrees with the action. -/
def StageAgrees (s : Thermostat) : Prop :=
  (s.action = .HEATING → s.heatLevel ≠ .IDLE) ∧ (s.action = .COOLING → s.coolLevel ≠ .IDLE)

/-- A state in Defrost has a pre-defrost level other than IDLE recorded. -/
def DefrostRecorded (s : Thermostat) : Prop :=
  s.defrostActive = true → s.preDefrostLevel ≠ .IDLE

/-- Mode COOL with a temperature of 90.0, above the cool setpoint of 76.0; the controller is
idle and has never been in Defrost. -/
def exCoolStart : Thermostat :=
  run [.setMode 0 .COOL, .setCurrentTemperature 0 (F32.ofTenths 900)] exStart

/-- Cooling in stage COOL since clock value 180000, the temperature of 90.0 refreshed at
700000. -/
def exCoolRun : Thermostat :=
  run [.update 180000 ⟨true, false⟩, .setCurrentTemperature 700000 (F32.ofTenths 900)] exCoolStart

/-- The state `exCooling` (cooling since 362000 with the defrost flag still set) with the
temperature of 90.0 refreshed at 900000. -/
def exCoolingLate : Thermostat :=
  run [.setCurrentTemperature 900000 (F32.ofTenths 900)] exCooling

/-- Mode HEAT_COOL, heating in stage HP_LOW since clock value 180000, the temperature of 60.0
refreshed at 1900000. -/
def exAutoHeating : Thermostat :=
  run [.setMode 0 .HEAT_COOL, .setCurrentTemperature 0 (F32.ofTenths 600), .update 180000 ⟨true, false⟩,
       .setCurrentTemperature 1900000 (F32.ofTenths 600)] exStart

/-- Mode HEAT_COOL with a temperature of 72.0, between the heating and the cooling start
thresholds; the controller is idle. -/
def exAutoIdle : Thermostat :=
  run [.setMode 0 .HEAT_COOL, .setCurrentTemperature 0 (F32.ofTenths 720)] exStart

/-- Mode FAN_ONLY chosen while `exHeating` was heating: the action is IDLE and the HP_LOW
relays are still on. -/
def exFanOnly : Thermostat :=
  run [.setMode 650000 .FAN_ONLY] exHeating

/-- The idle controller `exHeatIdle` with the fan-idle duty cycle enabled (wait 15 min, run
5 min). -/
def exFanIdle : Thermostat :=
  run [.setConfig { fanIdleEnabled := true }] exHeatIdle

/-- The controller started at clock value 4294900000, 67296 ms before the millisecond clock
wraps. -/
def exNearWrap : Thermostat :=
  (Thermostat.initial Relays.allOff).begin 4294900000

/-- Mode HEAT with a heat setpoint of `68.3f`, a heat deadband of `0.2f` and a temperature
of `68.1f`; the controller is idle. -/
def exHeatEdge : Thermostat :=
  run [.setConfig { heatDeadband := F32.ofTenths 2 }, .setHeatSetpoint (F32.ofTenths 683),
       .setMode 0 .HEAT, .setCurrentTemperature 0 (F32.ofTenths 681)] exStart

/-- Mode HEAT_COOL with the setpoint `68.3f`, the heat deadband `0.2f` and a temperature of
`68.1f`; the controller is idle. -/
def exAutoEdge : Thermostat :=
  run [.setConfig { heatDeadband := F32.ofTenths 2 }, .setHeatSetpoint (F32.ofTenths 683),
       .setMode 0 .HEAT_COOL, .setCurrentTemperature 0 (F32.ofTenths 681)] exStart

/-- Mode COOL with the cool setpoint `70.1f`, the cool deadband `0.2f` and a temperature of
`70.3f`; the controller is idle. -/
def exCoolEdge : Thermostat :=
  run [.setConfig { coolDeadband := F32.ofTenths 2 }, .setCoolSetpoint (F32.ofTenths 701),
       .setMode 0 .COOL, .setCurrentTemperature 0 (F32.ofTenths 703)] exStart

/-- Heating since 180000 with the heat setpoint `68.3f` and the heat overrun `0.3f`, the
temperature `68.6f` fed at 600000. -/
def exStopEdge : Thermostat :=
  run [.setConfig { heatOverrun := F32.ofTenths 3 }, .setHeatSetpoint (F32.ofTenths 683),
       .setMode 0 .HEAT, .setCurrentTemperature 0 (F32.ofTenths 600),
       .update 180000 ⟨true, false⟩, .setCurrentTemperature 600000 (F32.ofTenths 686)] exStart

/-! ## Theorems -/

namespace Thermostat

theorem applyHeatLevel_eq (l : HeatLevel) (s : Thermostat) :
    s.applyHeatLevel l = { s with heatLevel := l, coolLevel := .IDLE, outputs := heatRow l } := by
  cases l <;> rfl

theorem applyCoolLevel_eq (l : CoolLevel) (s : Thermostat) :
    s.applyCoolLevel l = { s with coolLevel := l, heatLevel := .IDLE, outputs := coolRow l } := by
  cases l <;> rfl

/-! ### Exclusivity -/

theorem excl_updateFanIdle (now : Nat) (s : Thermostat) (h : Exclusive s) :
    Exclusive (s.updateFanIdle now) := by
  unfold updateFanIdle
  split_ifs <;> first | exact h | exact ⟨h.1, h.2.1, by simp_all, by simp_all⟩

theorem excl_updateFanOnly (now : Nat) (s : Thermostat) (h : Exclusive s) :
    Exclusive (s.updateFanOnly now) := by
  unfold updateFanOnly
  split_ifs
  · exact ⟨h.1, h.2.1, by simp [allRelaysOff], by simp [allRelaysOff]⟩
  · exact h

theorem excl_applyHeatLevel (l : HeatLevel) (s : Thermostat) (h : s.action ≠ .COOLING) :
    Exclusive (s.applyHeatLevel l) := by
  simp [Exclusive, applyHeatLevel_eq, h]

theorem excl_applyCoolLevel (l : CoolLevel) (s : Thermostat) (h : s.action ≠ .HEATING) :
    Exclusive (s.applyCoolLevel l) := by
  simp [Exclusive, applyCoolLevel_eq, h]

theorem escalateHeat_action (now : Nat) (s : Thermostat) :
    (s.escalateHeat now).action = s.action := by
  unfold escalateHeat
  split_ifs <;> simp [applyHeatLevel_eq]

theorem excl_escalateHeat (now : Nat) (s : Thermostat) (ha : s.action ≠ .COOLING)
    (h : Exclusive s) : Exclusive (s.escalateHeat now) := by
  unfold escalateHeat
  split_ifs <;> first | exact h | simp [Exclusive, applyHeatLevel_eq, ha]

theorem excl_outTempSwitch (now : Nat) (inp : Inputs) (s : Thermostat)
    (ha : s.action ≠ .COOLING) (h : Exclusive s) : Exclusive (s.outTempSwitch now inp) := by
  unfold outTempSwitch
  split_ifs <;> first | exact h | simp [Exclusive, applyHeatLevel_eq, ha]

theorem excl_updateHeating (now : Nat) (inp : Inputs) (s : Thermostat) (h : Exclusive s) :
    Exclusive (s.updateHeating now inp) := by
  unfold updateHeating
  split_ifs with h1 h2 h3 h4 h5 h6 h7 h8
  · exact h
  · exact h
  · simp only [startHeating]
    split_ifs <;> exact excl_applyHeatLevel _ _ (by simp)
  · exact excl_updateFanIdle now s h
  · exact h
  · have := h.2.2.1 h5
    simp [stopHeating, Exclusive, allRelaysOff, this]
  · exact excl_outTempSwitch now inp _ (by simp [escalateHeat_action, h5])
      (excl_escalateHeat now s (by simp [h5]) h)
  · exact excl_outTempSwitch now inp _ (by simp [h5]) h
  · exact h

theorem excl_updateCooling (now : Nat) (s : Thermostat) (h : Exclusive s) :
    Exclusive (s.updateCooling now) := by
  unfold updateCooling
  split_ifs with h1 h2 h3 h4 h5 h6 h7
  · exact h
  · simp [startCooling, Exclusive, applyCoolLevel_eq]
  · exact excl_updateFanIdle now s h
  · exact h
  · have := h.2.2.2 h4
    simp [stopCooling, Exclusive, allRelaysOff, this]
  · simp [escalateCool, Exclusive, applyCoolLevel_eq, h4]
  · exact h
  · exact h

theorem exitDefrost_active (now : Nat) (s : Thermostat) (h : s.defrostActive = true) :
    s.exitDefrost now =
      if s.action = .HEATING ∧ s.preDefrostLevel ≠ .IDLE then
        { s with defrostActive := false, heatLevel := s.preDefrostLevel, coolLevel := .IDLE,
                 outputs := heatRow s.preDefrostLevel }
      else
        { s with defrostActive := false, outputs := Relays.allOff, heatLevel := .IDLE,
                 action := .IDLE, lastActionChange := now } := by
  simp [exitDefrost, h, applyHeatLevel_eq, allRelaysOff]

theorem enterDefrost_inactive (s : Thermostat) (h : s.defrostActive = false) :
    s.enterDefrost =
      { s with defrostActive := true, preDefrostLevel := s.heatLevel, heatLevel := .DEFROST,
               coolLevel := .IDLE, outputs := heatRow .DEFROST } := by
  simp [enterDefrost, h, applyHeatLevel_eq]

theorem excl_handleDefrost (now : Nat) (inp : Inputs) (s : Thermostat) (h : Exclusive s) :
    Exclusive (s.handleDefrost now inp) := by
  unfold handleDefrost
  split_ifs with h1 h2 h3
  · simp [enterDefrost_inactive _ h2.1, Exclusive, h2.2]
  · exact h
  · rw [exitDefrost_active now s h3]
    split_ifs with h4
    · simp [Exclusive, h4.1]
    · have := h.1
      simp [Exclusive, this]
  · exact h

theorem excl_dispatch (now : Nat) (inp : Inputs) (s : Thermostat) (h : Exclusive s) :
    Exclusive (s.dispatch now inp) := by
  unfold dispatch
  split
  · exact excl_updateHeating now inp s h
  · exact excl_updateCooling now s h
  · split_ifs
    · exact excl_updateHeating now inp s h
    · exact excl_updateCooling now s h
    · exact excl_updateHeating now inp s h
    · exact excl_updateCooling now s h
    · exact excl_updateFanIdle now s h
  · exact excl_updateFanOnly now s h
  · exact h

theorem excl_update (now : Nat) (inp : Inputs) (s : Thermostat) (h : Exclusive s) :
    Exclusive (s.update now inp) := by
  have h1 : Exclusive (s.checkStale now) := by
    unfold checkStale; split_ifs
    · exact h
    · exact h
  have h2 := excl_handleDefrost now inp _ h1
  unfold update afterDefrost
  split_ifs
  · exact h
  · simp [Exclusive, maxRunShutdown, allRelaysOff]
  · exact h2
  · exact excl_dispatch now inp _ h2

theorem excl_setMode (now : Nat) (m : ThermostatMode) (s : Thermostat) (h : Exclusive s) :
    Exclusive (s.setMode now m) := by
  unfold setMode
  split_ifs
  · exact h
  · simp [Exclusive, allRelaysOff]
  · exact ⟨h.1, h.2.1, by simp, by simp⟩

end Thermostat

theorem excl_apply (op : Op) (s : Thermostat) (h : Exclusive s) : Exclusive (op.apply s) := by
  cases op with
  | update now inp => exact Thermostat.excl_update now inp s h
  | setMode now m => exact Thermostat.excl_setMode now m s h
  | _ => exact h

theorem excl_run (ops : List Op) : ∀ s : Thermostat, Exclusive s → Exclusive (run ops s) := by
  induction ops with
  | nil => intro s h; exact h
  | cons op ops ih => intro s h; exact ih _ (excl_apply op s h)

/-- C1. Exclusivity: in every state reached from the constructed controller (after
`begin()`) by any sequence of ticks, mode changes, temperature updates, setpoint and
force-flag setters and configuration changes, a non-idle heat level implies an idle cool
level and conversely, HEATING implies an idle cool level and COOLING an idle heat level. -/
theorem exclusivity_reachable (r : Relays) (now0 : Nat) (ops : List Op) :
    Exclusive (run ops ((Thermostat.initial r).begin now0)) := by
  apply excl_run
  simp [Exclusive, Thermostat.initial, Thermostat.begin]

namespace Thermostat

/-! ### Fields a tick leaves alone -/

theorem Frame.refl (s : Thermostat) : Frame s s := by
  simp [Frame]

theorem Frame.trans {a b c : Thermostat} (h1 : Frame a b) (h2 : Frame b c) : Frame a c := by
  unfold Frame at *
  obtain ⟨a1, a2, a3, a4, a5, a6, a7, a8, a9, a10, a11⟩ := h1
  obtain ⟨b1, b2, b3, b4, b5, b6, b7, b8, b9, b10, b11⟩ := h2
  exact ⟨b1.trans a1, b2.trans a2, b3.trans a3, b4.trans a4, b5.trans a5, b6.trans a6,
    b7.trans a7, b8.trans a8, b9.trans a9, b10.trans a10, b11.trans a11⟩

theorem frame_applyHeatLevel (l : HeatLevel) (s : Thermostat) : Frame s (s.applyHeatLevel l) := by
  simp [Frame, applyHeatLevel_eq]

theorem frame_applyCoolLevel (l : CoolLevel) (s : Thermostat) : Frame s (s.applyCoolLevel l) := by
  simp [Frame, applyCoolLevel_eq]

theorem frame_maxRunShutdown (now : Nat) (s : Thermostat) : Frame s (s.maxRunShutdown now) := by
  simp [Frame, maxRunShutdown, allRelaysOff]

theorem startHeating_eq (now : Nat) (inp : Inputs) (s : Thermostat) :
    s.startHeating now inp =
      { s with action := .HEATING, lastActionChange := now, actionStartTime := now,
               lastEscalation := now, fanIdleRunning := false, coolLevel := .IDLE,
               heatLevel := if inp.outTempOk = true ∧ s.forceFurnace = false ∧
                              s.forceNoHP = false then .HP_LOW else .FURNACE_LOW,
               outputs := heatRow (if inp.outTempOk = true ∧ s.forceFurnace = false ∧
                              s.forceNoHP = false then .HP_LOW else .FURNACE_LOW) } := by
  simp only [startHeating]
  split_ifs <;> simp [applyHeatLevel_eq]

theorem frame_startHeating (now : Nat) (inp : Inputs) (s : Thermostat) :
    Frame s (s.startHeating now inp) := by
  simp [Frame, startHeating_eq]

theorem frame_stopHeating (now : Nat) (s : Thermostat) : Frame s (s.stopHeating now) := by
  simp [Frame, stopHeating, allRelaysOff]

theorem frame_escalateHeat (now : Nat) (s : Thermostat) : Frame s (s.escalateHeat now) := by
  unfold escalateHeat
  split_ifs <;> simp [Frame, applyHeatLevel_eq]

theorem frame_outTempSwitch (now : Nat) (inp : Inputs) (s : Thermostat) :
    Frame s (s.outTempSwitch now inp) := by
  unfold outTempSwitch
  split_ifs <;> simp [Frame, applyHeatLevel_eq]

theorem frame_startCooling (now : Nat) (s : Thermostat) : Frame s (s.startCooling now) := by
  simp [Frame, startCooling, applyCoolLevel_eq]

theorem frame_stopCooling (now : Nat) (s : Thermostat) : Frame s (s.stopCooling now) := by
  simp [Frame, stopCooling, allRelaysOff]

theorem frame_escalateCool (now : Nat) (s : Thermostat) : Frame s (s.escalateCool now) := by
  simp [Frame, escalateCool, applyCoolLevel_eq]

theorem frame_updateFanIdle (now : Nat) (s : Thermostat) : Frame s (s.updateFanIdle now) := by
  unfold updateFanIdle
  split_ifs <;> simp [Frame]

theorem frame_updateFanOnly (now : Nat) (s : Thermostat) : Frame s (s.updateFanOnly now) := by
  unfold updateFanOnly
  split_ifs <;> simp [Frame, allRelaysOff]

theorem frame_updateHeating (now : Nat) (inp : Inputs) (s : Thermostat) :
    Frame s (s.updateHeating now inp) := by
  unfold updateHeating
  split_ifs
  · exact Frame.refl s
  · exact Frame.refl s
  · exact frame_startHeating now inp s
  · exact frame_updateFanIdle now s
  · exact Frame.refl s
  · exact frame_stopHeating now s
  · exact (frame_escalateHeat now s).trans (frame_outTempSwitch now inp _)
  · exact frame_outTempSwitch now inp s
  · exact Frame.refl s

theorem frame_updateCooling (now : Nat) (s : Thermostat) : Frame s (s.updateCooling now) := by
  unfold updateCooling
  split_ifs
  · exact Frame.refl s
  · exact frame_startCooling now s
  · exact frame_updateFanIdle now s
  · exact Frame.refl s
  · exact frame_stopCooling now s
  · exact frame_escalateCool now s
  · exact Frame.refl s
  · exact Frame.refl s

theorem frame_dispatch (now : Nat) (inp : Inputs) (s : Thermostat) :
    Frame s (s.dispatch now inp) := by
  unfold dispatch
  split
  · exact frame_updateHeating now inp s
  · exact frame_updateCooling now s
  · split_ifs
    · exact frame_updateHeating now inp s
    · exact frame_updateCooling now s
    · exact frame_updateHeating now inp s
    · exact frame_updateCooling now s
    · exact frame_updateFanIdle now s
  · exact frame_updateFanOnly now s
  · exact Frame.refl s

theorem frame_afterDefrost (now : Nat) (inp : Inputs) (s : Thermostat) :
    Frame s (s.afterDefrost now inp) := by
  unfold afterDefrost
  split_ifs
  · exact frame_maxRunShutdown now s
  · exact Frame.refl s
  · exact frame_dispatch now inp s

/-! The staleness check writes only the validity flag. -/

@[simp]
theorem checkStale_outputs (now : Nat) (s : Thermostat) :
    (s.checkStale now).outputs = s.outputs := by
  unfold checkStale; split_ifs <;> rfl

@[simp]
theorem checkStale_mode (now : Nat) (s : Thermostat) :
    (s.checkStale now).mode = s.mode := by
  unfold checkStale; split_ifs <;> rfl

@[simp]
theorem checkStale_action (now : Nat) (s : Thermostat) :
    (s.checkStale now).action = s.action := by
  unfold checkStale; split_ifs <;> rfl

@[simp]
theorem checkStale_heatLevel (now : Nat) (s : Thermostat) :
    (s.checkStale now).heatLevel = s.heatLevel := by
  unfold checkStale; split_ifs <;> rfl

@[simp]
theorem checkStale_coolLevel (now : Nat) (s : Thermostat) :
    (s.checkStale now).coolLevel = s.coolLevel := by
  unfold checkStale; split_ifs <;> rfl

@[simp]
theorem checkStale_currentTemp (now : Nat) (s : Thermostat) :
    (s.checkStale now).currentTemp = s.currentTemp := by
  unfold checkStale; split_ifs <;> rfl

@[simp]
theorem checkStale_heatSetpoint (now : Nat) (s : Thermostat) :
    (s.checkStale now).heatSetpoint = s.heatSetpoint := by
  unfold checkStale; split_ifs <;> rfl

@[simp]
theorem checkStale_coolSetpoint (now : Nat) (s : Thermostat) :
    (s.checkStale now).coolSetpoint = s.coolSetpoint := by
  unfold checkStale; split_ifs <;> rfl

@[simp]
theorem checkStale_lastTempUpdate (now : Nat) (s : Thermostat) :
    (s.checkStale now).lastTempUpdate = s.lastTempUpdate := by
  unfold checkStale; split_ifs <;> rfl

@[simp]
theorem checkStale_forceFurnace (now : Nat) (s : Thermostat) :
    (s.checkStale now).forceFurnace = s.forceFurnace := by
  unfold checkStale; split_ifs <;> rfl

@[simp]
theorem checkStale_forceNoHP (now : Nat) (s : Thermostat) :
    (s.checkStale now).forceNoHP = s.forceNoHP := by
  unfold checkStale; split_ifs <;> rfl

@[simp]
theorem checkStale_defrostActive (now : Nat) (s : Thermostat) :
    (s.checkStale now).defrostActive = s.defrostActive := by
  unfold checkStale; split_ifs <;> rfl

@[simp]
theorem checkStale_preDefrostLevel (now : Nat) (s : Thermostat) :
    (s.checkStale now).preDefrostLevel = s.preDefrostLevel := by
  unfold checkStale; split_ifs <;> rfl

@[simp]
theorem checkStale_lastActionChange (now : Nat) (s : Thermostat) :
    (s.checkStale now).lastActionChange = s.lastActionChange := by
  unfold checkStale; split_ifs <;> rfl

@[simp]
theorem checkStale_lastEscalation (now : Nat) (s : Thermostat) :
    (s.checkStale now).lastEscalation = s.lastEscalation := by
  unfold checkStale; split_ifs <;> rfl

@[simp]
theorem checkStale_actionStartTime (now : Nat) (s : Thermostat) :
    (s.checkStale now).actionStartTime = s.actionStartTime := by
  unfold checkStale; split_ifs <;> rfl

@[simp]
theorem checkStale_fanIdleLastRun (now : Nat) (s : Thermostat) :
    (s.checkStale now).fanIdleLastRun = s.fanIdleLastRun := by
  unfold checkStale; split_ifs <;> rfl

@[simp]
theorem checkStale_fanIdleRunning (now : Nat) (s : Thermostat) :
    (s.checkStale now).fanIdleRunning = s.fanIdleRunning := by
  unfold checkStale; split_ifs <;> rfl

@[simp]
theorem checkStale_config (now : Nat) (s : Thermostat) :
    (s.checkStale now).config = s.config := by
  unfold checkStale; split_ifs <;> rfl

/-! The fields the defrost handling of a tick never writes. -/

@[simp]
theorem handleDefrost_mode (now : Nat) (inp : Inputs) (s : Thermostat) :
    (s.handleDefrost now inp).mode = s.mode := by
  unfold handleDefrost
  split_ifs with h1 h2 h3
  · rw [enterDefrost_inactive _ h2.1]
  · rfl
  · rw [exitDefrost_active now s h3]
    split_ifs <;> rfl
  · rfl

@[simp]
theorem handleDefrost_config (now : Nat) (inp : Inputs) (s : Thermostat) :
    (s.handleDefrost now inp).config = s.config := by
  unfold handleDefrost
  split_ifs with h1 h2 h3
  · rw [enterDefrost_inactive _ h2.1]
  · rfl
  · rw [exitDefrost_active now s h3]
    split_ifs <;> rfl
  · rfl

@[simp]
theorem handleDefrost_forceFurnace (now : Nat) (inp : Inputs) (s : Thermostat) :
    (s.handleDefrost now inp).forceFurnace = s.forceFurnace := by
  unfold handleDefrost
  split_ifs with h1 h2 h3
  · rw [enterDefrost_inactive _ h2.1]
  · rfl
  · rw [exitDefrost_active now s h3]
    split_ifs <;> rfl
  · rfl

@[simp]
theorem handleDefrost_forceNoHP (now : Nat) (inp : Inputs) (s : Thermostat) :
    (s.handleDefrost now inp).forceNoHP = s.forceNoHP := by
  unfold handleDefrost
  split_ifs with h1 h2 h3
  · rw [enterDefrost_inactive _ h2.1]
  · rfl
  · rw [exitDefrost_active now s h3]
    split_ifs <;> rfl
  · rfl

@[simp]
theorem handleDefrost_tempValid (now : Nat) (inp : Inputs) (s : Thermostat) :
    (s.handleDefrost now inp).tempValid = s.tempValid := by
  unfold handleDefrost
  split_ifs with h1 h2 h3
  · rw [enterDefrost_inactive _ h2.1]
  · rfl
  · rw [exitDefrost_active now s h3]
    split_ifs <;> rfl
  · rfl

@[simp]
theorem handleDefrost_currentTemp (now : Nat) (inp : Inputs) (s : Thermostat) :
    (s.handleDefrost now inp).currentTemp = s.currentTemp := by
  unfold handleDefrost
  split_ifs with h1 h2 h3
  · rw [enterDefrost_inactive _ h2.1]
  · rfl
  · rw [exitDefrost_active now s h3]
    split_ifs <;> rfl
  · rfl

@[simp]
theorem handleDefrost_heatSetpoint (now : Nat) (inp : Inputs) (s : Thermostat) :
    (s.handleDefrost now inp).heatSetpoint = s.heatSetpoint := by
  unfold handleDefrost
  split_ifs with h1 h2 h3
  · rw [enterDefrost_inactive _ h2.1]
  · rfl
  · rw [exitDefrost_active now s h3]
    split_ifs <;> rfl
  · rfl

@[simp]
theorem handleDefrost_coolSetpoint (now : Nat) (inp : Inputs) (s : Thermostat) :
    (s.handleDefrost now inp).coolSetpoint = s.coolSetpoint := by
  unfold handleDefrost
  split_ifs with h1 h2 h3
  · rw [enterDefrost_inactive _ h2.1]
  · rfl
  · rw [exitDefrost_active now s h3]
    split_ifs <;> rfl
  · rfl

@[simp]
theorem handleDefrost_lastTempUpdate (now : Nat) (inp : Inputs) (s : Thermostat) :
    (s.handleDefrost now inp).lastTempUpdate = s.lastTempUpdate := by
  unfold handleDefrost
  split_ifs with h1 h2 h3
  · rw [enterDefrost_inactive _ h2.1]
  · rfl
  · rw [exitDefrost_active now s h3]
    split_ifs <;> rfl
  · rfl

@[simp]
theorem handleDefrost_lastEscalation (now : Nat) (inp : Inputs) (s : Thermostat) :
    (s.handleDefrost now inp).lastEscalation = s.lastEscalation := by
  unfold handleDefrost
  split_ifs with h1 h2 h3
  · rw [enterDefrost_inactive _ h2.1]
  · rfl
  · rw [exitDefrost_active now s h3]
    split_ifs <;> rfl
  · rfl

@[simp]
theorem handleDefrost_actionStartTime (now : Nat) (inp : Inputs) (s : Thermostat) :
    (s.handleDefrost now inp).actionStartTime = s.actionStartTime := by
  unfold handleDefrost
  split_ifs with h1 h2 h3
  · rw [enterDefrost_inactive _ h2.1]
  · rfl
  · rw [exitDefrost_active now s h3]
    split_ifs <;> rfl
  · rfl

@[simp]
theorem handleDefrost_fanIdleLastRun (now : Nat) (inp : Inputs) (s : Thermostat) :
    (s.handleDefrost now inp).fanIdleLastRun = s.fanIdleLastRun := by
  unfold handleDefrost
  split_ifs with h1 h2 h3
  · rw [enterDefrost_inactive _ h2.1]
  · rfl
  · rw [exitDefrost_active now s h3]
    split_ifs <;> rfl
  · rfl

@[simp]
theorem handleDefrost_fanIdleRunning (now : Nat) (inp : Inputs) (s : Thermostat) :
    (s.handleDefrost now inp).fanIdleRunning = s.fanIdleRunning := by
  unfold handleDefrost
  split_ifs with h1 h2 h3
  · rw [enterDefrost_inactive _ h2.1]
  · rfl
  · rw [exitDefrost_active now s h3]
    split_ifs <;> rfl
  · rfl

/-- A tick never writes the mode. -/
@[simp]
theorem update_mode (now : Nat) (inp : Inputs) (s : Thermostat) :
    (s.update now inp).mode = s.mode := by
  unfold update
  split_ifs with h
  · rfl
  · simpa using (frame_afterDefrost now inp (handleDefrost now inp (s.checkStale now))).1

/-- A tick never writes the configuration. -/
@[simp]
theorem update_config (now : Nat) (inp : Inputs) (s : Thermostat) :
    (s.update now inp).config = s.config := by
  unfold update
  split_ifs with h
  · rfl
  · simpa using (frame_afterDefrost now inp (handleDefrost now inp (s.checkStale now))).2.1

/-- C10. Relay mapping table: whatever the relays were before, after `applyHeatLevel` or
`applyCoolLevel` the relays that are on are exactly the row of the stage and every other
relay is off. -/
theorem relay_table (s : Thermostat) :
    (s.applyHeatLevel .HP_LOW).outputs =
      { fan1 := true, rev := false, furnCoolLow := true, furnCoolHigh := false,
        w1 := false, w2 := false, comp1 := true, comp2 := false } ∧
    (s.applyHeatLevel .HP_HIGH).outputs =
      { fan1 := true, rev := false, furnCoolLow := true, furnCoolHigh := false,
        w1 := false, w2 := false, comp1 := true, comp2 := true } ∧
    (s.applyHeatLevel .FURNACE_LOW).outputs =
      { fan1 := true, rev := false, furnCoolLow := false, furnCoolHigh := false,
        w1 := true, w2 := false, comp1 := false, comp2 := false } ∧
    (s.applyHeatLevel .FURNACE_HIGH).outputs =
      { fan1 := true, rev := false, furnCoolLow := false, furnCoolHigh := false,
        w1 := true, w2 := true, comp1 := false, comp2 := false } ∧
    (s.applyHeatLevel .DEFROST).outputs =
      { fan1 := true, rev := false, furnCoolLow := true, furnCoolHigh := false,
        w1 := true, w2 := false, comp1 := true, comp2 := false } ∧
    (s.applyCoolLevel .COOL).outputs =
      { fan1 := true, rev := true, furnCoolLow := true, furnCoolHigh := false,
        w1 := false, w2 := false, comp1 := true, comp2 := false } ∧
    (s.applyCoolLevel .COOL_SUPP).outputs =
      { fan1 := true, rev := true, furnCoolLow := true, furnCoolHigh := true,
        w1 := false, w2 := false, comp1 := true, comp2 := true } ∧
    (s.applyHeatLevel .IDLE).outputs = Relays.allOff ∧
    (s.applyCoolLevel .IDLE).outputs = Relays.allOff :=
  ⟨rfl, rfl, rfl, rfl, rfl, rfl, rfl, rfl, rfl⟩

/-! ### Max-run enforcement -/

/-- When the defrost handling does not end the cycle it leaves the action alone. -/
theorem handleDefrost_action (now : Nat) (inp : Inputs) (s : Thermostat)
    (hx : defrostExitForcesIdle inp s = false) :
    (s.handleDefrost now inp).action = s.action := by
  unfold handleDefrost
  split_ifs with h1 h2 h3
  · rw [enterDefrost_inactive _ h2.1]
  · rfl
  · rw [exitDefrost_active now s h3]
    split_ifs with h4
    · rfl
    · simp [defrostExitForcesIdle, h3, h1] at hx
      exact absurd hx h4
  · rfl

/-- When the defrost handling does not end the cycle it leaves `lastActionChange` alone. -/
theorem handleDefrost_lastActionChange (now : Nat) (inp : Inputs) (s : Thermostat)
    (hx : defrostExitForcesIdle inp s = false) :
    (s.handleDefrost now inp).lastActionChange = s.lastActionChange := by
  unfold handleDefrost
  split_ifs with h1 h2 h3
  · rw [enterDefrost_inactive _ h2.1]
  · rfl
  · rw [exitDefrost_active now s h3]
    split_ifs with h4
    · rfl
    · simp [defrostExitForcesIdle, h3, h1] at hx
      exact absurd hx h4
  · rfl

theorem defrostExitForcesIdle_checkStale (now : Nat) (inp : Inputs) (s : Thermostat) :
    defrostExitForcesIdle inp (s.checkStale now) = defrostExitForcesIdle inp s := by
  simp [defrostExitForcesIdle]

/-- C2 (amended). Max-run enforcement: for every state with a mode other than OFF and the
action HEATING or COOLING, and every clock value with `now - actionStartTime` above
`maxRunTimeMs`, provided the defrost handling of the same tick does not itself end the
cycle, `update` ends with all eight relays off, the action IDLE, both levels IDLE and
`lastActionChange = now`, whatever the temperature, its validity, the setpoints, the
timing configuration, the force flags and the input values are. -/
theorem maxRun_unconditional (s : Thermostat) (now : Nat) (inp : Inputs)
    (hmode : s.mode ≠ .OFF)
    (hact : s.action = .HEATING ∨ s.action = .COOLING)
    (hrun : wsub now s.actionStartTime > s.config.maxRunTimeMs)
    (hx : defrostExitForcesIdle inp s = false) :
    (s.update now inp).outputs = Relays.allOff ∧
    (s.update now inp).action = .IDLE ∧
    (s.update now inp).heatLevel = .IDLE ∧
    (s.update now inp).coolLevel = .IDLE ∧
    (s.update now inp).lastActionChange = now := by
  have hd := handleDefrost_action now inp (s.checkStale now)
    ((defrostExitForcesIdle_checkStale now inp s).trans hx)
  have hm : maxRunExceeded now (handleDefrost now inp (s.checkStale now)) = true := by
    simp only [maxRunExceeded, hd, handleDefrost_actionStartTime, handleDefrost_config,
      checkStale_action, checkStale_actionStartTime, checkStale_config]
    simpa using ⟨hact, hrun⟩
  simp [update, hmode, afterDefrost, hm, maxRunShutdown, allRelaysOff]

/-! ### Stage order within a tick -/

theorem escalateHeat_rank (now : Nat) (s : Thermostat) :
    (s.escalateHeat now).action = s.action ∧
    s.heatLevel.rank ≤ (s.escalateHeat now).heatLevel.rank := by
  unfold escalateHeat
  split_ifs with h1 h2 h3
  · simp [applyHeatLevel_eq, h1.1, HeatLevel.rank]
  · rcases h2 with h | h <;> simp [applyHeatLevel_eq, h, HeatLevel.rank]
  · simp [applyHeatLevel_eq, h3, HeatLevel.rank]
  · simp

theorem outTempSwitch_rank (now : Nat) (inp : Inputs) (s : Thermostat) :
    (s.outTempSwitch now inp).action = s.action ∧
    s.heatLevel.rank ≤ (s.outTempSwitch now inp).heatLevel.rank := by
  unfold outTempSwitch
  split_ifs with h1
  · rcases h1.2.2.2 with h | h <;> simp [applyHeatLevel_eq, h, HeatLevel.rank]
  · simp

/-- The method `updateHeating` while the action is HEATING. -/
theorem updateHeating_heating (now : Nat) (inp : Inputs) (s : Thermostat)
    (ha : s.action = .HEATING) :
    s.updateHeating now inp =
      if s.defrostActive = true then s
      else if s.currentTemp ≥ s.heatSetpoint + s.config.heatOverrun then
        if canTurnOff now s = false then s else stopHeating now s
      else outTempSwitch now inp (if canEscalate now s = true then escalateHeat now s else s) := by
  simp [updateHeating, ha]

/-- The method `updateCooling` while the action is COOLING. -/
theorem updateCooling_cooling (now : Nat) (s : Thermostat) (ha : s.action = .COOLING) :
    s.updateCooling now =
      if s.currentTemp ≤ s.coolSetpoint - s.config.coolOverrun then
        if canTurnOff now s = false then s else stopCooling now s
      else if s.coolLevel = .COOL ∧ canEscalate now s = true then escalateCool now s
      else s := by
  simp [updateCooling, ha]

theorem updateHeating_rank (now : Nat) (inp : Inputs) (s : Thermostat)
    (ha : s.action = .HEATING) (hb : (s.updateHeating now inp).action = .HEATING) :
    s.heatLevel.rank ≤ (s.updateHeating now inp).heatLevel.rank := by
  rw [updateHeating_heating now inp s ha] at hb ⊢
  split_ifs at hb ⊢ with h1 h2 h3 h4
  · exact le_refl _
  · exact le_refl _
  · simp [stopHeating] at hb
  · exact (escalateHeat_rank now s).2.trans (outTempSwitch_rank now inp _).2
  · exact (outTempSwitch_rank now inp s).2

theorem updateHeating_of_cooling (now : Nat) (inp : Inputs) (s : Thermostat)
    (ha : s.action = .COOLING) : s.updateHeating now inp = s := by
  simp [updateHeating, ha]

theorem updateCooling_of_heating (now : Nat) (s : Thermostat)
    (ha : s.action = .HEATING) : s.updateCooling now = s := by
  simp [updateCooling, ha]

theorem updateCooling_rank (now : Nat) (s : Thermostat)
    (ha : s.action = .COOLING) (hb : (s.updateCooling now).action = .COOLING) :
    s.coolLevel.rank ≤ (s.updateCooling now).coolLevel.rank := by
  rw [updateCooling_cooling now s ha] at hb ⊢
  split_ifs at hb ⊢ with h1 h2 h3
  · exact le_refl _
  · simp [stopCooling] at hb
  · simp [escalateCool, applyCoolLevel_eq, h3.1, CoolLevel.rank]
  · exact le_refl _

theorem updateFanOnly_action (now : Nat) (s : Thermostat) :
    (s.updateFanOnly now).action = .FAN_RUNNING := by
  unfold updateFanOnly
  split_ifs with h
  · simp [allRelaysOff]
  · simpa using h

theorem updateFanIdle_of_running (now : Nat) (s : Thermostat)
    (ha : s.action = .HEATING ∨ s.action = .COOLING) : s.updateFanIdle now = s := by
  unfold updateFanIdle
  rcases ha with ha | ha <;> simp [ha]

theorem afterDefrost_heat_rank (now : Nat) (inp : Inputs) (s : Thermostat)
    (ha : s.action = .HEATING) (hb : (s.afterDefrost now inp).action = .HEATING) :
    s.heatLevel.rank ≤ (s.afterDefrost now inp).heatLevel.rank := by
  revert hb
  unfold afterDefrost
  split_ifs with h1 h2
  · simp [maxRunShutdown]
  · simp
  · unfold dispatch
    split
    · exact updateHeating_rank now inp s ha
    · simp [updateCooling_of_heating now s ha]
    · simp only [ha, if_true]
      exact updateHeating_rank now inp s ha
    · simp [updateFanOnly_action]
    · simp

theorem afterDefrost_cool_rank (now : Nat) (inp : Inputs) (s : Thermostat)
    (ha : s.action = .COOLING) (hb : (s.afterDefrost now inp).action = .COOLING) :
    s.coolLevel.rank ≤ (s.afterDefrost now inp).coolLevel.rank := by
  revert hb
  unfold afterDefrost
  split_ifs with h1 h2
  · simp [maxRunShutdown]
  · simp
  · unfold dispatch
    split
    · simp [updateHeating_of_cooling now inp s ha]
    · exact updateCooling_rank now s ha
    · simp only [ha, if_true, reduceCtorEq, if_false]
      exact updateCooling_rank now s ha
    · simp [updateFanOnly_action]
    · simp

/-- With the defrost flag clear before and after, the defrost handling does nothing. -/
theorem handleDefrost_eq_self (now : Nat) (inp : Inputs) (s : Thermostat)
    (h0 : s.defrostActive = false) (h1 : (s.handleDefrost now inp).defrostActive = false) :
    s.handleDefrost now inp = s := by
  unfold handleDefrost at h1 ⊢
  split_ifs at h1 ⊢ with a b c
  · rw [enterDefrost_inactive _ b.1] at h1
    simp at h1
  · rfl
  · simp [h0] at c
  · rfl

/-- C9. Escalation monotonicity: for every tick during which the action stays HEATING
(or stays COOLING) and the defrost flag is clear before and after the tick, the heat level
(the cool level) after the tick is at least the one before it in the order
HP_LOW < HP_HIGH < FURNACE_LOW < FURNACE_HIGH (COOL < COOL_SUPP). -/
theorem stage_never_decreases (s : Thermostat) (now : Nat) (inp : Inputs)
    (hpre : s.defrostActive = false) (hpost : (s.update now inp).defrostActive = false) :
    (s.action = .HEATING → (s.update now inp).action = .HEATING →
      s.heatLevel.rank ≤ (s.update now inp).heatLevel.rank) ∧
    (s.action = .COOLING → (s.update now inp).action = .COOLING →
      s.coolLevel.rank ≤ (s.update now inp).coolLevel.rank) := by
  unfold update at hpost ⊢
  split_ifs at hpost ⊢ with hm
  · simp
  · have hfr := (frame_afterDefrost now inp (handleDefrost now inp (s.checkStale now))).2.2.1
    rw [hpost] at hfr
    have hhd := handleDefrost_eq_self now inp (s.checkStale now) (by simpa using hpre) hfr.symm
    rw [hhd]
    constructor
    · intro ha hb
      have := afterDefrost_heat_rank now inp (s.checkStale now) (by simpa using ha) hb
      simpa using this
    · intro ha hb
      have := afterDefrost_cool_rank now inp (s.checkStale now) (by simpa using ha) hb
      simpa using this

end Thermostat

namespace InputPin

/-! ### Debounced inputs -/

theorem armed_apply (st : InStep) (p : InputPin) (h : Armed p) : Armed (st.apply p) := by
  cases st with
  | onEdge now raw => simpa [InStep.apply, inputISRChange, Armed] using h
  | poll now raw =>
    simp only [InStep.apply, onCheckInputQueue]
    split_ifs <;> first | exact h | simp [Armed]
  | verify now raw =>
    simp only [InStep.apply, taskRun]
    split_ifs with h1
    · intro h2
      simp only [Callback] at h2
      split_ifs at h2
    · exact h

theorem armed_run (sts : List InStep) : ∀ p : InputPin, Armed p → Armed (runInput sts p) := by
  induction sts with
  | nil => intro p h; exact h
  | cons st sts ih => intro p h; exact ih _ (armed_apply st p h)

/-- C7. Postcondition of the verify step: for an input with a pending predicted level `e`
and a registered change callback, and every live read `raw`: if the live level matches `e`,
then after `Callback` the confirmed value is the live level, the callback has been called
exactly once more and no level is pending; if it does not match, the confirmed value and the
last-active and last-inactive timestamps are unchanged, the callback has not been called
and no level is pending. -/
theorem verify_postcondition (p : InputPin) (now raw : Nat) (e : Bool)
    (hpend : p.pendingState = if e = true then 1 else 0) (hclbk : p.hasClbk = true) :
    (decide (raw > 0) = e →
      (p.Callback now raw).confirmedActive = decide (raw > 0) ∧
      (p.Callback now raw).clbkCalls = p.clbkCalls + 1 ∧
      (p.Callback now raw).pendingState = -1) ∧
    (decide (raw > 0) ≠ e →
      (p.Callback now raw).confirmedActive = p.confirmedActive ∧
      (p.Callback now raw).lastActiveTick = p.lastActiveTick ∧
      (p.Callback now raw).lastInactiveTick = p.lastInactiveTick ∧
      (p.Callback now raw).clbkCalls = p.clbkCalls ∧
      (p.Callback now raw).pendingState = -1) := by
  cases e <;> by_cases hr : raw > 0 <;> simp [Callback, hpend, hclbk, hr]

end InputPin

/-- C6. Debounce soundness: in every state reached after `initPin` by any sequence of edge,
poll and verify steps, a step that changes the confirmed value is a verify step whose live
read equals the pending predicted level; an edge step or a poll step never changes the
confirmed value. -/
theorem debounce_soundness (delay : Nat) (clbk : Bool) (now0 raw1 raw2 : Nat)
    (sts : List InStep) (st : InStep)
    (hchg : (st.apply (runInput sts ((InputPin.create delay clbk).initPin now0 raw1 raw2))).confirmedActive
      ≠ (runInput sts ((InputPin.create delay clbk).initPin now0 raw1 raw2)).confirmedActive) :
    ∃ now raw, st = .verify now raw ∧
      (runInput sts ((InputPin.create delay clbk).initPin now0 raw1 raw2)).pendingState =
        (if raw > 0 then 1 else 0) := by
  have harm : InputPin.Armed (runInput sts ((InputPin.create delay clbk).initPin now0 raw1 raw2)) := by
    apply InputPin.armed_run
    simp [InputPin.Armed, InputPin.create, InputPin.initPin]
  revert hchg harm
  generalize runInput sts ((InputPin.create delay clbk).initPin now0 raw1 raw2) = p
  intro hchg harm
  cases st with
  | onEdge now raw => simp [InStep.apply, InputPin.inputISRChange] at hchg
  | poll now raw =>
    exfalso
    apply hchg
    simp only [InStep.apply, InputPin.onCheckInputQueue]
    split_ifs <;> rfl
  | verify now raw =>
    refine ⟨now, raw, rfl, ?_⟩
    simp only [InStep.apply, InputPin.taskRun] at hchg
    split_ifs at hchg with h1
    · rcases harm h1 with h0 | h0 <;> by_cases hr : raw > 0 <;>
        simp_all [InputPin.Callback]
    · exact absurd rfl hchg

namespace Thermostat

/-! ### Where a cycle starts and ends -/

theorem updateFanIdle_action (now : Nat) (s : Thermostat) :
    (s.updateFanIdle now).action = s.action ∨
      (s.action ≠ .HEATING ∧ s.action ≠ .COOLING ∧
        ((s.updateFanIdle now).action = .IDLE ∨ (s.updateFanIdle now).action = .FAN_RUNNING)) := by
  unfold updateFanIdle
  split_ifs with h1 h2 h3 h4 h5
  · exact Or.inl rfl
  · exact Or.inl rfl
  · right
    rcases not_and_or.mp h2 with h | h <;> simp_all
  · exact Or.inl rfl
  · right
    rcases not_and_or.mp h2 with h | h <;> simp_all
  · exact Or.inl rfl

theorem updateFanIdle_times (now : Nat) (s : Thermostat) :
    (s.updateFanIdle now).lastActionChange = s.lastActionChange ∧
    (s.updateFanIdle now).actionStartTime = s.actionStartTime ∧
    (s.updateFanIdle now).lastEscalation = s.lastEscalation ∧
    (s.updateFanIdle now).heatLevel = s.heatLevel ∧
    (s.updateFanIdle now).coolLevel = s.coolLevel := by
  unfold updateFanIdle
  split_ifs <;> simp

/-- The method `updateHeating` while the action is IDLE or FAN_RUNNING. -/
theorem updateHeating_idle (now : Nat) (inp : Inputs) (s : Thermostat)
    (ha : s.action = .IDLE ∨ s.action = .FAN_RUNNING) :
    s.updateHeating now inp =
      if s.defrostActive = true then s
      else if s.currentTemp < s.heatSetpoint - s.config.heatDeadband then
        if canTurnOn now s = false then s else startHeating now inp s
      else updateFanIdle now s := by
  simp [updateHeating, ha]

/-- The method `updateCooling` while the action is IDLE or FAN_RUNNING. -/
theorem updateCooling_idle (now : Nat) (s : Thermostat)
    (ha : s.action = .IDLE ∨ s.action = .FAN_RUNNING) :
    s.updateCooling now =
      if s.currentTemp > s.coolSetpoint + s.config.coolDeadband then
        if canTurnOn now s = false then s else startCooling now s
      else updateFanIdle now s := by
  simp [updateCooling, ha]

/-- The method `updateHeating` while the action is OFF. -/
theorem updateHeating_off (now : Nat) (inp : Inputs) (s : Thermostat)
    (ha : s.action = .OFF) : s.updateHeating now inp = s := by
  simp [updateHeating, ha]

/-- The method `updateCooling` while the action is OFF. -/
theorem updateCooling_off (now : Nat) (s : Thermostat)
    (ha : s.action = .OFF) : s.updateCooling now = s := by
  simp [updateCooling, ha]

theorem escalateHeat_times (now : Nat) (s : Thermostat) :
    (s.escalateHeat now).actionStartTime = s.actionStartTime ∧
    (s.escalateHeat now).lastActionChange = s.lastActionChange := by
  unfold escalateHeat
  split_ifs <;> simp [applyHeatLevel_eq]

theorem outTempSwitch_times (now : Nat) (inp : Inputs) (s : Thermostat) :
    (s.outTempSwitch now inp).actionStartTime = s.actionStartTime ∧
    (s.outTempSwitch now inp).lastActionChange = s.lastActionChange := by
  unfold outTempSwitch
  split_ifs <;> simp [applyHeatLevel_eq]

/-- A state in which the action is neither HEATING nor COOLING has one of the other three
actions. -/
theorem action_rest (s : Thermostat) (h1 : s.action ≠ .HEATING) (h2 : s.action ≠ .COOLING) :
    s.action = .OFF ∨ s.action = .IDLE ∨ s.action = .FAN_RUNNING := by
  cases h : s.action <;> simp_all

/-- Within `updateHeating` the action becomes HEATING only in the start block. -/
theorem updateHeating_starts (now : Nat) (inp : Inputs) (s : Thermostat)
    (ha : s.action ≠ .HEATING) (hb : (s.updateHeating now inp).action = .HEATING) :
    s.action ≠ .COOLING ∧
    s.updateHeating now inp = s.startHeating now inp ∧ canTurnOn now s = true ∧
    s.defrostActive = false := by
  by_cases hc : s.action = .COOLING
  · rw [updateHeating_of_cooling now inp s hc] at hb
    exact absurd hb ha
  rcases action_rest s ha hc with h | h
  · rw [updateHeating_off now inp s h] at hb
    exact absurd hb ha
  · rw [updateHeating_idle now inp s h] at hb ⊢
    split_ifs at hb ⊢ with h1 h2 h3
    · exact absurd hb ha
    · exact absurd hb ha
    · exact ⟨hc, rfl, by simpa using h3, by simpa using h1⟩
    · rcases updateFanIdle_action now s with h4 | h4
      · rw [h4] at hb
        exact absurd hb ha
      · rcases h4.2.2 with h5 | h5 <;> rw [h5] at hb <;> simp at hb

/-- Within `updateCooling` the action becomes COOLING only in the start block. -/
theorem updateCooling_starts (now : Nat) (s : Thermostat)
    (ha : s.action ≠ .COOLING) (hb : (s.updateCooling now).action = .COOLING) :
    s.action ≠ .HEATING ∧
    s.updateCooling now = s.startCooling now ∧ canTurnOn now s = true := by
  by_cases hc : s.action = .HEATING
  · rw [updateCooling_of_heating now s hc] at hb
    exact absurd hb ha
  rcases action_rest s hc ha with h | h
  · rw [updateCooling_off now s h] at hb
    exact absurd hb ha
  · rw [updateCooling_idle now s h] at hb ⊢
    split_ifs at hb ⊢ with h2 h3
    · exact absurd hb ha
    · exact ⟨hc, rfl, by simpa using h3⟩
    · rcases updateFanIdle_action now s with h4 | h4
      · rw [h4] at hb
        exact absurd hb ha
      · rcases h4.2.2 with h5 | h5 <;> rw [h5] at hb <;> simp at hb

/-- The method `updateCooling` never sets the action to HEATING. -/
theorem updateCooling_not_heating (now : Nat) (s : Thermostat) (ha : s.action ≠ .HEATING) :
    (s.updateCooling now).action ≠ .HEATING := by
  unfold updateCooling
  split_ifs
  · exact ha
  · simp [startCooling, applyCoolLevel_eq]
  · rcases updateFanIdle_action now s with h4 | h4
    · rw [h4]; exact ha
    · rcases h4.2.2 with h5 | h5 <;> rw [h5] <;> simp
  · exact ha
  · simp [stopCooling]
  · simpa [escalateCool, applyCoolLevel_eq] using ha
  · exact ha
  · exact ha

/-- The method `updateHeating` never sets the action to COOLING. -/
theorem updateHeating_not_cooling (now : Nat) (inp : Inputs) (s : Thermostat)
    (ha : s.action ≠ .COOLING) : (s.updateHeating now inp).action ≠ .COOLING := by
  unfold updateHeating
  split_ifs
  · exact ha
  · exact ha
  · simp [startHeating_eq]
  · rcases updateFanIdle_action now s with h4 | h4
    · rw [h4]; exact ha
    · rcases h4.2.2 with h5 | h5 <;> rw [h5] <;> simp
  · exact ha
  · simp [stopHeating]
  · rw [(outTempSwitch_rank now inp _).1, (escalateHeat_rank now s).1]; exact ha
  · rw [(outTempSwitch_rank now inp _).1]; exact ha
  · exact ha

theorem dispatch_off (now : Nat) (inp : Inputs) (s : Thermostat) (hm : s.mode = .OFF) :
    s.dispatch now inp = s := by
  simp [dispatch, hm]

theorem dispatch_heat (now : Nat) (inp : Inputs) (s : Thermostat) (hm : s.mode = .HEAT) :
    s.dispatch now inp = s.updateHeating now inp := by
  simp [dispatch, hm]

theorem dispatch_cool (now : Nat) (inp : Inputs) (s : Thermostat) (hm : s.mode = .COOL) :
    s.dispatch now inp = s.updateCooling now := by
  simp [dispatch, hm]

theorem dispatch_fanOnly (now : Nat) (inp : Inputs) (s : Thermostat)
    (hm : s.mode = .FAN_ONLY) : s.dispatch now inp = s.updateFanOnly now := by
  simp [dispatch, hm]

theorem dispatch_heatCool (now : Nat) (inp : Inputs) (s : Thermostat)
    (hm : s.mode = .HEAT_COOL) :
    s.dispatch now inp =
      if s.action = .HEATING then updateHeating now inp s
      else if s.action = .COOLING then updateCooling now s
      else if s.currentTemp < s.heatSetpoint - s.config.heatDeadband then
        updateHeating now inp s
      else if s.currentTemp > s.coolSetpoint + s.config.coolDeadband then
        updateCooling now s
      else updateFanIdle now s := by
  simp [dispatch, hm]

theorem updateFanIdle_not_running (now : Nat) (s : Thermostat)
    (h1 : s.action ≠ .HEATING) (h2 : s.action ≠ .COOLING) :
    (s.updateFanIdle now).action ≠ .HEATING ∧ (s.updateFanIdle now).action ≠ .COOLING := by
  rcases updateFanIdle_action now s with h | h
  · rw [h]; exact ⟨h1, h2⟩
  · rcases h.2.2 with h5 | h5 <;> rw [h5] <;> simp

/-- After the defrost handling, a tick sets the action to HEATING only through the start
block of `updateHeating`, in mode HEAT or HEAT_COOL. -/
theorem afterDefrost_starts_heating (now : Nat) (inp : Inputs) (s : Thermostat)
    (ha : s.action ≠ .HEATING) (hb : (s.afterDefrost now inp).action = .HEATING) :
    s.afterDefrost now inp = s.startHeating now inp ∧ canTurnOn now s = true ∧
    s.defrostActive = false ∧ s.action ≠ .COOLING ∧
    (s.mode = .HEAT ∨ s.mode = .HEAT_COOL) := by
  unfold afterDefrost at hb ⊢
  split_ifs at hb ⊢ with h1 h2
  · simp [maxRunShutdown] at hb
  · exact absurd hb ha
  · cases hm : s.mode
    · rw [dispatch_off now inp s hm] at hb
      exact absurd hb ha
    · rw [dispatch_heat now inp s hm] at hb ⊢
      have := updateHeating_starts now inp s ha hb
      exact ⟨this.2.1, this.2.2.1, this.2.2.2, this.1, Or.inl rfl⟩
    · rw [dispatch_cool now inp s hm] at hb
      exact absurd hb (updateCooling_not_heating now s ha)
    · rw [dispatch_heatCool now inp s hm] at hb ⊢
      split_ifs at hb ⊢ with h3 h4 h5 h6
      · exact absurd h3 ha
      · exact absurd hb (updateCooling_not_heating now s ha)
      · have := updateHeating_starts now inp s ha hb
        exact ⟨this.2.1, this.2.2.1, this.2.2.2, this.1, Or.inr rfl⟩
      · exact absurd hb (updateCooling_not_heating now s ha)
      · exact absurd hb (updateFanIdle_not_running now s ha h4).1
    · rw [dispatch_fanOnly now inp s hm, updateFanOnly_action] at hb
      simp at hb

/-- After the defrost handling, a tick sets the action to COOLING only through the start
block of `updateCooling`, in mode COOL or HEAT_COOL. -/
theorem afterDefrost_starts_cooling (now : Nat) (inp : Inputs) (s : Thermostat)
    (ha : s.action ≠ .COOLING) (hb : (s.afterDefrost now inp).action = .COOLING) :
    s.afterDefrost now inp = s.startCooling now ∧ canTurnOn now s = true ∧
    s.action ≠ .HEATING ∧ (s.mode = .COOL ∨ s.mode = .HEAT_COOL) := by
  unfold afterDefrost at hb ⊢
  split_ifs at hb ⊢ with h1 h2
  · simp [maxRunShutdown] at hb
  · exact absurd hb ha
  · cases hm : s.mode
    · rw [dispatch_off now inp s hm] at hb
      exact absurd hb ha
    · rw [dispatch_heat now inp s hm] at hb
      exact absurd hb (updateHeating_not_cooling now inp s ha)
    · rw [dispatch_cool now inp s hm] at hb ⊢
      have := updateCooling_starts now s ha hb
      exact ⟨this.2.1, this.2.2, this.1, Or.inl rfl⟩
    · rw [dispatch_heatCool now inp s hm] at hb ⊢
      split_ifs at hb ⊢ with h3 h4 h5
      · exact absurd hb (updateHeating_not_cooling now inp s ha)
      · exact absurd hb (updateHeating_not_cooling now inp s ha)
      · have := updateCooling_starts now s ha hb
        exact ⟨this.2.1, this.2.2, this.1, Or.inr rfl⟩
      · exact absurd hb (updateFanIdle_not_running now s h3 ha).2
    · rw [dispatch_fanOnly now inp s hm, updateFanOnly_action] at hb
      simp at hb

/-! ### Minimum on-time -/

/-- The defrost handling of a tick in which `defrostExitForcesIdle` holds. -/
theorem handleDefrost_forced (now : Nat) (inp : Inputs) (s : Thermostat)
    (hx : defrostExitForcesIdle inp s = true) :
    s.handleDefrost now inp =
      { s with defrostActive := false, outputs := Relays.allOff, heatLevel := .IDLE,
               action := .IDLE, lastActionChange := now } := by
  simp only [defrostExitForcesIdle, Bool.and_eq_true, Bool.not_eq_true', decide_eq_true_eq,
    Bool.and_eq_false_imp, decide_eq_false_iff_not, ne_eq, Decidable.not_not] at hx
  obtain ⟨⟨h1, h2⟩, h3⟩ := hx
  have h4 : ¬(s.action = .HEATING ∧ s.preDefrostLevel ≠ .IDLE) := fun h => h.2 (h3 h.1)
  simp [handleDefrost, h2, h1, exitDefrost_active now s h1, h4]

/-- The action after the defrost handling of a tick differs from HEATING and from COOLING
unless it is the action before. -/
theorem handleDefrost_action_cases (now : Nat) (inp : Inputs) (s : Thermostat) :
    (s.handleDefrost now inp).action = s.action ∨
      ((s.handleDefrost now inp).action = .IDLE ∧ (s.handleDefrost now inp).lastActionChange = now) := by
  cases hx : defrostExitForcesIdle inp s
  · exact Or.inl (handleDefrost_action now inp s hx)
  · right
    rw [handleDefrost_forced now inp s hx]
    exact ⟨rfl, rfl⟩

/-- A tick that sets the action to HEATING runs the start block: the cycle timers are set to
the clock value of the tick, the defrost flag is clear and the mode is HEAT or HEAT_COOL. -/
theorem update_starts_heating (now : Nat) (inp : Inputs) (s : Thermostat)
    (ha : s.action ≠ .HEATING) (hb : (s.update now inp).action = .HEATING) :
    (s.update now inp).actionStartTime = now ∧ (s.update now inp).lastEscalation = now ∧
    (s.update now inp).defrostActive = false ∧
    (s.mode = .HEAT ∨ s.mode = .HEAT_COOL) := by
  unfold update at hb ⊢
  split_ifs at hb ⊢ with hm
  · exact absurd hb ha
  · have hx1 : (handleDefrost now inp (s.checkStale now)).action ≠ .HEATING := by
      rcases handleDefrost_action_cases now inp (s.checkStale now) with h | h
      · rw [h]; simpa using ha
      · rw [h.1]; simp
    have h := afterDefrost_starts_heating now inp _ hx1 hb
    rw [h.1]
    have hd := h.2.2.1
    have hmode := h.2.2.2.2
    simp only [handleDefrost_mode, checkStale_mode] at hmode
    refine ⟨by simp [startHeating_eq], by simp [startHeating_eq], ?_, hmode⟩
    simpa [startHeating_eq] using hd

/-- A tick that sets the action to COOLING runs the start block: the cycle timers are set to
the clock value of the tick and the mode is COOL or HEAT_COOL. -/
theorem update_starts_cooling (now : Nat) (inp : Inputs) (s : Thermostat)
    (ha : s.action ≠ .COOLING) (hb : (s.update now inp).action = .COOLING) :
    (s.update now inp).actionStartTime = now ∧ (s.update now inp).lastEscalation = now ∧
    (s.mode = .COOL ∨ s.mode = .HEAT_COOL) := by
  unfold update at hb ⊢
  split_ifs at hb ⊢ with hm
  · exact absurd hb ha
  · have hx1 : (handleDefrost now inp (s.checkStale now)).action ≠ .COOLING := by
      rcases handleDefrost_action_cases now inp (s.checkStale now) with h | h
      · rw [h]; simpa using ha
      · rw [h.1]; simp
    have h := afterDefrost_starts_cooling now inp _ hx1 hb
    rw [h.1]
    have hmode := h.2.2.2
    simp only [handleDefrost_mode, checkStale_mode] at hmode
    exact ⟨by simp [startCooling, applyCoolLevel_eq], by simp [startCooling, applyCoolLevel_eq],
      hmode⟩

/-- After the defrost handling, a tick that finds the action HEATING or COOLING leaves
`actionStartTime` alone. -/
theorem afterDefrost_actionStartTime (now : Nat) (inp : Inputs) (s : Thermostat)
    (ha : s.action = .HEATING ∨ s.action = .COOLING) :
    (s.afterDefrost now inp).actionStartTime = s.actionStartTime := by
  have hH : ∀ x : Thermostat, x.action = .HEATING →
      (x.updateHeating now inp).actionStartTime = x.actionStartTime := by
    intro x hx
    rw [updateHeating_heating now inp x hx]
    split_ifs
    · rfl
    · rfl
    · simp [stopHeating, allRelaysOff]
    · rw [(outTempSwitch_times now inp _).1, (escalateHeat_times now x).1]
    · rw [(outTempSwitch_times now inp _).1]
  have hC : ∀ x : Thermostat, x.action = .COOLING →
      (x.updateCooling now).actionStartTime = x.actionStartTime := by
    intro x hx
    rw [updateCooling_cooling now x hx]
    split_ifs
    · rfl
    · simp [stopCooling, allRelaysOff]
    · simp [escalateCool, applyCoolLevel_eq]
    · rfl
  unfold afterDefrost
  split_ifs with h1 h2
  · simp [maxRunShutdown, allRelaysOff]
  · rfl
  · cases hm : s.mode
    · rw [dispatch_off now inp s hm]
    · rw [dispatch_heat now inp s hm]
      rcases ha with ha | ha
      · exact hH s ha
      · rw [updateHeating_of_cooling now inp s ha]
    · rw [dispatch_cool now inp s hm]
      rcases ha with ha | ha
      · rw [updateCooling_of_heating now s ha]
      · exact hC s ha
    · rw [dispatch_heatCool now inp s hm]
      rcases ha with ha | ha
      · simp only [ha, if_true]
        exact hH s ha
      · simp only [ha, reduceCtorEq, if_false, if_true]
        exact hC s ha
    · rw [dispatch_fanOnly now inp s hm]
      unfold updateFanOnly
      split_ifs <;> simp [allRelaysOff]

/-- A tick inside a cycle, whose defrost handling does not end the cycle, leaves
`actionStartTime` alone. -/
theorem update_actionStartTime (now : Nat) (inp : Inputs) (s : Thermostat)
    (ha : s.action = .HEATING ∨ s.action = .COOLING)
    (hx : defrostExitForcesIdle inp s = false) :
    (s.update now inp).actionStartTime = s.actionStartTime := by
  unfold update
  split_ifs with hm
  · rfl
  · have hd := handleDefrost_action now inp (s.checkStale now)
      ((defrostExitForcesIdle_checkStale now inp s).trans hx)
    rw [afterDefrost_actionStartTime now inp _ (by rw [hd]; simpa using ha)]
    simp

/-- After the defrost handling, a tick inside the minimum on-time of a cycle, with the
max-run limit not exceeded, leaves the action alone. -/
theorem afterDefrost_holds (now : Nat) (inp : Inputs) (s : Thermostat)
    (ha : (s.action = .HEATING ∧ (s.mode = .HEAT ∨ s.mode = .HEAT_COOL)) ∨
          (s.action = .COOLING ∧ (s.mode = .COOL ∨ s.mode = .HEAT_COOL)))
    (hoff : canTurnOff now s = false) (hmax : maxRunExceeded now s = false) :
    (s.afterDefrost now inp).action = s.action := by
  have hH : s.action = .HEATING → (s.updateHeating now inp).action = s.action := by
    intro hx
    rw [updateHeating_heating now inp s hx]
    split_ifs
    · rfl
    · rfl
    · rw [(outTempSwitch_rank now inp _).1, (escalateHeat_rank now s).1]
    · rw [(outTempSwitch_rank now inp _).1]
  have hC : s.action = .COOLING → (s.updateCooling now).action = s.action := by
    intro hx
    rw [updateCooling_cooling now s hx]
    split_ifs
    · rfl
    · simp [escalateCool, applyCoolLevel_eq]
    · rfl
  unfold afterDefrost
  rw [hmax]
  simp only [Bool.false_eq_true, if_false]
  split_ifs with h2
  · rfl
  · rcases ha with ⟨ha, hm | hm⟩ | ⟨ha, hm | hm⟩
    · rw [dispatch_heat now inp s hm]; exact hH ha
    · rw [dispatch_heatCool now inp s hm]
      simp only [ha, if_true]
      rw [← ha]; exact hH ha
    · rw [dispatch_cool now inp s hm]; exact hC ha
    · rw [dispatch_heatCool now inp s hm]
      simp only [ha, reduceCtorEq, if_false, if_true]
      rw [← ha]; exact hC ha

/-- A tick inside the minimum on-time of a cycle leaves the action alone, unless the max-run
limit is exceeded or the defrost handling ends the cycle. -/
theorem update_holds (now : Nat) (inp : Inputs) (s : Thermostat)
    (ha : (s.action = .HEATING ∧ (s.mode = .HEAT ∨ s.mode = .HEAT_COOL)) ∨
          (s.action = .COOLING ∧ (s.mode = .COOL ∨ s.mode = .HEAT_COOL)))
    (hwin : wsub now s.actionStartTime < s.config.minOnTimeMs)
    (hmax : ¬ wsub now s.actionStartTime > s.config.maxRunTimeMs)
    (hx : defrostExitForcesIdle inp s = false) :
    (s.update now inp).action = s.action := by
  unfold update
  split_ifs with hm
  · rfl
  · have hd := handleDefrost_action now inp (s.checkStale now)
      ((defrostExitForcesIdle_checkStale now inp s).trans hx)
    rw [afterDefrost_holds now inp (handleDefrost now inp (s.checkStale now))]
    · rw [hd]; simp
    · rw [hd]; simpa using ha
    · simpa [canTurnOff] using hwin
    · simp only [maxRunExceeded, handleDefrost_actionStartTime, handleDefrost_config,
        checkStale_actionStartTime, checkStale_config]
      simp [hmax]

end Thermostat

/-- Inside one cycle the action, the start time of the cycle, the mode and the configuration
stay as they are. -/
theorem sameCycle_keeps (ops : List Op) : ∀ s : Thermostat,
    (s.action = .HEATING ∨ s.action = .COOLING) → sameCycle ops s = true →
    (run ops s).action = s.action ∧ (run ops s).actionStartTime = s.actionStartTime ∧
    (run ops s).mode = s.mode ∧ (run ops s).config = s.config := by
  induction ops with
  | nil => intro s _ _; exact ⟨rfl, rfl, rfl, rfl⟩
  | cons op ops ih =>
    intro s ha hc
    simp only [sameCycle, Bool.and_eq_true] at hc
    obtain ⟨h1, h2⟩ := hc
    have key : (op.apply s).action = s.action ∧
        (op.apply s).actionStartTime = s.actionStartTime ∧
        (op.apply s).mode = s.mode ∧ (op.apply s).config = s.config := by
      cases op with
      | update now inp =>
        simp only [Bool.and_eq_true, Bool.not_eq_true', decide_eq_true_eq] at h1
        exact ⟨h1.2, Thermostat.update_actionStartTime now inp s ha h1.1, by simp [Op.apply],
          by simp [Op.apply]⟩
      | setMode now m => simp at h1
      | setConfig c => simp at h1
      | setCurrentTemperature now temp =>
        exact ⟨rfl, rfl, rfl, rfl⟩
      | setHeatSetpoint temp => exact ⟨rfl, rfl, rfl, rfl⟩
      | setCoolSetpoint temp => exact ⟨rfl, rfl, rfl, rfl⟩
      | setForceFurnace f => exact ⟨rfl, rfl, rfl, rfl⟩
      | setForceNoHP f => exact ⟨rfl, rfl, rfl, rfl⟩
    have := ih (op.apply s) (by rw [key.1]; exact ha) h2
    simp only [run]
    exact ⟨this.1.trans key.1, this.2.1.trans key.2.1, this.2.2.1.trans key.2.2.1,
      this.2.2.2.trans key.2.2.2⟩

/-- C3 (amended). Minimum on-time: if a tick at time `t0` sets the action to HEATING or to
COOLING, then a later tick of the same cycle (configuration and mode unchanged since `t0`)
at a time `t` with `t - t0 < minOnTimeMs` leaves the action alone, unless the max-run
shutdown fires or the defrost handling of that tick ends the cycle. -/
theorem minimum_on (s0 : Thermostat) (t0 : Nat) (inp0 : Inputs) (ops : List Op)
    (t : Nat) (inp : Inputs)
    (hstart : (s0.update t0 inp0).action = .HEATING ∨ (s0.update t0 inp0).action = .COOLING)
    (hnew : s0.action ≠ (s0.update t0 inp0).action)
    (hcyc : sameCycle ops (s0.update t0 inp0) = true)
    (hwin : wsub t t0 < s0.config.minOnTimeMs)
    (hmax : ¬ wsub t t0 > s0.config.maxRunTimeMs)
    (hx : defrostExitForcesIdle inp (run ops (s0.update t0 inp0)) = false) :
    ((run ops (s0.update t0 inp0)).update t inp).action = (s0.update t0 inp0).action := by
  have hk := sameCycle_keeps ops (s0.update t0 inp0) hstart hcyc
  have hst : (s0.update t0 inp0).actionStartTime = t0 ∧
      (((s0.update t0 inp0).action = .HEATING ∧ (s0.mode = .HEAT ∨ s0.mode = .HEAT_COOL)) ∨
       ((s0.update t0 inp0).action = .COOLING ∧ (s0.mode = .COOL ∨ s0.mode = .HEAT_COOL))) := by
    rcases hstart with h | h
    · have := Thermostat.update_starts_heating t0 inp0 s0 (by rw [← h]; exact hnew) h
      exact ⟨this.1, Or.inl ⟨h, this.2.2.2⟩⟩
    · have := Thermostat.update_starts_cooling t0 inp0 s0 (by rw [← h]; exact hnew) h
      exact ⟨this.1, Or.inr ⟨h, this.2.2⟩⟩
  rw [← hk.1]
  apply Thermostat.update_holds
  · rw [hk.1, hk.2.2.1]
    simpa using hst.2
  · rw [hk.2.1, hk.2.2.2, hst.1]
    simpa using hwin
  · rw [hk.2.1, hk.2.2.2, hst.1]
    simpa using hmax
  · exact hx

/-! ### Minimum off-time -/

theorem wsub_self (a : Nat) : wsub a a = 0 := by
  unfold wsub
  have : a % 4294967296 < 4294967296 := Nat.mod_lt _ (by norm_num)
  omega

theorem wsub_of_le (a b : Nat) (h1 : b ≤ a) (h2 : a < 4294967296) : wsub a b = a - b := by
  unfold wsub
  rw [Nat.mod_eq_of_lt h2, Nat.mod_eq_of_lt (lt_of_le_of_lt h1 h2)]
  omega

namespace Thermostat

/-- After the defrost handling, a tick leaves `lastActionChange` alone or sets it to the
clock value of the tick. -/
theorem afterDefrost_lastActionChange (now : Nat) (inp : Inputs) (s : Thermostat) :
    (s.afterDefrost now inp).lastActionChange = s.lastActionChange ∨
    (s.afterDefrost now inp).lastActionChange = now := by
  have hF : (s.updateFanIdle now).lastActionChange = s.lastActionChange ∨
      (s.updateFanIdle now).lastActionChange = now := Or.inl (updateFanIdle_times now s).1
  have hH : (s.updateHeating now inp).lastActionChange = s.lastActionChange ∨
      (s.updateHeating now inp).lastActionChange = now := by
    unfold updateHeating
    split_ifs
    · exact Or.inl rfl
    · exact Or.inl rfl
    · right; simp [startHeating_eq]
    · exact hF
    · exact Or.inl rfl
    · right; simp [stopHeating]
    · left; rw [(outTempSwitch_times now inp _).2, (escalateHeat_times now s).2]
    · left; rw [(outTempSwitch_times now inp _).2]
    · exact Or.inl rfl
  have hC : (s.updateCooling now).lastActionChange = s.lastActionChange ∨
      (s.updateCooling now).lastActionChange = now := by
    unfold updateCooling
    split_ifs
    · exact Or.inl rfl
    · right; simp [startCooling, applyCoolLevel_eq]
    · exact hF
    · exact Or.inl rfl
    · right; simp [stopCooling]
    · left; simp [escalateCool, applyCoolLevel_eq]
    · exact Or.inl rfl
    · exact Or.inl rfl
  unfold afterDefrost
  split_ifs with h1 h2
  · right; simp [maxRunShutdown]
  · exact Or.inl rfl
  · cases hm : s.mode
    · rw [dispatch_off now inp s hm]; exact Or.inl rfl
    · rw [dispatch_heat now inp s hm]; exact hH
    · rw [dispatch_cool now inp s hm]; exact hC
    · rw [dispatch_heatCool now inp s hm]
      split_ifs
      · exact hH
      · exact hC
      · exact hH
      · exact hC
      · exact hF
    · rw [dispatch_fanOnly now inp s hm]
      unfold updateFanOnly
      split_ifs
      · right; simp
      · exact Or.inl rfl

/-- After the defrost handling, a tick that ends a cycle sets `lastActionChange` to the clock
value of the tick. -/
theorem afterDefrost_leaves (now : Nat) (inp : Inputs) (s : Thermostat)
    (ha : s.action = .HEATING ∨ s.action = .COOLING)
    (hb : (s.afterDefrost now inp).action ≠ .HEATING ∧
          (s.afterDefrost now inp).action ≠ .COOLING) :
    (s.afterDefrost now inp).lastActionChange = now := by
  have hne : (s.afterDefrost now inp).action ≠ s.action := by
    rcases ha with ha | ha <;> rw [ha]
    · exact hb.1
    · exact hb.2
  have hH : s.action = .HEATING → (s.updateHeating now inp).action ≠ s.action →
      (s.updateHeating now inp).lastActionChange = now := by
    intro hx
    rw [updateHeating_heating now inp s hx]
    split_ifs
    · intro h; exact absurd rfl h
    · intro h; exact absurd rfl h
    · intro _; simp [stopHeating]
    · intro h
      rw [(outTempSwitch_rank now inp _).1, (escalateHeat_rank now s).1] at h
      exact absurd rfl h
    · intro h
      rw [(outTempSwitch_rank now inp _).1] at h
      exact absurd rfl h
  have hC : s.action = .COOLING → (s.updateCooling now).action ≠ s.action →
      (s.updateCooling now).lastActionChange = now := by
    intro hx
    rw [updateCooling_cooling now s hx]
    split_ifs
    · intro h; exact absurd rfl h
    · intro _; simp [stopCooling]
    · intro h
      simp [escalateCool, applyCoolLevel_eq] at h
    · intro h; exact absurd rfl h
  revert hne
  unfold afterDefrost
  split_ifs with h1 h2
  · intro _; simp [maxRunShutdown]
  · intro h; exact absurd rfl h
  · cases hm : s.mode
    · rw [dispatch_off now inp s hm]; intro h; exact absurd rfl h
    · rw [dispatch_heat now inp s hm]
      rcases ha with ha | ha
      · exact hH ha
      · rw [updateHeating_of_cooling now inp s ha]; intro h; exact absurd rfl h
    · rw [dispatch_cool now inp s hm]
      rcases ha with ha | ha
      · rw [updateCooling_of_heating now s ha]; intro h; exact absurd rfl h
      · exact hC ha
    · rw [dispatch_heatCool now inp s hm]
      rcases ha with ha | ha
      · simp only [ha, if_true]
        rw [← ha]; exact hH ha
      · simp only [ha, reduceCtorEq, if_false, if_true]
        rw [← ha]; exact hC ha
    · rw [dispatch_fanOnly now inp s hm]
      intro _
      unfold updateFanOnly
      split_ifs with h3
      · simp
      · rcases ha with ha | ha <;> simp [ha] at h3

/-- A tick that ends a cycle sets `lastActionChange` to the clock value of the tick. -/
theorem update_leaves (now : Nat) (inp : Inputs) (s : Thermostat)
    (ha : s.action = .HEATING ∨ s.action = .COOLING)
    (hb : (s.update now inp).action ≠ .HEATING ∧ (s.update now inp).action ≠ .COOLING) :
    (s.update now inp).lastActionChange = now ∧ s.mode ≠ .OFF := by
  unfold update at hb ⊢
  split_ifs at hb ⊢ with hm
  · rcases ha with ha | ha
    · exact absurd ha hb.1
    · exact absurd ha hb.2
  · refine ⟨?_, hm⟩
    rcases handleDefrost_action_cases now inp (s.checkStale now) with h | h
    · exact afterDefrost_leaves now inp _ (by rw [h]; simpa using ha) hb
    · rcases afterDefrost_lastActionChange now inp (handleDefrost now inp (s.checkStale now))
        with h2 | h2
      · rw [h2, h.2]
      · exact h2

/-- A tick outside a cycle, made while `canTurnOn` is false also for a cycle ended in this
very tick, does not start a cycle. -/
theorem update_no_start (now : Nat) (inp : Inputs) (s : Thermostat)
    (ha : s.action ≠ .HEATING ∧ s.action ≠ .COOLING)
    (hoff : wsub now s.lastActionChange < s.config.minOffTimeMs) :
    ((s.update now inp).action ≠ .HEATING ∧ (s.update now inp).action ≠ .COOLING) ∧
    ((s.update now inp).lastActionChange = s.lastActionChange ∨
      (s.update now inp).lastActionChange = now) := by
  unfold update
  split_ifs with hm
  · exact ⟨ha, Or.inl rfl⟩
  · have hx : ((handleDefrost now inp (s.checkStale now)).action ≠ .HEATING ∧
        (handleDefrost now inp (s.checkStale now)).action ≠ .COOLING) ∧
        ((handleDefrost now inp (s.checkStale now)).lastActionChange = s.lastActionChange ∨
         (handleDefrost now inp (s.checkStale now)).lastActionChange = now) := by
      cases hx : defrostExitForcesIdle inp (s.checkStale now)
      · have h1 := handleDefrost_action now inp (s.checkStale now) hx
        have h2 := handleDefrost_lastActionChange now inp (s.checkStale now) hx
        exact ⟨by rw [h1]; simpa using ha, Or.inl (by rw [h2]; simp)⟩
      · rw [handleDefrost_forced now inp _ hx]
        simp
    have hcan : canTurnOn now (handleDefrost now inp (s.checkStale now)) = false := by
      simp only [canTurnOn, handleDefrost_config, checkStale_config, decide_eq_false_iff_not,
        not_le]
      rcases hx.2 with h | h
      · rw [h]; exact hoff
      · rw [h, wsub_self]
        exact lt_of_le_of_lt (Nat.zero_le _) hoff
    refine ⟨⟨?_, ?_⟩, ?_⟩
    · intro hb
      have := afterDefrost_starts_heating now inp _ hx.1.1 hb
      rw [hcan] at this
      simp at this
    · intro hb
      have := afterDefrost_starts_cooling now inp _ hx.1.2 hb
      rw [hcan] at this
      simp at this
    · rcases afterDefrost_lastActionChange now inp (handleDefrost now inp (s.checkStale now))
        with h2 | h2
      · rw [h2]; exact hx.2
      · exact Or.inr h2

end Thermostat

/-- After a cycle has ended at `t1`, calls at non-decreasing clock values in the window from
`t1` to `t1 + minOffTimeMs` (below the wrap of the clock) do not start a cycle. -/
theorem chrono_keeps (cfg : ThermostatConfig) (t1 hi : Nat)
    (hhi : hi ≤ t1 + cfg.minOffTimeMs) (hwrap : hi ≤ 4294967296) (ops : List Op) :
    ∀ (lo : Nat) (s : Thermostat), t1 ≤ lo →
      (s.action ≠ .HEATING ∧ s.action ≠ .COOLING) → s.config = cfg →
      (s.mode = .OFF ∨ (t1 ≤ s.lastActionChange ∧ s.lastActionChange ≤ lo)) →
      chrono lo hi ops = true →
      (run ops s).action ≠ .HEATING ∧ (run ops s).action ≠ .COOLING := by
  induction ops with
  | nil => intro lo s _ ha _ _ _; exact ha
  | cons op ops ih =>
    intro lo s hlo ha hc hm hch
    simp only [chrono, Bool.and_eq_true] at hch
    obtain ⟨h1, h2⟩ := hch
    simp only [run]
    cases op with
    | update now inp =>
      simp only [Op.time, Bool.and_eq_true, decide_eq_true_eq] at h2
      obtain ⟨⟨h3, h4⟩, h5⟩ := h2
      rcases hm with hm | hm
      · have : (Op.update now inp).apply s = s := by simp [Op.apply, Thermostat.update, hm]
        rw [this]
        exact ih now s (le_trans hlo h3) ha hc (Or.inl hm) h5
      · have hw : wsub now s.lastActionChange < s.config.minOffTimeMs := by
          rw [wsub_of_le now _ (le_trans hm.2 h3) (lt_of_lt_of_le h4 hwrap), hc]
          omega
        have hu := Thermostat.update_no_start now inp s ha hw
        apply ih now _ (le_trans hlo h3) hu.1 (by simp [Op.apply, hc])
        · right
          rcases hu.2 with h | h
          · rw [h]; exact ⟨hm.1, le_trans hm.2 h3⟩
          · rw [h]; exact ⟨le_trans hlo h3, le_refl _⟩
        · exact h5
    | setMode now m =>
      simp only [Op.time, Bool.and_eq_true, decide_eq_true_eq] at h2
      obtain ⟨⟨h3, h4⟩, h5⟩ := h2
      have hlo2 := le_trans hlo h3
      simp only [Op.apply, Thermostat.setMode]
      split_ifs with a b
      · refine ih now s hlo2 ha hc ?_ h5
        rcases hm with hm | hm
        · exact Or.inl hm
        · exact Or.inr ⟨hm.1, le_trans hm.2 h3⟩
      · exact ih now _ hlo2 (by simp [Thermostat.allRelaysOff]) (by simpa [Thermostat.allRelaysOff] using hc)
          (Or.inl (by simp [Thermostat.allRelaysOff, b])) h5
      · exact ih now _ hlo2 (by simp) (by simpa using hc) (Or.inr ⟨by simpa using hlo2, by simp⟩) h5
    | setCurrentTemperature now temp =>
      simp only [Op.time, Bool.and_eq_true, decide_eq_true_eq] at h2
      obtain ⟨⟨h3, h4⟩, h5⟩ := h2
      refine ih now _ (le_trans hlo h3) ha hc ?_ h5
      rcases hm with hm | hm
      · exact Or.inl hm
      · exact Or.inr ⟨hm.1, le_trans hm.2 h3⟩
    | setConfig c => simp at h1
    | setHeatSetpoint temp => exact ih lo _ hlo ha hc hm h2
    | setCoolSetpoint temp => exact ih lo _ hlo ha hc hm h2
    | setForceFurnace f => exact ih lo _ hlo ha hc hm h2
    | setForceNoHP f => exact ih lo _ hlo ha hc hm h2

/-- C4. Minimum off-time: with a clock that does not wrap and does not run backwards and a
constant configuration, if a call at time `t1` (a tick or a mode change) takes the action
out of HEATING or COOLING, then after any later calls at times `t` with
`t - t1 < minOffTimeMs` the action is neither HEATING nor COOLING: no tick in that window
starts a cycle. -/
theorem minimum_off (s : Thermostat) (e1 : Op) (t1 : Nat) (ops : List Op)
    (hact : s.action = .HEATING ∨ s.action = .COOLING)
    (ht1 : e1.time = some t1)
    (hleave : (e1.apply s).action ≠ .HEATING ∧ (e1.apply s).action ≠ .COOLING)
    (hchr : chrono t1 (min (t1 + s.config.minOffTimeMs) 4294967296) ops = true) :
    (run ops (e1.apply s)).action ≠ .HEATING ∧ (run ops (e1.apply s)).action ≠ .COOLING := by
  have hne : (e1.apply s).action ≠ s.action := by
    rcases hact with h | h <;> rw [h]
    · exact hleave.1
    · exact hleave.2
  apply chrono_keeps s.config t1 _ (Nat.min_le_left _ _) (Nat.min_le_right _ _) ops t1 _
    (le_refl _) hleave
  · cases e1 with
    | update now inp => simp [Op.apply]
    | setMode now m =>
      simp only [Op.apply, Thermostat.setMode]
      split_ifs <;> simp [Thermostat.allRelaysOff]
    | setCurrentTemperature now temp => rfl
    | setConfig c => simp [Op.time] at ht1
    | setHeatSetpoint temp => rfl
    | setCoolSetpoint temp => rfl
    | setForceFurnace f => rfl
    | setForceNoHP f => rfl
  · cases e1 with
    | update now inp =>
      simp only [Op.time, Option.some.injEq] at ht1
      subst ht1
      have := Thermostat.update_leaves now inp s hact hleave
      right
      simp only [Op.apply]
      rw [this.1]
      exact ⟨le_refl _, le_refl _⟩
    | setMode now m =>
      simp only [Op.time, Option.some.injEq] at ht1
      subst ht1
      simp only [Op.apply, Thermostat.setMode] at hne ⊢
      split_ifs at hne ⊢ with a b
      · exact absurd rfl hne
      · left; simp [Thermostat.allRelaysOff, b]
      · right; simp
    | setCurrentTemperature now temp => exact absurd rfl hne
    | setConfig c => exact absurd rfl hne
    | setHeatSetpoint temp => exact absurd rfl hne
    | setCoolSetpoint temp => exact absurd rfl hne
    | setForceFurnace f => exact absurd rfl hne
    | setForceNoHP f => exact absurd rfl hne
  · exact hchr

namespace Thermostat

/-! ### Defrost restoration -/

/-- The defrost handling of a tick that reads the indicator inactive while the defrost flag
is set, the action is HEATING and a pre-defrost level is recorded. -/
theorem handleDefrost_restores (now : Nat) (inp : Inputs) (s : Thermostat)
    (hin : inp.defrostMode = false) (hd : s.defrostActive = true)
    (ha : s.action = .HEATING) (hp : s.preDefrostLevel ≠ .IDLE) :
    s.handleDefrost now inp =
      { s with defrostActive := false, heatLevel := s.preDefrostLevel, coolLevel := .IDLE,
               outputs := heatRow s.preDefrostLevel } := by
  simp [handleDefrost, hin, hd, exitDefrost_active now s hd, ha, hp]

/-- A tick that sets the defrost flag records the heat level held before it. -/
theorem update_enters_defrost (now : Nat) (inp : Inputs) (s : Thermostat)
    (hpre : s.defrostActive = false) (hpost : (s.update now inp).defrostActive = true) :
    (s.update now inp).preDefrostLevel = s.heatLevel ∧ s.mode ≠ .OFF := by
  unfold update at hpost ⊢
  split_ifs at hpost ⊢ with hm
  · rw [hpre] at hpost
    simp at hpost
  · have hf := frame_afterDefrost now inp (handleDefrost now inp (s.checkStale now))
    rw [hf.2.2.1] at hpost
    rw [hf.2.2.2.1]
    refine ⟨?_, hm⟩
    unfold handleDefrost at hpost ⊢
    split_ifs at hpost ⊢ with h1 h2 h3
    · rw [enterDefrost_inactive _ h2.1]
      simp
    · simp [hpre] at hpost
    · simp [hpre] at h3
    · simp [hpre] at hpost

/-- The escalation block leaves the top stage alone. -/
theorem escalateHeat_top (now : Nat) (s : Thermostat) (h : s.heatLevel = .FURNACE_HIGH) :
    s.escalateHeat now = s := by
  simp [escalateHeat, h]

/-- After the defrost handling, a tick that keeps the action HEATING keeps the heat level
when neither the escalation block nor the furnace switch applies. -/
theorem afterDefrost_keeps_level (now : Nat) (inp : Inputs) (s : Thermostat)
    (ha : s.action = .HEATING) (hb : (s.afterDefrost now inp).action = .HEATING)
    (hq : s.tempValid = false ∨
      ((canEscalate now s = false ∨ s.heatLevel = .FURNACE_HIGH) ∧
       (inp.outTempOk = true ∨ s.forceFurnace = true ∨ s.forceNoHP = true ∨
        s.heatLevel = .FURNACE_LOW ∨ s.heatLevel = .FURNACE_HIGH))) :
    (s.afterDefrost now inp).heatLevel = s.heatLevel := by
  have hH : (s.updateHeating now inp).action = .HEATING → s.tempValid = true →
      (s.updateHeating now inp).heatLevel = s.heatLevel := by
    intro hb hv
    rw [hv] at hq
    simp only [Bool.true_eq_false, false_or] at hq
    obtain ⟨hq1, hq2⟩ := hq
    rw [updateHeating_heating now inp s ha] at hb ⊢
    have hsw : ∀ x : Thermostat, x.heatLevel = s.heatLevel → x.forceFurnace = s.forceFurnace →
        x.forceNoHP = s.forceNoHP → (x.outTempSwitch now inp).heatLevel = s.heatLevel := by
      intro x h1 h2 h3
      unfold outTempSwitch
      split_ifs with h4
      · exfalso
        rw [h1, h2, h3] at h4
        rcases hq2 with h | h | h | h | h
        · rw [h] at h4; simp at h4
        · rw [h] at h4; simp at h4
        · rw [h] at h4; simp at h4
        · rw [h] at h4; simp at h4
        · rw [h] at h4; simp at h4
      · exact h1
    split_ifs at hb ⊢ with h1 h2 h3 h4
    · rfl
    · rfl
    · simp [stopHeating] at hb
    · rcases hq1 with h | h
      · rw [h] at h4; simp at h4
      · rw [escalateHeat_top now s h]
        exact hsw s rfl rfl rfl
    · exact hsw s rfl rfl rfl
  revert hb
  unfold afterDefrost
  split_ifs with h1 h2
  · simp [maxRunShutdown]
  · intro _; rfl
  · intro hb
    have hv : s.tempValid = true := by simpa using h2
    cases hm : s.mode
    · rw [dispatch_off now inp s hm]
    · rw [dispatch_heat now inp s hm] at hb ⊢
      exact hH hb hv
    · rw [dispatch_cool now inp s hm, updateCooling_of_heating now s ha]
    · rw [dispatch_heatCool now inp s hm] at hb ⊢
      simp only [ha, if_true] at hb ⊢
      exact hH hb hv
    · rw [dispatch_fanOnly now inp s hm, updateFanOnly_action] at hb
      simp at hb

end Thermostat

/-- While the defrost indicator stays active and the action stays HEATING, the defrost flag
stays set and the recorded pre-defrost level and the mode stay as they are. -/
theorem defrostHeld_keeps (ops : List Op) : ∀ s : Thermostat,
    s.action = .HEATING → s.defrostActive = true → defrostHeld ops s = true →
    (run ops s).action = .HEATING ∧ (run ops s).defrostActive = true ∧
    (run ops s).preDefrostLevel = s.preDefrostLevel ∧ (run ops s).mode = s.mode := by
  induction ops with
  | nil => intro s ha hd _; exact ⟨ha, hd, rfl, rfl⟩
  | cons op ops ih =>
    intro s ha hd hh
    simp only [defrostHeld, Bool.and_eq_true, decide_eq_true_eq] at hh
    obtain ⟨⟨h1, h2⟩, h3⟩ := hh
    have key : (op.apply s).defrostActive = true ∧
        (op.apply s).preDefrostLevel = s.preDefrostLevel ∧ (op.apply s).mode = s.mode := by
      cases op with
      | update now inp =>
        simp only at h1
        simp only [Op.apply, Thermostat.update]
        split_ifs with hm
        · exact ⟨hd, rfl, rfl⟩
        · have hf := Thermostat.frame_afterDefrost now inp
            (Thermostat.handleDefrost now inp (s.checkStale now))
          have hx : Thermostat.handleDefrost now inp (s.checkStale now) = s.checkStale now := by
            simp [Thermostat.handleDefrost, h1, hd]
          rw [hx] at hf ⊢
          exact ⟨by rw [hf.2.2.1]; simpa using hd, by rw [hf.2.2.2.1]; simp,
            by rw [hf.1]; simp⟩
      | setMode now m =>
        simp only [Op.apply, Thermostat.setMode] at h2 ⊢
        split_ifs at h2 ⊢ with a
        exact ⟨hd, rfl, rfl⟩
      | setConfig c => exact ⟨hd, rfl, rfl⟩
      | setCurrentTemperature now temp => exact ⟨hd, rfl, rfl⟩
      | setHeatSetpoint temp => exact ⟨hd, rfl, rfl⟩
      | setCoolSetpoint temp => exact ⟨hd, rfl, rfl⟩
      | setForceFurnace f => exact ⟨hd, rfl, rfl⟩
      | setForceNoHP f => exact ⟨hd, rfl, rfl⟩
    have := ih (op.apply s) h2 key.1 h3
    simp only [run]
    exact ⟨this.1, this.2.1, this.2.2.1.trans key.2.1, this.2.2.2.trans key.2.2⟩

/-- C5 (amended). Defrost restoration at tick level: from a state with a heat level `L`
among HP_LOW, HP_HIGH, FURNACE_LOW, FURNACE_HIGH, if a tick enters defrost (which it does
only when the action is HEATING), the indicator then stays active while the action stays HEATING, and a later tick
reads the indicator inactive and ends with the action still HEATING, then after that later
tick the heat level is `L` again, provided the heating logic of that same tick does not
raise the stage: the temperature is invalid, or the escalation delay has not elapsed (or `L`
is the top stage) and the furnace switch does not apply. -/
theorem defrost_restores_level (s : Thermostat) (t1 : Nat) (inp1 : Inputs) (mid : List Op)
    (t3 : Nat) (inp3 : Inputs)
    (hL : s.heatLevel ≠ .IDLE ∧ s.heatLevel ≠ .DEFROST)
    (hpre : s.defrostActive = false)
    (hent : (s.update t1 inp1).defrostActive = true ∧ (s.update t1 inp1).action = .HEATING)
    (hmid : defrostHeld mid (s.update t1 inp1) = true)
    (hin3 : inp3.defrostMode = false)
    (hstill : ((run mid (s.update t1 inp1)).update t3 inp3).action = .HEATING)
    (hquiet : ((run mid (s.update t1 inp1)).checkStale t3).tempValid = false ∨
      ((Thermostat.canEscalate t3 (run mid (s.update t1 inp1)) = false ∨
          s.heatLevel = .FURNACE_HIGH) ∧
       (inp3.outTempOk = true ∨ (run mid (s.update t1 inp1)).forceFurnace = true ∨
          (run mid (s.update t1 inp1)).forceNoHP = true ∨
          s.heatLevel = .FURNACE_LOW ∨ s.heatLevel = .FURNACE_HIGH))) :
    ((run mid (s.update t1 inp1)).update t3 inp3).heatLevel = s.heatLevel := by
  have he := Thermostat.update_enters_defrost t1 inp1 s hpre hent.1
  have hk := defrostHeld_keeps mid (s.update t1 inp1) hent.2 hent.1 hmid
  revert hstill hquiet
  generalize run mid (s.update t1 inp1) = s2 at hk ⊢
  intro hstill hquiet
  have hp2 : s2.preDefrostLevel = s.heatLevel := hk.2.2.1.trans he.1
  have hm2 : s2.mode ≠ .OFF := by
    rw [hk.2.2.2]; simpa using he.2
  have hr := Thermostat.handleDefrost_restores t3 inp3 (s2.checkStale t3) hin3
    (by simpa using hk.2.1) (by simpa using hk.1) (by simp [hp2, hL.1])
  simp only [Thermostat.update, hm2, if_false] at hstill ⊢
  rw [hr] at hstill ⊢
  rw [Thermostat.afterDefrost_keeps_level t3 inp3 _ (by simpa using hk.1) hstill]
  · simpa using hp2
  · simpa [Thermostat.canEscalate, hp2] using hquiet

namespace Thermostat

/-! ### Escalation delay -/

theorem escalateHeat_cases (now : Nat) (s : Thermostat) :
    s.escalateHeat now = s ∨
    (s.heatLevel.rank < (s.escalateHeat now).heatLevel.rank ∧
      (s.escalateHeat now).lastEscalation = now) := by
  unfold escalateHeat
  split_ifs with h1 h2 h3
  · right; simp [applyHeatLevel_eq, h1.1, HeatLevel.rank]
  · right; rcases h2 with h | h <;> simp [applyHeatLevel_eq, h, HeatLevel.rank]
  · right; simp [applyHeatLevel_eq, h3, HeatLevel.rank]
  · exact Or.inl rfl

theorem outTempSwitch_cases (now : Nat) (inp : Inputs) (s : Thermostat) :
    s.outTempSwitch now inp = s ∨
    (s.heatLevel.rank < (s.outTempSwitch now inp).heatLevel.rank ∧
      (s.outTempSwitch now inp).lastEscalation = now ∧
      inp.outTempOk = false ∧ s.forceFurnace = false ∧ s.forceNoHP = false ∧
      (s.outTempSwitch now inp).heatLevel = .FURNACE_LOW) := by
  unfold outTempSwitch
  split_ifs with h1
  · right
    obtain ⟨a, b, c, d⟩ := h1
    rcases d with h | h <;> simp [applyHeatLevel_eq, h, HeatLevel.rank, a, b, c]
  · exact Or.inl rfl

/-- After the defrost handling, a tick that keeps the action HEATING either leaves the heat
level and `lastEscalation` alone, or raises the heat level and sets `lastEscalation` to the
clock value, and does so only when `canEscalate` holds or the furnace switch applies. -/
theorem afterDefrost_heating_tick (now : Nat) (inp : Inputs) (s : Thermostat)
    (ha : s.action = .HEATING) (hb : (s.afterDefrost now inp).action = .HEATING) :
    ((s.afterDefrost now inp).heatLevel = s.heatLevel ∧
      (s.afterDefrost now inp).lastEscalation = s.lastEscalation) ∨
    (s.defrostActive = false ∧
      s.heatLevel.rank < (s.afterDefrost now inp).heatLevel.rank ∧
      (s.afterDefrost now inp).lastEscalation = now ∧
      (canEscalate now s = true ∨
        (inp.outTempOk = false ∧ s.forceFurnace = false ∧ s.forceNoHP = false ∧
          (s.afterDefrost now inp).heatLevel = .FURNACE_LOW))) := by
  have hH : (s.updateHeating now inp).action = .HEATING →
      (((s.updateHeating now inp).heatLevel = s.heatLevel ∧
        (s.updateHeating now inp).lastEscalation = s.lastEscalation) ∨
      (s.defrostActive = false ∧
        s.heatLevel.rank < (s.updateHeating now inp).heatLevel.rank ∧
        (s.updateHeating now inp).lastEscalation = now ∧
        (canEscalate now s = true ∨
          (inp.outTempOk = false ∧ s.forceFurnace = false ∧ s.forceNoHP = false ∧
            (s.updateHeating now inp).heatLevel = .FURNACE_LOW)))) := by
    intro hb
    rw [updateHeating_heating now inp s ha] at hb ⊢
    split_ifs at hb ⊢ with h1 h2 h3 h4
    · exact Or.inl ⟨rfl, rfl⟩
    · exact Or.inl ⟨rfl, rfl⟩
    · simp [stopHeating] at hb
    · have hd : s.defrostActive = false := by simpa using h1
      have hff := (frame_escalateHeat now s).2.2.2.2
      rcases outTempSwitch_cases now inp (s.escalateHeat now) with h5 | h5
      · rw [h5]
        rcases escalateHeat_cases now s with h6 | h6
        · rw [h6]; exact Or.inl ⟨rfl, rfl⟩
        · exact Or.inr ⟨hd, h6.1, h6.2, Or.inl h4⟩
      · right
        refine ⟨hd, lt_of_le_of_lt (escalateHeat_rank now s).2 h5.1, h5.2.1, Or.inl h4⟩
    · have hd : s.defrostActive = false := by simpa using h1
      rcases outTempSwitch_cases now inp s with h5 | h5
      · rw [h5]; exact Or.inl ⟨rfl, rfl⟩
      · exact Or.inr ⟨hd, h5.1, h5.2.1, Or.inr h5.2.2⟩
  revert hb
  unfold afterDefrost
  split_ifs with h1 h2
  · simp [maxRunShutdown]
  · intro _; exact Or.inl ⟨rfl, rfl⟩
  · cases hm : s.mode
    · rw [dispatch_off now inp s hm]; intro _; exact Or.inl ⟨rfl, rfl⟩
    · rw [dispatch_heat now inp s hm]; exact hH
    · rw [dispatch_cool now inp s hm, updateCooling_of_heating now s ha]
      intro _; exact Or.inl ⟨rfl, rfl⟩
    · rw [dispatch_heatCool now inp s hm]
      simp only [ha, if_true]
      exact hH
    · rw [dispatch_fanOnly now inp s hm, updateFanOnly_action]
      simp

/-- After the defrost handling, a tick that keeps the action COOLING either leaves the cool
level and `lastEscalation` alone, or raises the cool level and sets `lastEscalation` to the
clock value, and does so only when `canEscalate` holds. -/
theorem afterDefrost_cooling_tick (now : Nat) (inp : Inputs) (s : Thermostat)
    (ha : s.action = .COOLING) (hb : (s.afterDefrost now inp).action = .COOLING) :
    ((s.afterDefrost now inp).coolLevel = s.coolLevel ∧
      (s.afterDefrost now inp).lastEscalation = s.lastEscalation) ∨
    (s.coolLevel.rank < (s.afterDefrost now inp).coolLevel.rank ∧
      (s.afterDefrost now inp).lastEscalation = now ∧ canEscalate now s = true) := by
  have hC : (s.updateCooling now).action = .COOLING →
      (((s.updateCooling now).coolLevel = s.coolLevel ∧
        (s.updateCooling now).lastEscalation = s.lastEscalation) ∨
      (s.coolLevel.rank < (s.updateCooling now).coolLevel.rank ∧
        (s.updateCooling now).lastEscalation = now ∧ canEscalate now s = true)) := by
    intro hb
    rw [updateCooling_cooling now s ha] at hb ⊢
    split_ifs at hb ⊢ with h1 h2 h3
    · exact Or.inl ⟨rfl, rfl⟩
    · simp [stopCooling] at hb
    · right
      simp [escalateCool, applyCoolLevel_eq, h3.1, h3.2, CoolLevel.rank]
    · exact Or.inl ⟨rfl, rfl⟩
  revert hb
  unfold afterDefrost
  split_ifs with h1 h2
  · simp [maxRunShutdown]
  · intro _; exact Or.inl ⟨rfl, rfl⟩
  · cases hm : s.mode
    · rw [dispatch_off now inp s hm]; intro _; exact Or.inl ⟨rfl, rfl⟩
    · rw [dispatch_heat now inp s hm, updateHeating_of_cooling now inp s ha]
      intro _; exact Or.inl ⟨rfl, rfl⟩
    · rw [dispatch_cool now inp s hm]; exact hC
    · rw [dispatch_heatCool now inp s hm]
      simp only [ha, reduceCtorEq, if_false, if_true]
      exact hC
    · rw [dispatch_fanOnly now inp s hm, updateFanOnly_action]
      simp

/-- The defrost handling of a tick that does not end the cycle leaves the held level
alone. -/
theorem handleDefrost_heldLevel (now : Nat) (inp : Inputs) (s : Thermostat)
    (hx : defrostExitForcesIdle inp s = false) :
    (s.handleDefrost now inp).heldLevel = s.heldLevel := by
  unfold handleDefrost
  split_ifs with h1 h2 h3
  · rw [enterDefrost_inactive _ h2.1]
    simp [heldLevel, h2.1]
  · rfl
  · rw [exitDefrost_active now s h3]
    split_ifs with h4
    · simp [heldLevel, h3]
    · simp [defrostExitForcesIdle, h3, h1] at hx
      exact absurd hx h4
  · rfl

/-- While COOLING, the defrost handling of a tick that does not end the cycle does
nothing. -/
theorem handleDefrost_cooling (now : Nat) (inp : Inputs) (s : Thermostat)
    (ha : s.action = .COOLING) (hx : defrostExitForcesIdle inp s = false) :
    s.handleDefrost now inp = s := by
  unfold handleDefrost
  split_ifs with h1 h2 h3
  · rw [ha] at h2; simp at h2
  · rfl
  · simp [defrostExitForcesIdle, h3, h1, ha] at hx
  · rfl

/-- A tick inside a cycle, whose defrost handling does not end the cycle and which keeps the
action, either leaves the stage and `lastEscalation` alone, or raises the stage and sets
`lastEscalation` to the clock value; it raises the stage only when `canEscalate` holds or,
while HEATING, when the furnace switch applies. -/
theorem update_stage_tick (now : Nat) (inp : Inputs) (s : Thermostat)
    (ha : s.action = .HEATING ∨ s.action = .COOLING)
    (hx : defrostExitForcesIdle inp s = false)
    (hb : (s.update now inp).action = s.action) :
    ((s.update now inp).stage = s.stage ∧
      (s.update now inp).lastEscalation = s.lastEscalation) ∨
    (s.stage < (s.update now inp).stage ∧ (s.update now inp).lastEscalation = now ∧
      (canEscalate now s = true ∨
        (s.action = .HEATING ∧ inp.outTempOk = false ∧ s.forceFurnace = false ∧
          s.forceNoHP = false ∧ (s.update now inp).heatLevel = .FURNACE_LOW))) := by
  unfold update at hb ⊢
  split_ifs at hb ⊢ with hm
  · exact Or.inl ⟨rfl, rfl⟩
  · have hx0 := (defrostExitForcesIdle_checkStale now inp s).trans hx
    have hce : ∀ x : Thermostat, x.lastEscalation = s.lastEscalation → x.config = s.config →
        canEscalate now x = canEscalate now s := by
      intro x h1 h2
      simp [canEscalate, h1, h2]
    rcases ha with ha | ha
    · have hd := handleDefrost_action now inp (s.checkStale now) hx0
      have ha1 : (handleDefrost now inp (s.checkStale now)).action = .HEATING := by
        rw [hd]; simpa using ha
      have hh := handleDefrost_heldLevel now inp (s.checkStale now) hx0
      have hh' : (handleDefrost now inp (s.checkStale now)).heldLevel = s.heldLevel := by
        rw [hh]; simp [heldLevel]
      rw [ha] at hb
      have hf := frame_afterDefrost now inp (handleDefrost now inp (s.checkStale now))
      rcases afterDefrost_heating_tick now inp _ ha1 hb with h | h
      · left
        refine ⟨?_, by rw [h.2]; simp⟩
        simp only [stage, hb, ha]
        rw [← hh']
        simp only [heldLevel, hf.2.2.1, hf.2.2.2.1, h.1]
      · right
        have hd2 : (afterDefrost now inp (handleDefrost now inp (s.checkStale now))).defrostActive
            = false := by rw [hf.2.2.1]; exact h.1
        refine ⟨?_, h.2.2.1, ?_⟩
        · simp only [stage, hb, ha]
          rw [← hh']
          simp only [heldLevel, hd2, h.1]
          exact h.2.1
        · rcases h.2.2.2 with h2 | h2
          · left
            rw [← h2]
            exact (hce _ (by simp) (by simp)).symm
          · right
            exact ⟨ha, h2.1, by simpa using h2.2.1, by simpa using h2.2.2.1, h2.2.2.2⟩
    · rw [handleDefrost_cooling now inp (s.checkStale now) (by simpa using ha) hx0] at hb ⊢
      rw [ha] at hb
      rcases afterDefrost_cooling_tick now inp _ (by simpa using ha) hb with h | h
      · left
        refine ⟨?_, by rw [h.2]; simp⟩
        simp only [stage, hb, ha, h.1, checkStale_coolLevel]
      · right
        refine ⟨?_, h.2.1, Or.inl ?_⟩
        · simp only [stage, hb, ha]
          simpa using h.1
        · rw [← h.2.2]
          exact (hce _ (by simp) (by simp)).symm

end Thermostat

/-- Inside one cycle, while no tick changes the stage, the action, `lastEscalation` and the
configuration stay as they are. -/
theorem sameStage_keeps (ops : List Op) : ∀ s : Thermostat,
    (s.action = .HEATING ∨ s.action = .COOLING) → sameStage ops s = true →
    (run ops s).action = s.action ∧ (run ops s).lastEscalation = s.lastEscalation ∧
    (run ops s).config = s.config := by
  induction ops with
  | nil => intro s _ _; exact ⟨rfl, rfl, rfl⟩
  | cons op ops ih =>
    intro s ha hc
    simp only [sameStage, Bool.and_eq_true] at hc
    obtain ⟨h1, h2⟩ := hc
    have key : (op.apply s).action = s.action ∧
        (op.apply s).lastEscalation = s.lastEscalation ∧ (op.apply s).config = s.config := by
      cases op with
      | update now inp =>
        simp only [Bool.and_eq_true, Bool.not_eq_true', decide_eq_true_eq] at h1
        obtain ⟨⟨h3, h4⟩, h5⟩ := h1
        refine ⟨h4, ?_, by simp [Op.apply]⟩
        rcases Thermostat.update_stage_tick now inp s ha h3 h4 with h | h
        · exact h.2
        · exact absurd h5 (Nat.ne_of_gt h.1)
      | setMode now m => simp at h1
      | setConfig c => simp at h1
      | setCurrentTemperature now temp => exact ⟨rfl, rfl, rfl⟩
      | setHeatSetpoint temp => exact ⟨rfl, rfl, rfl⟩
      | setCoolSetpoint temp => exact ⟨rfl, rfl, rfl⟩
      | setForceFurnace f => exact ⟨rfl, rfl, rfl⟩
      | setForceNoHP f => exact ⟨rfl, rfl, rfl⟩
    have := ih (op.apply s) (by rw [key.1]; exact ha) h2
    simp only [run]
    exact ⟨this.1.trans key.1, this.2.1.trans key.2.1, this.2.2.trans key.2.2⟩

/-- A tick that begins a cycle or changes the stage of the running cycle sets
`lastEscalation` to its clock value. -/
theorem update_marks_stage (s : Thermostat) (now : Nat) (inp : Inputs)
    (hrun : (s.update now inp).action = .HEATING ∨ (s.update now inp).action = .COOLING)
    (hbegin : s.action ≠ (s.update now inp).action ∨ s.stage ≠ (s.update now inp).stage) :
    (s.update now inp).lastEscalation = now := by
  by_cases hsame : s.action = (s.update now inp).action
  · have hst : s.stage ≠ (s.update now inp).stage := by
      rcases hbegin with h | h
      · exact absurd hsame h
      · exact h
    have ha : s.action = .HEATING ∨ s.action = .COOLING := by rw [hsame]; exact hrun
    cases hx : defrostExitForcesIdle inp s
    · rcases Thermostat.update_stage_tick now inp s ha hx hsame.symm with h | h
      · exact absurd h.1.symm hst
      · exact h.2.1
    · have hm : s.mode ≠ .OFF := by
        intro hm
        apply hst
        simp [Thermostat.update, hm]
      have hf := Thermostat.handleDefrost_forced now inp (s.checkStale now)
        ((Thermostat.defrostExitForcesIdle_checkStale now inp s).trans hx)
      simp only [Thermostat.update, hm, if_false] at hrun ⊢
      rcases hrun with h | h
      · have := Thermostat.afterDefrost_starts_heating now inp _ (by rw [hf]; simp) h
        rw [this.1]
        simp [Thermostat.startHeating_eq]
      · have := Thermostat.afterDefrost_starts_cooling now inp _ (by rw [hf]; simp) h
        rw [this.1]
        simp [Thermostat.startCooling, Thermostat.applyCoolLevel_eq]
  · rcases hrun with h | h
    · exact (Thermostat.update_starts_heating now inp s (by rw [← h]; exact hsame) h).2.1
    · exact (Thermostat.update_starts_cooling now inp s (by rw [← h]; exact hsame) h).2.1

/-- C8 (amended). Escalation is delay-gated: let a tick at time `t0` begin a heating or
cooling cycle or change its stage. If a later tick of the same cycle at time `t`, the first
to change the stage since `t0` (mode and configuration unchanged), raises the stage, then
`t - t0 >= escalationDelayMs`, except for the switch from a heat-pump stage to FURNACE_LOW
made while the outdoor permission is inactive and no force flag is set, which is not
delay-gated. -/
theorem escalation_delay_gated (s0 : Thermostat) (t0 : Nat) (inp0 : Inputs) (ops : List Op)
    (t : Nat) (inp : Inputs)
    (hrun : (s0.update t0 inp0).action = .HEATING ∨ (s0.update t0 inp0).action = .COOLING)
    (hbegin : s0.action ≠ (s0.update t0 inp0).action ∨ s0.stage ≠ (s0.update t0 inp0).stage)
    (hcyc : sameStage ops (s0.update t0 inp0) = true)
    (hx : defrostExitForcesIdle inp (run ops (s0.update t0 inp0)) = false)
    (hsame : ((run ops (s0.update t0 inp0)).update t inp).action =
      (run ops (s0.update t0 inp0)).action)
    (hrise : (run ops (s0.update t0 inp0)).stage <
      ((run ops (s0.update t0 inp0)).update t inp).stage) :
    s0.config.escalationDelayMs ≤ wsub t t0 ∨
    ((run ops (s0.update t0 inp0)).action = .HEATING ∧ inp.outTempOk = false ∧
      (run ops (s0.update t0 inp0)).forceFurnace = false ∧
      (run ops (s0.update t0 inp0)).forceNoHP = false ∧
      ((run ops (s0.update t0 inp0)).update t inp).heatLevel = .FURNACE_LOW) := by
  have hmark := update_marks_stage s0 t0 inp0 hrun hbegin
  have hk := sameStage_keeps ops (s0.update t0 inp0) hrun hcyc
  have ha2 : (run ops (s0.update t0 inp0)).action = .HEATING ∨
      (run ops (s0.update t0 inp0)).action = .COOLING := by rw [hk.1]; exact hrun
  rcases Thermostat.update_stage_tick t inp _ ha2 hx hsame with h | h
  · exact absurd h.1 (Nat.ne_of_gt hrise)
  · rcases h.2.2 with h2 | h2
    · left
      simpa [Thermostat.canEscalate, hk.2.1, hk.2.2, hmark] using h2
    · exact Or.inr h2

/-! ### Concrete executions: counterexamples and instances -/

/-- C2, counterexample. The state `exCooling` is COOLING with the defrost flag still set. At
clock value 2162001 the cycle has run for more than `maxRunTimeMs`; the tick reads the
defrost indicator inactive, its defrost exit ends the cycle, and the cool level is left at
COOL instead of IDLE. -/
theorem maxRun_counterexample :
    exCooling.mode ≠ .OFF ∧ exCooling.action = .COOLING ∧ exCooling.defrostActive = true ∧
    wsub 2162001 exCooling.actionStartTime > exCooling.config.maxRunTimeMs ∧
    (exCooling.update 2162001 ⟨true, false⟩).coolLevel = .COOL := by
  decide

/-- C2, instance of the amended claim: heating since 180000, tick at 1980001. -/
theorem maxRun_unconditional_witness :
    exHeating.mode ≠ .OFF ∧
    (exHeating.action = .HEATING ∨ exHeating.action = .COOLING) ∧
    wsub 1980001 exHeating.actionStartTime > exHeating.config.maxRunTimeMs ∧
    defrostExitForcesIdle ⟨true, false⟩ exHeating = false ∧
    ((exHeating.update 1980001 ⟨true, false⟩).outputs = Relays.allOff ∧
     (exHeating.update 1980001 ⟨true, false⟩).action = .IDLE ∧
     (exHeating.update 1980001 ⟨true, false⟩).heatLevel = .IDLE ∧
     (exHeating.update 1980001 ⟨true, false⟩).coolLevel = .IDLE ∧
     (exHeating.update 1980001 ⟨true, false⟩).lastActionChange = 1980001) :=
  ⟨by decide, by decide, by decide, by decide,
    Thermostat.maxRun_unconditional exHeating 1980001 ⟨true, false⟩
      (by decide) (by decide) (by decide) (by decide)⟩

/-- C3, counterexample. From `exCoolIdle` the tick at 362000 sets the action to COOLING; the
tick at 363000, 1000 ms later and well inside `minOnTimeMs`, reads the defrost indicator
inactive and sets the action to IDLE, with no mode change in between and the max-run limit
not exceeded. -/
theorem minimum_on_counterexample :
    exCoolIdle.action = .IDLE ∧
    (exCoolIdle.update 362000 ⟨true, true⟩).action = .COOLING ∧
    wsub 363000 362000 < exCoolIdle.config.minOnTimeMs ∧
    ¬ (wsub 363000 362000 > exCoolIdle.config.maxRunTimeMs) ∧
    ((exCoolIdle.update 362000 ⟨true, true⟩).update 363000 ⟨true, false⟩).action = .IDLE := by
  decide

/-- C3, instance of the amended claim: heating starts at 180000; at 190000 and at 200000
the temperature is above the stop threshold, and the action stays HEATING. -/
theorem minimum_on_witness :
    ((exHeatIdle.update 180000 ⟨true, false⟩).action = .HEATING ∨
      (exHeatIdle.update 180000 ⟨true, false⟩).action = .COOLING) ∧
    exHeatIdle.action ≠ (exHeatIdle.update 180000 ⟨true, false⟩).action ∧
    sameCycle [.setCurrentTemperature 185000 (F32.ofTenths 700), .update 190000 ⟨true, false⟩]
      (exHeatIdle.update 180000 ⟨true, false⟩) = true ∧
    wsub 200000 180000 < exHeatIdle.config.minOnTimeMs ∧
    ¬ (wsub 200000 180000 > exHeatIdle.config.maxRunTimeMs) ∧
    defrostExitForcesIdle ⟨true, false⟩
      (run [.setCurrentTemperature 185000 (F32.ofTenths 700), .update 190000 ⟨true, false⟩]
        (exHeatIdle.update 180000 ⟨true, false⟩)) = false ∧
    ((run [.setCurrentTemperature 185000 (F32.ofTenths 700), .update 190000 ⟨true, false⟩]
        (exHeatIdle.update 180000 ⟨true, false⟩)).update 200000 ⟨true, false⟩).action =
      (exHeatIdle.update 180000 ⟨true, false⟩).action :=
  ⟨by decide, by decide, by decide, by decide, by decide, by decide,
    minimum_on exHeatIdle 180000 ⟨true, false⟩
      [.setCurrentTemperature 185000 (F32.ofTenths 700), .update 190000 ⟨true, false⟩] 200000 ⟨true, false⟩
      (by decide) (by decide) (by decide) (by decide) (by decide) (by decide)⟩

/-- C4, instance: the max-run shutdown ends the heating cycle at 1980001; the temperature is
still below the heat setpoint, and the tick at 2000000, inside `minOffTimeMs`, does not
start a cycle. -/
theorem minimum_off_witness :
    (exHeating.action = .HEATING ∨ exHeating.action = .COOLING) ∧
    (Op.update 1980001 ⟨true, false⟩).time = some 1980001 ∧
    (((Op.update 1980001 ⟨true, false⟩).apply exHeating).action ≠ .HEATING ∧
      ((Op.update 1980001 ⟨true, false⟩).apply exHeating).action ≠ .COOLING) ∧
    chrono 1980001 (min (1980001 + exHeating.config.minOffTimeMs) 4294967296)
      [.setCurrentTemperature 1990000 (F32.ofTenths 600), .update 2000000 ⟨true, false⟩] = true ∧
    ((run [.setCurrentTemperature 1990000 (F32.ofTenths 600), .update 2000000 ⟨true, false⟩]
        ((Op.update 1980001 ⟨true, false⟩).apply exHeating)).action ≠ .HEATING ∧
     (run [.setCurrentTemperature 1990000 (F32.ofTenths 600), .update 2000000 ⟨true, false⟩]
        ((Op.update 1980001 ⟨true, false⟩).apply exHeating)).action ≠ .COOLING) :=
  ⟨by decide, by decide, by decide, by decide,
    minimum_off exHeating (.update 1980001 ⟨true, false⟩) 1980001
      [.setCurrentTemperature 1990000 (F32.ofTenths 600), .update 2000000 ⟨true, false⟩]
      (by decide) (by decide) (by decide) (by decide)⟩

/-- C5, counterexample. `exHeating` is HEATING in stage HP_LOW since 180000. The tick at
700000 reads the defrost indicator active and enters defrost; the tick at 800000 reads it
inactive. The action is still HEATING, but the escalation delay of 600000 ms has elapsed
meanwhile and the tick ends in stage HP_HIGH, not HP_LOW. -/
theorem defrost_restore_counterexample :
    exHeating.action = .HEATING ∧ exHeating.heatLevel = .HP_LOW ∧
    (exHeating.update 700000 ⟨true, true⟩).heatLevel = .DEFROST ∧
    (exHeating.update 700000 ⟨true, true⟩).action = .HEATING ∧
    ((exHeating.update 700000 ⟨true, true⟩).update 800000 ⟨true, false⟩).action = .HEATING ∧
    ((exHeating.update 700000 ⟨true, true⟩).update 800000 ⟨true, false⟩).heatLevel
      = .HP_HIGH := by
  decide

/-- C5, instance of the amended claim: defrost entered at 700000 and left at 750000, before
the escalation delay has elapsed; the heat level is HP_LOW again. -/
theorem defrost_restores_level_witness :
    (exHeating.heatLevel ≠ .IDLE ∧ exHeating.heatLevel ≠ .DEFROST) ∧
    exHeating.defrostActive = false ∧
    ((exHeating.update 700000 ⟨true, true⟩).defrostActive = true ∧
      (exHeating.update 700000 ⟨true, true⟩).action = .HEATING) ∧
    defrostHeld [.update 701000 ⟨true, true⟩] (exHeating.update 700000 ⟨true, true⟩) = true ∧
    ((run [.update 701000 ⟨true, true⟩] (exHeating.update 700000 ⟨true, true⟩)).update
      750000 ⟨true, false⟩).action = .HEATING ∧
    ((run [.update 701000 ⟨true, true⟩] (exHeating.update 700000 ⟨true, true⟩)).update
      750000 ⟨true, false⟩).heatLevel = exHeating.heatLevel :=
  ⟨by decide, by decide, by decide, by decide, by decide,
    defrost_restores_level exHeating 700000 ⟨true, true⟩ [.update 701000 ⟨true, true⟩]
      750000 ⟨true, false⟩ (by decide) (by decide) (by decide) (by decide) rfl (by decide)
      (Or.inr ⟨Or.inl (by decide), Or.inl rfl⟩)⟩

/-- C6, instance: after an edge at 1000 and a poll at 1500, the verify step at 3500 reads a
high level and changes the confirmed value; it is a verify step and its live read is the
pending level. -/
theorem debounce_soundness_witness :
    ((InStep.verify 3500 1).apply (runInput [.onEdge 1000 1, .poll 1500 1]
        ((InputPin.create 2000 true).initPin 0 0 0))).confirmedActive ≠
      (runInput [.onEdge 1000 1, .poll 1500 1]
        ((InputPin.create 2000 true).initPin 0 0 0)).confirmedActive ∧
    ∃ now raw, InStep.verify 3500 1 = .verify now raw ∧
      (runInput [.onEdge 1000 1, .poll 1500 1]
        ((InputPin.create 2000 true).initPin 0 0 0)).pendingState =
        (if raw > 0 then 1 else 0) :=
  ⟨by decide, debounce_soundness 2000 true 0 0 0 [.onEdge 1000 1, .poll 1500 1]
    (.verify 3500 1) (by decide)⟩

/-- C7, instance: the input has the pending level 1 after an edge and a poll; the verify
step is evaluated on a matching and on a contradicting live read. -/
theorem verify_postcondition_witness :
    (runInput [.onEdge 1000 1, .poll 1500 1] exPin).pendingState
      = (if true = true then 1 else 0) ∧
    (runInput [.onEdge 1000 1, .poll 1500 1] exPin).hasClbk = true ∧
    ((runInput [.onEdge 1000 1, .poll 1500 1] exPin).Callback 3500 1).confirmedActive = true ∧
    ((runInput [.onEdge 1000 1, .poll 1500 1] exPin).Callback 3500 0).confirmedActive =
      (runInput [.onEdge 1000 1, .poll 1500 1] exPin).confirmedActive :=
  ⟨by decide, by decide,
    ((InputPin.verify_postcondition (runInput [.onEdge 1000 1, .poll 1500 1] exPin) 3500 1
      true (by decide) (by decide)).1 (by decide)).1,
    ((InputPin.verify_postcondition (runInput [.onEdge 1000 1, .poll 1500 1] exPin) 3500 0
      true (by decide) (by decide)).2 (by decide)).1⟩

/-- C8, counterexample. Heating starts at 180000 in stage HP_LOW; at 181000, only 1000 ms
into the cycle, the tick reads the outdoor permission inactive and raises the stage to
FURNACE_LOW, long before `escalationDelayMs` has elapsed. -/
theorem escalation_gate_counterexample :
    exHeatIdle.action = .IDLE ∧
    (exHeatIdle.update 180000 ⟨true, false⟩).action = .HEATING ∧
    (exHeatIdle.update 180000 ⟨true, false⟩).heatLevel = .HP_LOW ∧
    ((exHeatIdle.update 180000 ⟨true, false⟩).update 181000 ⟨false, false⟩).action
      = .HEATING ∧
    ((exHeatIdle.update 180000 ⟨true, false⟩).update 181000 ⟨false, false⟩).heatLevel
      = .FURNACE_LOW ∧
    wsub 181000 180000 < exHeatIdle.config.escalationDelayMs := by
  decide

/-- C8, instance of the amended claim: heating starts at 180000 in HP_LOW, the tick at
780000 raises the stage to HP_HIGH, 600000 ms after the start. -/
theorem escalation_delay_gated_witness :
    ((exHeatIdle.update 180000 ⟨true, false⟩).action = .HEATING ∨
      (exHeatIdle.update 180000 ⟨true, false⟩).action = .COOLING) ∧
    (exHeatIdle.action ≠ (exHeatIdle.update 180000 ⟨true, false⟩).action ∨
      exHeatIdle.stage ≠ (exHeatIdle.update 180000 ⟨true, false⟩).stage) ∧
    sameStage [.setCurrentTemperature 700000 (F32.ofTenths 600)]
      (exHeatIdle.update 180000 ⟨true, false⟩) = true ∧
    (run [.setCurrentTemperature 700000 (F32.ofTenths 600)] (exHeatIdle.update 180000 ⟨true, false⟩)).stage <
      ((run [.setCurrentTemperature 700000 (F32.ofTenths 600)]
        (exHeatIdle.update 180000 ⟨true, false⟩)).update 780000 ⟨true, false⟩).stage ∧
    (exHeatIdle.config.escalationDelayMs ≤ wsub 780000 180000 ∨
      ((run [.setCurrentTemperature 700000 (F32.ofTenths 600)]
          (exHeatIdle.update 180000 ⟨true, false⟩)).action = .HEATING ∧
        (⟨true, false⟩ : Inputs).outTempOk = false ∧
        (run [.setCurrentTemperature 700000 (F32.ofTenths 600)]
          (exHeatIdle.update 180000 ⟨true, false⟩)).forceFurnace = false ∧
        (run [.setCurrentTemperature 700000 (F32.ofTenths 600)]
          (exHeatIdle.update 180000 ⟨true, false⟩)).forceNoHP = false ∧
        ((run [.setCurrentTemperature 700000 (F32.ofTenths 600)]
          (exHeatIdle.update 180000 ⟨true, false⟩)).update 780000 ⟨true, false⟩).heatLevel
          = .FURNACE_LOW)) :=
  ⟨by decide, by decide, by decide, by decide,
    escalation_delay_gated exHeatIdle 180000 ⟨true, false⟩ [.setCurrentTemperature 700000 (F32.ofTenths 600)]
      780000 ⟨true, false⟩ (by decide) (by decide) (by decide) (by decide) (by decide)
      (by decide)⟩

/-- C9, instance: the tick at 780000 escalates `exHeating` from HP_LOW to HP_HIGH; the rank
of the heat level does not decrease. -/
theorem stage_never_decreases_witness :
    exHeating.defrostActive = false ∧
    (exHeating.update 780000 ⟨true, false⟩).defrostActive = false ∧
    exHeating.action = .HEATING ∧
    (exHeating.update 780000 ⟨true, false⟩).action = .HEATING ∧
    exHeating.heatLevel.rank ≤ (exHeating.update 780000 ⟨true, false⟩).heatLevel.rank :=
  ⟨by decide, by decide, by decide, by decide,
    (Thermostat.stage_never_decreases exHeating 780000 ⟨true, false⟩ (by decide)
      (by decide)).1 (by decide) (by decide)⟩

/-! ### Binary32 comparisons and exact results -/

/-- A `float` comparison `a < b` that holds excludes `a >= b`. -/
theorem F32.not_ge_of_lt (a b : F32) (h : a < b) : ¬ a ≥ b := by
  change F32.lt a b = true at h
  change ¬ F32.le b a = true
  cases a <;> cases b <;> simp_all [F32.lt, F32.le]

/-- A `float` comparison `a > b` that holds excludes `a <= b`. -/
theorem F32.not_le_of_gt (a b : F32) (h : a > b) : ¬ a ≤ b := by
  change F32.lt b a = true at h
  change ¬ F32.le a b = true
  cases a <;> cases b <;> simp_all [F32.lt, F32.le]

/-- Rounding is exact on a magnitude below the overflow bound whose dropped bits are all
zero. -/
theorem F32.round_exact (neg : Bool) (N : Nat) (h1 : N < F32.overflowBound)
    (h2 : N % 2 ^ F32.shift N = 0) :
    F32.round neg N 1 = .fin (if neg = true then -(N : Int) else (N : Int)) := by
  have hq : N / 2 ^ F32.shift N * 2 ^ F32.shift N = N :=
    Nat.div_mul_cancel (Nat.dvd_of_mod_eq_zero h2)
  have hpos : 0 < 2 ^ F32.shift N := Nat.pow_pos (by decide)
  simp only [F32.round, Nat.div_one, one_mul, not_le.mpr h1, if_false, h2, mul_zero,
    gt_iff_lt, Nat.not_lt_zero, false_or]
  have hne : ¬ (0 = 2 ^ F32.shift N ∧ N / 2 ^ F32.shift N % 2 = 1) := fun h => by
    omega
  simp only [hne, if_false, hq, not_le.mpr h1]

/-- The `float` sum of two finite values is their exact sum when that is representable. -/
theorem F32.add_exact (a b : Int) (h : F32.representable (a + b) = true) :
    F32.fin a + F32.fin b = F32.fin (a + b) := by
  simp only [F32.representable, Bool.and_eq_true, decide_eq_true_eq] at h
  change F32.add (.fin a) (.fin b) = _
  simp only [F32.add, F32.round_exact _ _ h.1 h.2]
  by_cases h3 : a + b < 0
  · simp only [h3, decide_True, if_true, F32.fin.injEq]
    omega
  · simp only [h3, decide_False, Bool.false_eq_true, if_false, F32.fin.injEq]
    omega

/-- The `float` difference of two finite values is their exact difference when that is
representable. -/
theorem F32.sub_exact (a b : Int) (h : F32.representable (a - b) = true) :
    F32.fin a - F32.fin b = F32.fin (a - b) := by
  have := F32.add_exact a (-b) (by simpa [sub_eq_add_neg] using h)
  change F32.add (.fin a) (F32.neg (.fin b)) = _
  simpa [F32.neg, sub_eq_add_neg] using this

namespace Thermostat

/-! ### Mode changes and the inert Off mode -/

/-- C11, evaluation at the failing input. `exHeating` is HEATING in mode HEAT with the
HP_LOW relays on; `setMode(COOL)` sets the action to IDLE and leaves the fan, the low
aux relay and compressor 1 on and the heat level at HP_LOW. -/
theorem setMode_midcycle_keeps_relays :
    exHeating.mode = .HEAT ∧ exHeating.action = .HEATING ∧
    (exHeating.setMode 650000 .COOL).action = .IDLE ∧
    (exHeating.setMode 650000 .COOL).heatLevel = .HP_LOW ∧
    (exHeating.setMode 650000 .COOL).outputs =
      { fan1 := true, rev := false, furnCoolLow := true, furnCoolHigh := false,
        w1 := false, w2 := false, comp1 := true, comp2 := false } := by
  decide

/-- C12. Off mode is inert: in mode OFF a tick leaves the whole controller state as it is,
for every clock value and all input values. -/
theorem off_mode_inert (s : Thermostat) (now : Nat) (inp : Inputs) (hm : s.mode = .OFF) :
    s.update now inp = s := by
  simp [update, hm]

/-! ### Single ticks of the heating logic -/

/-- The staleness check leaves a fresh sample alone. -/
theorem checkStale_fresh (now : Nat) (s : Thermostat)
    (hfresh : ¬ wsub now s.lastTempUpdate > 300000) : s.checkStale now = s := by
  simp [checkStale, hfresh]

/-- The defrost handling does nothing when the tick neither enters nor leaves defrost. -/
theorem handleDefrost_idle (now : Nat) (inp : Inputs) (s : Thermostat)
    (henter : ¬ (inp.defrostMode = true ∧ s.defrostActive = false ∧ s.action = .HEATING))
    (hexit : ¬ (inp.defrostMode = false ∧ s.defrostActive = true)) :
    s.handleDefrost now inp = s := by
  unfold handleDefrost
  split_ifs with h1 h2 h3
  · exact absurd ⟨h1, h2⟩ henter
  · rfl
  · exact absurd ⟨by simpa using h1, h3⟩ hexit
  · rfl

/-- A tick in mode HEAT, or in mode HEAT_COOL while HEATING, that neither enters nor leaves
defrost, with a valid fresh temperature and the max-run limit not exceeded, is the heating
logic `updateHeating`. -/
theorem update_runs_heating (now : Nat) (inp : Inputs) (s : Thermostat)
    (hm : s.mode = .HEAT ∨ (s.mode = .HEAT_COOL ∧ s.action = .HEATING))
    (henter : ¬ (inp.defrostMode = true ∧ s.defrostActive = false ∧ s.action = .HEATING))
    (hexit : ¬ (inp.defrostMode = false ∧ s.defrostActive = true))
    (hv : s.tempValid = true) (hfresh : ¬ wsub now s.lastTempUpdate > 300000)
    (hmax : maxRunExceeded now s = false) :
    s.update now inp = s.updateHeating now inp := by
  have hoff : s.mode ≠ .OFF := by
    rcases hm with h | h
    · rw [h]; simp
    · rw [h.1]; simp
  simp only [update, hoff, if_false, checkStale_fresh now s hfresh,
    handleDefrost_idle now inp s henter hexit, afterDefrost, hmax, hv]
  simp only [Bool.false_eq_true, if_false, Bool.true_eq_false]
  rcases hm with h | h
  · exact dispatch_heat now inp s h
  · rw [dispatch_heatCool now inp s h.1]
    simp [h.2]

/-- C14. Defrost entry: from a state that is not in Defrost, `enterDefrost` records the heat
level held on entry as the pre-defrost level, sets the heat level to DEFROST with exactly
the Defrost relay row on, sets the defrost flag and leaves the action alone; from a state
already in Defrost it changes nothing, so the recorded level is not overwritten. -/
theorem enterDefrost_records (s : Thermostat) :
    (s.defrostActive = false →
      s.enterDefrost.preDefrostLevel = s.heatLevel ∧
      s.enterDefrost.heatLevel = .DEFROST ∧
      s.enterDefrost.outputs =
        { fan1 := true, rev := false, furnCoolLow := true, furnCoolHigh := false,
          w1 := true, w2 := false, comp1 := true, comp2 := false } ∧
      s.enterDefrost.defrostActive = true ∧
      s.enterDefrost.action = s.action) ∧
    (s.defrostActive = true → s.enterDefrost = s) := by
  constructor
  · intro h
    rw [enterDefrost_inactive s h]
    exact ⟨rfl, rfl, rfl, rfl, rfl⟩
  · intro h
    simp [enterDefrost, h]

/-- The two branches of `exitDefrost` from a state in Defrost: the flag is cleared; if the
action is HEATING and a pre-defrost level other than IDLE is recorded, the heat level is
that level with exactly its relay row on and the action stays HEATING; otherwise all relays
are off, the heat level and the action are IDLE and `lastActionChange` is the clock
value. -/
theorem exitDefrost_effect (s : Thermostat) (now : Nat) (hd : s.defrostActive = true) :
    (s.exitDefrost now).defrostActive = false ∧
    (s.action = .HEATING ∧ s.preDefrostLevel ≠ .IDLE →
      (s.exitDefrost now).heatLevel = s.preDefrostLevel ∧
      (s.exitDefrost now).outputs = heatRow s.preDefrostLevel ∧
      (s.exitDefrost now).action = .HEATING) ∧
    (¬ (s.action = .HEATING ∧ s.preDefrostLevel ≠ .IDLE) →
      (s.exitDefrost now).outputs = Relays.allOff ∧
      (s.exitDefrost now).heatLevel = .IDLE ∧
      (s.exitDefrost now).action = .IDLE ∧
      (s.exitDefrost now).lastActionChange = now) := by
  rw [exitDefrost_active now s hd]
  refine ⟨?_, ?_, ?_⟩
  · split_ifs <;> rfl
  · intro h
    rw [if_pos h]
    exact ⟨rfl, rfl, h.1⟩
  · intro h
    rw [if_neg h]
    exact ⟨rfl, rfl, rfl, rfl⟩

/-- C16. Stale temperature: a tick in a mode other than OFF that finds the temperature valid
but older than 300000 ms leaves it invalid; and a tick that runs with an invalid
temperature, in which no defrost entry or exit and no max-run shutdown applies, leaves the
action, the heat level, the cool level and all relays as they are. -/
theorem stale_temperature_safe (s : Thermostat) (now : Nat) (inp : Inputs) :
    (s.mode ≠ .OFF → s.tempValid = true → wsub now s.lastTempUpdate > 300000 →
      (s.update now inp).tempValid = false) ∧
    ((s.checkStale now).tempValid = false →
      ¬ (inp.defrostMode = true ∧ s.defrostActive = false ∧ s.action = .HEATING) →
      ¬ (inp.defrostMode = false ∧ s.defrostActive = true) →
      maxRunExceeded now s = false →
      (s.update now inp).action = s.action ∧ (s.update now inp).heatLevel = s.heatLevel ∧
      (s.update now inp).coolLevel = s.coolLevel ∧ (s.update now inp).outputs = s.outputs) := by
  constructor
  · intro hm hv hold
    have hf := (frame_afterDefrost now inp (handleDefrost now inp (s.checkStale now))).2.2.2.2.2.2.2.2.2.1
    simp only [update, hm, if_false]
    rw [hf]
    simp [checkStale, hv, hold]
  · intro hv henter hexit hmax
    unfold update
    split_ifs with hm
    · exact ⟨rfl, rfl, rfl, rfl⟩
    · have hh : handleDefrost now inp (s.checkStale now) = s.checkStale now :=
        handleDefrost_idle now inp _ (by simpa using henter) (by simpa using hexit)
      have hmax2 : maxRunExceeded now (s.checkStale now) = false := by
        simpa [maxRunExceeded] using hmax
      simp [hh, afterDefrost, hmax2, hv]

/-- C18. Heating start: in mode HEAT with a valid fresh temperature, not in Defrost, with
the action IDLE or FAN_RUNNING and the temperature below `heatSetpoint - heatDeadband`: if
`now - lastActionChange >= minOffTimeMs` the tick sets the action to HEATING and
`actionStartTime` and `lastEscalation` to the clock value, and applies HP_LOW when the
outdoor permission is confirmed-active and neither force flag is set, FURNACE_LOW otherwise;
if `now - lastActionChange < minOffTimeMs` the tick changes nothing. The comparison and
the difference are the binary32 ones of the code; the difference is the exact difference
of the two values whenever that is a binary32 value. -/
theorem heating_start (s : Thermostat) (now : Nat) (inp : Inputs)
    (hm : s.mode = .HEAT) (hv : s.tempValid = true)
    (hfresh : ¬ wsub now s.lastTempUpdate > 300000) (hd : s.defrostActive = false)
    (ha : s.action = .IDLE ∨ s.action = .FAN_RUNNING)
    (htemp : s.currentTemp < s.heatSetpoint - s.config.heatDeadband) :
    (s.config.minOffTimeMs ≤ wsub now s.lastActionChange →
      (s.update now inp).action = .HEATING ∧
      (s.update now inp).actionStartTime = now ∧
      (s.update now inp).lastEscalation = now ∧
      (inp.outTempOk = true ∧ s.forceFurnace = false ∧ s.forceNoHP = false →
        (s.update now inp).heatLevel = .HP_LOW ∧
        (s.update now inp).outputs = heatRow .HP_LOW) ∧
      (¬ (inp.outTempOk = true ∧ s.forceFurnace = false ∧ s.forceNoHP = false) →
        (s.update now inp).heatLevel = .FURNACE_LOW ∧
        (s.update now inp).outputs = heatRow .FURNACE_LOW)) ∧
    (wsub now s.lastActionChange < s.config.minOffTimeMs → s.update now inp = s) ∧
    (∀ a b : Int, s.heatSetpoint = .fin a → s.config.heatDeadband = .fin b →
      F32.representable (a - b) = true →
      s.heatSetpoint - s.config.heatDeadband = .fin (a - b)) := by
  have hnh : s.action ≠ .HEATING := by rcases ha with h | h <;> rw [h] <;> simp
  have hnc : s.action ≠ .COOLING := by rcases ha with h | h <;> rw [h] <;> simp
  have hu := update_runs_heating now inp s (Or.inl hm) (by simp [hnh]) (by simp [hd]) hv hfresh
    (by simp [maxRunExceeded, hnh, hnc])
  refine ⟨?_, ?_, fun a b h1 h2 h3 => by rw [h1, h2]; exact F32.sub_exact a b h3⟩
  all_goals rw [hu, updateHeating_idle now inp s ha]
  all_goals simp only [hd, Bool.false_eq_true, if_false, htemp, if_true]
  · intro hon
    have hc : canTurnOn now s = true := by simpa [canTurnOn] using hon
    simp only [hc, Bool.true_eq_false, if_false, startHeating_eq]
    refine ⟨trivial, trivial, trivial, ?_, ?_⟩
    · intro h; simp [h]
    · intro h; simp [h]
  · intro hoff
    have hc : canTurnOn now s = false := by simpa [canTurnOn] using hoff
    simp [hc]

/-- C19 (amended). Heating stop honours the minimum on-time: in mode HEAT or HEAT_COOL with
the action HEATING, not in Defrost and the defrost indicator not confirmed-active, a valid
fresh temperature at or above `heatSetpoint + heatOverrun` and the max-run limit not
exceeded: if `now - actionStartTime >= minOnTimeMs` the tick turns all relays off and sets
the action and the heat level to IDLE and `lastActionChange` to the clock value; if
`now - actionStartTime < minOnTimeMs` the tick changes nothing. -/
theorem heating_stop (s : Thermostat) (now : Nat) (inp : Inputs)
    (hm : s.mode = .HEAT ∨ s.mode = .HEAT_COOL) (ha : s.action = .HEATING)
    (hd : s.defrostActive = false) (hin : inp.defrostMode = false)
    (hv : s.tempValid = true) (hfresh : ¬ wsub now s.lastTempUpdate > 300000)
    (hmax : ¬ wsub now s.actionStartTime > s.config.maxRunTimeMs)
    (htemp : s.currentTemp ≥ s.heatSetpoint + s.config.heatOverrun) :
    (s.config.minOnTimeMs ≤ wsub now s.actionStartTime →
      (s.update now inp).outputs = Relays.allOff ∧ (s.update now inp).action = .IDLE ∧
      (s.update now inp).heatLevel = .IDLE ∧ (s.update now inp).lastActionChange = now) ∧
    (wsub now s.actionStartTime < s.config.minOnTimeMs → s.update now inp = s) := by
  have hu := update_runs_heating now inp s
    (hm.elim Or.inl (fun h => Or.inr ⟨h, ha⟩)) (by simp [hin]) (by simp [hd]) hv hfresh
    (by simp [maxRunExceeded, hmax])
  rw [hu, updateHeating_heating now inp s ha]
  simp only [hd, Bool.false_eq_true, if_false, htemp, if_true]
  constructor
  · intro hon
    have hc : canTurnOff now s = true := by simpa [canTurnOff] using hon
    simp [hc, stopHeating, allRelaysOff]
  · intro hoff
    have hc : canTurnOff now s = false := by simpa [canTurnOff] using hoff
    simp [hc]

/-- C20 (amended). Heating escalation ladder: in mode HEAT or HEAT_COOL with the action
HEATING, not in Defrost and the defrost indicator not confirmed-active, a valid fresh
temperature below `heatSetpoint + heatOverrun`, the max-run limit not exceeded, the outdoor
permission confirmed-active and `now - lastEscalation >= escalationDelayMs`, the tick moves
HP_LOW to HP_HIGH when `forceFurnace` is clear and to FURNACE_LOW when it is set, HP_HIGH to
FURNACE_LOW and FURNACE_LOW to FURNACE_HIGH, each time with the relay row of the new level
and `lastEscalation = now`; from FURNACE_HIGH it changes nothing. -/
theorem heating_escalation (s : Thermostat) (now : Nat) (inp : Inputs)
    (hm : s.mode = .HEAT ∨ s.mode = .HEAT_COOL) (ha : s.action = .HEATING)
    (hd : s.defrostActive = false) (hin : inp.defrostMode = false)
    (hv : s.tempValid = true) (hfresh : ¬ wsub now s.lastTempUpdate > 300000)
    (hmax : ¬ wsub now s.actionStartTime > s.config.maxRunTimeMs)
    (htemp : s.currentTemp < s.heatSetpoint + s.config.heatOverrun)
    (hout : inp.outTempOk = true)
    (hesc : s.config.escalationDelayMs ≤ wsub now s.lastEscalation) :
    (s.heatLevel = .HP_LOW → s.forceFurnace = false →
      (s.update now inp).heatLevel = .HP_HIGH ∧
      (s.update now inp).outputs = heatRow .HP_HIGH ∧
      (s.update now inp).lastEscalation = now) ∧
    (s.heatLevel = .HP_LOW → s.forceFurnace = true →
      (s.update now inp).heatLevel = .FURNACE_LOW ∧
      (s.update now inp).outputs = heatRow .FURNACE_LOW ∧
      (s.update now inp).lastEscalation = now) ∧
    (s.heatLevel = .HP_HIGH →
      (s.update now inp).heatLevel = .FURNACE_LOW ∧
      (s.update now inp).outputs = heatRow .FURNACE_LOW ∧
      (s.update now inp).lastEscalation = now) ∧
    (s.heatLevel = .FURNACE_LOW →
      (s.update now inp).heatLevel = .FURNACE_HIGH ∧
      (s.update now inp).outputs = heatRow .FURNACE_HIGH ∧
      (s.update now inp).lastEscalation = now) ∧
    (s.heatLevel = .FURNACE_HIGH → s.update now inp = s) := by
  have hu := update_runs_heating now inp s
    (hm.elim Or.inl (fun h => Or.inr ⟨h, ha⟩)) (by simp [hin]) (by simp [hd]) hv hfresh
    (by simp [maxRunExceeded, hmax])
  have hc : canEscalate now s = true := by simpa [canEscalate] using hesc
  have ht : ¬ s.currentTemp ≥ s.heatSetpoint + s.config.heatOverrun :=
    F32.not_ge_of_lt _ _ htemp
  rw [hu, updateHeating_heating now inp s ha]
  simp only [hd, Bool.false_eq_true, if_false, ht, hc, if_true]
  refine ⟨?_, ?_, ?_, ?_, ?_⟩
  · intro hl hf
    simp [escalateHeat, outTempSwitch, applyHeatLevel_eq, hl, hf, hout]
  · intro hl hf
    simp [escalateHeat, outTempSwitch, applyHeatLevel_eq, hl, hf, hout]
  · intro hl
    simp [escalateHeat, outTempSwitch, applyHeatLevel_eq, hl, hout]
  · intro hl
    simp [escalateHeat, outTempSwitch, applyHeatLevel_eq, hl, hout]
  · intro hl
    simp [escalateHeat, outTempSwitch, hl, hout]

end Thermostat

/-- C12, instance: the controller as started is in mode OFF and a tick changes nothing. -/
theorem off_mode_inert_witness :
    exStart.mode = .OFF ∧ exStart.update 5000 ⟨true, true⟩ = exStart :=
  ⟨by decide, Thermostat.off_mode_inert exStart 5000 ⟨true, true⟩ (by decide)⟩

/-- The proviso of the run-time ceiling on the defrost handling is needed. `exCoolingFan` is
COOLING since 362000 with the defrost flag still set and the fan-idle duty cycle enabled.
The tick at 2162001, beyond the max-run limit, reads the defrost indicator inactive: the
defrost exit ends the cycle, the max-run branch is skipped, and the fan-idle logic of the
same tick turns the fan on. -/
theorem runtime_ceiling_defrost_exit :
    exCoolingFan.action = .COOLING ∧ exCoolingFan.actionStartTime = 362000 ∧
    wsub 2162001 362000 > exCoolingFan.config.maxRunTimeMs ∧
    defrostExitForcesIdle ⟨true, false⟩ exCoolingFan = true ∧
    (exCoolingFan.update 2162001 ⟨true, false⟩).action = .FAN_RUNNING ∧
    (exCoolingFan.update 2162001 ⟨true, false⟩).outputs.fan1 = true := by
  decide

/-- C14, instance: `exHeating` is not in Defrost and holds HP_LOW; `enterDefrost` records
HP_LOW and leaves the action HEATING. -/
theorem enterDefrost_records_witness :
    exHeating.defrostActive = false ∧
    exHeating.enterDefrost.preDefrostLevel = .HP_LOW ∧
    exHeating.enterDefrost.heatLevel = .DEFROST ∧
    exHeating.enterDefrost.action = .HEATING :=
  ⟨by decide,
    ((Thermostat.enterDefrost_records exHeating).1 (by decide)).1.trans (by decide),
    ((Thermostat.enterDefrost_records exHeating).1 (by decide)).2.1,
    ((Thermostat.enterDefrost_records exHeating).1 (by decide)).2.2.2.2.trans (by decide)⟩

/-- C16, instance: the sample of `exHeatIdle` was fed at 0; the tick at 400000 marks it
invalid and decides nothing. -/
theorem stale_temperature_safe_witness :
    exHeatIdle.mode ≠ .OFF ∧ exHeatIdle.tempValid = true ∧
    wsub 400000 exHeatIdle.lastTempUpdate > 300000 ∧
    (exHeatIdle.update 400000 ⟨true, false⟩).tempValid = false ∧
    (exHeatIdle.update 400000 ⟨true, false⟩).action = exHeatIdle.action ∧
    (exHeatIdle.update 400000 ⟨true, false⟩).outputs = exHeatIdle.outputs :=
  ⟨by decide, by decide, by decide,
    (Thermostat.stale_temperature_safe exHeatIdle 400000 ⟨true, false⟩).1
      (by decide) (by decide) (by decide),
    ((Thermostat.stale_temperature_safe exHeatIdle 400000 ⟨true, false⟩).2
      (by decide) (by decide) (by decide) (by decide)).1,
    ((Thermostat.stale_temperature_safe exHeatIdle 400000 ⟨true, false⟩).2
      (by decide) (by decide) (by decide) (by decide)).2.2.2⟩

/-- C18, instance: scenario 1 of the specification. Mode HEAT, setpoint 68.0, deadband 0.5,
outdoor permission active, temperature 60.0, minimum off-time elapsed: the tick sets the
action to HEATING in stage HP_LOW. -/
theorem heating_start_witness :
    exHeatIdle.mode = .HEAT ∧ exHeatIdle.tempValid = true ∧
    ¬ (wsub 180000 exHeatIdle.lastTempUpdate > 300000) ∧
    exHeatIdle.defrostActive = false ∧
    (exHeatIdle.action = .IDLE ∨ exHeatIdle.action = .FAN_RUNNING) ∧
    exHeatIdle.currentTemp < exHeatIdle.heatSetpoint - exHeatIdle.config.heatDeadband ∧
    exHeatIdle.config.minOffTimeMs ≤ wsub 180000 exHeatIdle.lastActionChange ∧
    (exHeatIdle.update 180000 ⟨true, false⟩).action = .HEATING ∧
    (exHeatIdle.update 180000 ⟨true, false⟩).actionStartTime = 180000 ∧
    (exHeatIdle.update 180000 ⟨true, false⟩).heatLevel = .HP_LOW :=
  ⟨by decide, by decide, by decide, by decide, by decide, by decide, by decide,
    ((Thermostat.heating_start exHeatIdle 180000 ⟨true, false⟩ (by decide) (by decide)
      (by decide) (by decide) (by decide) (by decide)).1 (by decide)).1,
    ((Thermostat.heating_start exHeatIdle 180000 ⟨true, false⟩ (by decide) (by decide)
      (by decide) (by decide) (by decide) (by decide)).1 (by decide)).2.1,
    (((Thermostat.heating_start exHeatIdle 180000 ⟨true, false⟩ (by decide) (by decide)
      (by decide) (by decide) (by decide) (by decide)).1 (by decide)).2.2.2.1
        (by decide)).1⟩

/-- C19, counterexample. `exHeatingWarm` is HEATING since 180000, not in Defrost, with a
valid temperature of 70.0 fed at 600000, above the stop threshold of 68.5. At 650000 the
minimum on-time has elapsed and the max-run limit is not exceeded, but the tick reads the
defrost indicator active: it enters defrost instead of stopping, the action stays HEATING
and the Defrost relays are on. -/
theorem heating_stop_counterexample :
    exHeatingWarm.action = .HEATING ∧ exHeatingWarm.defrostActive = false ∧
    exHeatingWarm.tempValid = true ∧
    ¬ (wsub 650000 exHeatingWarm.lastTempUpdate > 300000) ∧
    ¬ (wsub 650000 exHeatingWarm.actionStartTime > exHeatingWarm.config.maxRunTimeMs) ∧
    exHeatingWarm.currentTemp ≥
      exHeatingWarm.heatSetpoint + exHeatingWarm.config.heatOverrun ∧
    exHeatingWarm.config.minOnTimeMs ≤ wsub 650000 exHeatingWarm.actionStartTime ∧
    (exHeatingWarm.update 650000 ⟨true, true⟩).action = .HEATING ∧
    (exHeatingWarm.update 650000 ⟨true, true⟩).heatLevel = .DEFROST ∧
    (exHeatingWarm.update 650000 ⟨true, true⟩).outputs =
      { fan1 := true, rev := false, furnCoolLow := true, furnCoolHigh := false,
        w1 := true, w2 := false, comp1 := true, comp2 := false } := by
  decide

/-- C19, instance of the amended claim: the same state and tick with the defrost indicator
inactive; the tick stops heating. -/
theorem heating_stop_witness :
    (exHeatingWarm.mode = .HEAT ∨ exHeatingWarm.mode = .HEAT_COOL) ∧
    exHeatingWarm.action = .HEATING ∧ exHeatingWarm.defrostActive = false ∧
    exHeatingWarm.tempValid = true ∧
    ¬ (wsub 650000 exHeatingWarm.lastTempUpdate > 300000) ∧
    ¬ (wsub 650000 exHeatingWarm.actionStartTime > exHeatingWarm.config.maxRunTimeMs) ∧
    exHeatingWarm.currentTemp ≥
      exHeatingWarm.heatSetpoint + exHeatingWarm.config.heatOverrun ∧
    exHeatingWarm.config.minOnTimeMs ≤ wsub 650000 exHeatingWarm.actionStartTime ∧
    ((exHeatingWarm.update 650000 ⟨true, false⟩).outputs = Relays.allOff ∧
      (exHeatingWarm.update 650000 ⟨true, false⟩).action = .IDLE ∧
      (exHeatingWarm.update 650000 ⟨true, false⟩).heatLevel = .IDLE ∧
      (exHeatingWarm.update 650000 ⟨true, false⟩).lastActionChange = 650000) :=
  ⟨by decide, by decide, by decide, by decide, by decide, by decide, by decide, by decide,
    (Thermostat.heating_stop exHeatingWarm 650000 ⟨true, false⟩ (by decide) (by decide)
      (by decide) rfl (by decide) (by decide) (by decide) (by decide)).1 (by decide)⟩

/-- C20, counterexample. `exHeating` is HEATING in HP_LOW since 180000, not in Defrost, with
a valid temperature of 60.0 fed at 600000. At 780000 the escalation delay has elapsed, the
outdoor permission is active and `forceFurnace` is clear, but the tick reads the defrost
indicator active: it enters defrost instead of escalating to HP_HIGH, and `lastEscalation`
stays at 180000. -/
theorem heating_escalation_counterexample :
    exHeating.action = .HEATING ∧ exHeating.defrostActive = false ∧
    exHeating.heatLevel = .HP_LOW ∧ exHeating.forceFurnace = false ∧
    exHeating.tempValid = true ∧
    ¬ (wsub 780000 exHeating.lastTempUpdate > 300000) ∧
    exHeating.currentTemp < exHeating.heatSetpoint + exHeating.config.heatOverrun ∧
    ¬ (wsub 780000 exHeating.actionStartTime > exHeating.config.maxRunTimeMs) ∧
    exHeating.config.escalationDelayMs ≤ wsub 780000 exHeating.lastEscalation ∧
    (exHeating.update 780000 ⟨true, true⟩).heatLevel = .DEFROST ∧
    (exHeating.update 780000 ⟨true, true⟩).lastEscalation = 180000 := by
  decide

/-- C20, instance of the amended claim: scenario 2 of the specification. The same state and
tick with the defrost indicator inactive; the tick escalates HP_LOW to HP_HIGH. -/
theorem heating_escalation_witness :
    (exHeating.mode = .HEAT ∨ exHeating.mode = .HEAT_COOL) ∧
    exHeating.action = .HEATING ∧ exHeating.defrostActive = false ∧
    exHeating.tempValid = true ∧
    ¬ (wsub 780000 exHeating.lastTempUpdate > 300000) ∧
    ¬ (wsub 780000 exHeating.actionStartTime > exHeating.config.maxRunTimeMs) ∧
    exHeating.currentTemp < exHeating.heatSetpoint + exHeating.config.heatOverrun ∧
    exHeating.config.escalationDelayMs ≤ wsub 780000 exHeating.lastEscalation ∧
    exHeating.heatLevel = .HP_LOW ∧ exHeating.forceFurnace = false ∧
    ((exHeating.update 780000 ⟨true, false⟩).heatLevel = .HP_HIGH ∧
      (exHeating.update 780000 ⟨true, false⟩).outputs = heatRow .HP_HIGH ∧
      (exHeating.update 780000 ⟨true, false⟩).lastEscalation = 780000) :=
  ⟨by decide, by decide, by decide, by decide, by decide, by decide, by decide, by decide,
    by decide, by decide,
    (Thermostat.heating_escalation exHeating 780000 ⟨true, false⟩ (by decide) (by decide)
      (by decide) rfl (by decide) (by decide) (by decide) (by decide) rfl (by decide)).1
      (by decide) (by decide)⟩

/-! ### Clock rollover -/

/-- The 32-bit difference recovers an elapsed duration below 2^32 from a clock that has
advanced by it, wrapped or not. -/
theorem wsub_rollover (r d : Nat) (hd : d < 4294967296) :
    wsub ((r + d) % 4294967296) r = d := by
  unfold wsub
  omega

/-- The 32-bit product is the product when that is below 2^32. -/
theorem wmul_of_lt (a b : Nat) (h : a * b < 4294967296) : wmul a b = a * b := by
  unfold wmul
  exact Nat.mod_eq_of_lt h

namespace Thermostat

/-- C29. Clock rollover safety of the timing guards: for every reference timestamp held by
the controller and every elapsed duration `d < 2^32`, at the clock value
`(reference + d) mod 2^32` the guards `canTurnOn`, `canTurnOff` and `canEscalate` return
exactly `d >= minOffTimeMs`, `d >= minOnTimeMs` and `d >= escalationDelayMs`, also when the
clock has wrapped between the reference and now. -/
theorem guards_rollover_safe (s : Thermostat) (d : Nat) (hd : d < 4294967296) :
    canTurnOn ((s.lastActionChange + d) % 4294967296) s
      = decide (s.config.minOffTimeMs ≤ d) ∧
    canTurnOff ((s.actionStartTime + d) % 4294967296) s
      = decide (s.config.minOnTimeMs ≤ d) ∧
    canEscalate ((s.lastEscalation + d) % 4294967296) s
      = decide (s.config.escalationDelayMs ≤ d) := by
  simp only [canTurnOn, canTurnOff, canEscalate, wsub_rollover _ _ hd, and_self]

/-! ### Fan-only mode and the fan-idle duty cycle -/

/-- C25. Fan-only: when the action is not FAN_RUNNING, `updateFanOnly` sets the action to
FAN_RUNNING, leaves the fan relay as the only relay that is on and sets `lastActionChange`
to the clock value; when the action is FAN_RUNNING it changes nothing. -/
theorem fan_only (s : Thermostat) (now : Nat) :
    (s.action ≠ .FAN_RUNNING →
      (s.updateFanOnly now).action = .FAN_RUNNING ∧
      (s.updateFanOnly now).outputs =
        { fan1 := true, rev := false, furnCoolLow := false, furnCoolHigh := false,
          w1 := false, w2 := false, comp1 := false, comp2 := false } ∧
      (s.updateFanOnly now).lastActionChange = now) ∧
    (s.action = .FAN_RUNNING → s.updateFanOnly now = s) := by
  constructor
  · intro h
    simp [updateFanOnly, h, allRelaysOff, Relays.allOff]
  · intro h
    simp [updateFanOnly, h]

/-- C26. Fan-idle duty cycle: `updateFanIdle` changes nothing when `fanIdleEnabled` is false
or the action is neither IDLE nor FAN_RUNNING. Otherwise, while not running, it turns the
fan relay on, sets the action to FAN_RUNNING, sets the running flag and sets
`fanIdleLastRun` to the clock value when `now - fanIdleLastRun > fanIdleWaitMin * 60000`,
and changes nothing when not; while running, it turns the fan relay off, sets the action to
IDLE, clears the running flag and sets `fanIdleLastRun` to the clock value when
`now - fanIdleLastRun > fanIdleRunMin * 60000`, and changes nothing when not. Difference
and products are the 32-bit unsigned ones of the code; each product is the product of the
integers whenever that is below 2^32. -/
theorem fan_idle_duty_cycle (s : Thermostat) (now : Nat) :
    (s.config.fanIdleEnabled = false ∨ (s.action ≠ .IDLE ∧ s.action ≠ .FAN_RUNNING) →
      s.updateFanIdle now = s) ∧
    (s.config.fanIdleEnabled = true → (s.action = .IDLE ∨ s.action = .FAN_RUNNING) →
      (s.fanIdleRunning = false →
        (wsub now s.fanIdleLastRun > wmul s.config.fanIdleWaitMin 60000 →
          (s.updateFanIdle now).outputs = { s.outputs with fan1 := true } ∧
          (s.updateFanIdle now).action = .FAN_RUNNING ∧
          (s.updateFanIdle now).fanIdleRunning = true ∧
          (s.updateFanIdle now).fanIdleLastRun = now) ∧
        (¬ wsub now s.fanIdleLastRun > wmul s.config.fanIdleWaitMin 60000 →
          s.updateFanIdle now = s)) ∧
      (s.fanIdleRunning = true →
        (wsub now s.fanIdleLastRun > wmul s.config.fanIdleRunMin 60000 →
          (s.updateFanIdle now).outputs = { s.outputs with fan1 := false } ∧
          (s.updateFanIdle now).action = .IDLE ∧
          (s.updateFanIdle now).fanIdleRunning = false ∧
          (s.updateFanIdle now).fanIdleLastRun = now) ∧
        (¬ wsub now s.fanIdleLastRun > wmul s.config.fanIdleRunMin 60000 →
          s.updateFanIdle now = s))) ∧
    (s.config.fanIdleWaitMin * 60000 < 4294967296 →
      wmul s.config.fanIdleWaitMin 60000 = s.config.fanIdleWaitMin * 60000) ∧
    (s.config.fanIdleRunMin * 60000 < 4294967296 →
      wmul s.config.fanIdleRunMin 60000 = s.config.fanIdleRunMin * 60000) := by
  refine ⟨?_, ?_, wmul_of_lt _ _, wmul_of_lt _ _⟩
  · rintro (h | h)
    · simp [updateFanIdle, h]
    · simp [updateFanIdle, h]
  · intro he ha
    have ha2 : ¬ (s.action ≠ .IDLE ∧ s.action ≠ .FAN_RUNNING) := by
      rcases ha with h | h <;> simp [h]
    refine ⟨?_, ?_⟩
    · intro hr
      constructor
      · intro hc
        simp [updateFanIdle, he, ha2, hr, hc]
      · intro hc
        simp [updateFanIdle, he, ha2, hr, hc]
    · intro hr
      constructor
      · intro hc
        simp [updateFanIdle, he, ha2, hr, hc]
      · intro hc
        simp [updateFanIdle, he, ha2, hr, hc]

/-! ### Single ticks of the cooling logic -/

/-- A tick in mode COOL, or in mode HEAT_COOL while COOLING, that neither enters nor leaves
defrost, with a valid fresh temperature and the max-run limit not exceeded, is the cooling
logic `updateCooling`. -/
theorem update_runs_cooling (now : Nat) (inp : Inputs) (s : Thermostat)
    (hm : s.mode = .COOL ∨ (s.mode = .HEAT_COOL ∧ s.action = .COOLING))
    (henter : ¬ (inp.defrostMode = true ∧ s.defrostActive = false ∧ s.action = .HEATING))
    (hexit : ¬ (inp.defrostMode = false ∧ s.defrostActive = true))
    (hv : s.tempValid = true) (hfresh : ¬ wsub now s.lastTempUpdate > 300000)
    (hmax : maxRunExceeded now s = false) :
    s.update now inp = s.updateCooling now := by
  have hoff : s.mode ≠ .OFF := by
    rcases hm with h | h
    · rw [h]; simp
    · rw [h.1]; simp
  simp only [update, hoff, if_false, checkStale_fresh now s hfresh,
    handleDefrost_idle now inp s henter hexit, afterDefrost, hmax, hv]
  simp only [Bool.false_eq_true, if_false, Bool.true_eq_false]
  rcases hm with h | h
  · exact dispatch_cool now inp s h
  · rw [dispatch_heatCool now inp s h.1]
    simp [h.2]

/-- C21 (amended). Outdoor-lockout bypass: in mode HEAT or HEAT_COOL with the action
HEATING, not in Defrost and the defrost indicator not confirmed-active, a valid fresh
temperature below `heatSetpoint + heatOverrun`, the max-run limit not exceeded, the heat
level HP_LOW or HP_HIGH, the outdoor permission confirmed-inactive and neither force flag
set, the tick ends with the heat level FURNACE_LOW, the FURNACE_LOW relay row and
`lastEscalation = now`, whatever `now - lastEscalation` is. The comparison and the sum of
temperatures are the binary32 ones of the code. -/
theorem lockout_bypass (s : Thermostat) (now : Nat) (inp : Inputs)
    (hm : s.mode = .HEAT ∨ s.mode = .HEAT_COOL) (ha : s.action = .HEATING)
    (hd : s.defrostActive = false) (hin : inp.defrostMode = false)
    (hv : s.tempValid = true) (hfresh : ¬ wsub now s.lastTempUpdate > 300000)
    (hmax : ¬ wsub now s.actionStartTime > s.config.maxRunTimeMs)
    (htemp : s.currentTemp < s.heatSetpoint + s.config.heatOverrun)
    (hl : s.heatLevel = .HP_LOW ∨ s.heatLevel = .HP_HIGH)
    (hout : inp.outTempOk = false)
    (hff : s.forceFurnace = false) (hfn : s.forceNoHP = false) :
    (s.update now inp).heatLevel = .FURNACE_LOW ∧
    (s.update now inp).outputs = heatRow .FURNACE_LOW ∧
    (s.update now inp).lastEscalation = now := by
  have hu := update_runs_heating now inp s
    (hm.elim Or.inl (fun h => Or.inr ⟨h, ha⟩)) (by simp [hin]) (by simp [hd]) hv hfresh
    (by simp [maxRunExceeded, hmax])
  have ht : ¬ s.currentTemp ≥ s.heatSetpoint + s.config.heatOverrun :=
    F32.not_ge_of_lt _ _ htemp
  rw [hu, updateHeating_heating now inp s ha]
  simp only [hd, Bool.false_eq_true, if_false, ht]
  cases hc : canEscalate now s
  · rcases hl with hl | hl <;>
      simp [outTempSwitch, applyHeatLevel_eq, hl, hout, hff, hfn]
  · rcases hl with hl | hl <;>
      simp [escalateHeat, outTempSwitch, applyHeatLevel_eq, hl, hout, hff, hfn]

/-- C22 (amended). Cooling thresholds and guards: in mode COOL with a valid fresh
temperature and the tick not leaving defrost (not: defrost flag set and indicator
confirmed-inactive). From the action IDLE or FAN_RUNNING the tick sets the action to COOLING
exactly when the temperature is above `coolSetpoint + coolDeadband` and
`now - lastActionChange >= minOffTimeMs`, and then the cool level is COOL with its relay row
and `actionStartTime = lastEscalation = now`. From the action COOLING with the max-run limit
not exceeded, the tick sets the action to IDLE exactly when the temperature is at or below
`coolSetpoint - coolOverrun` and `now - actionStartTime >= minOnTimeMs`, and then all relays
are off, the cool level is IDLE and `lastActionChange = now`; otherwise the action stays
COOLING. Comparisons, sum and difference of temperatures are the binary32 ones of the
code. -/
theorem cooling_thresholds (s : Thermostat) (now : Nat) (inp : Inputs)
    (hm : s.mode = .COOL) (hv : s.tempValid = true)
    (hfresh : ¬ wsub now s.lastTempUpdate > 300000)
    (hexit : ¬ (inp.defrostMode = false ∧ s.defrostActive = true)) :
    (s.action = .IDLE ∨ s.action = .FAN_RUNNING →
      ((s.update now inp).action = .COOLING ↔
        (s.currentTemp > s.coolSetpoint + s.config.coolDeadband ∧
          s.config.minOffTimeMs ≤ wsub now s.lastActionChange)) ∧
      ((s.update now inp).action = .COOLING →
        (s.update now inp).coolLevel = .COOL ∧
        (s.update now inp).outputs = coolRow .COOL ∧
        (s.update now inp).actionStartTime = now ∧
        (s.update now inp).lastEscalation = now)) ∧
    (s.action = .COOLING → ¬ wsub now s.actionStartTime > s.config.maxRunTimeMs →
      ((s.update now inp).action = .IDLE ↔
        (s.currentTemp ≤ s.coolSetpoint - s.config.coolOverrun ∧
          s.config.minOnTimeMs ≤ wsub now s.actionStartTime)) ∧
      ((s.update now inp).action = .IDLE →
        (s.update now inp).outputs = Relays.allOff ∧
        (s.update now inp).coolLevel = .IDLE ∧
        (s.update now inp).lastActionChange = now) ∧
      ((s.update now inp).action ≠ .IDLE → (s.update now inp).action = .COOLING)) := by
  constructor
  · intro ha
    have hnh : s.action ≠ .HEATING := by rcases ha with h | h <;> rw [h] <;> simp
    have hnc : s.action ≠ .COOLING := by rcases ha with h | h <;> rw [h] <;> simp
    have hu := update_runs_cooling now inp s (Or.inl hm) (by simp [hnh]) hexit hv hfresh
      (by simp [maxRunExceeded, hnh, hnc])
    rw [hu, updateCooling_idle now s ha]
    by_cases ht : s.currentTemp > s.coolSetpoint + s.config.coolDeadband
    · cases hc : canTurnOn now s
      · have hlt : ¬ s.config.minOffTimeMs ≤ wsub now s.lastActionChange := by
          simpa [canTurnOn] using hc
        simp [ht, hlt, hnc]
      · have hle : s.config.minOffTimeMs ≤ wsub now s.lastActionChange := by
          simpa [canTurnOn] using hc
        simp [ht, hle, startCooling, applyCoolLevel_eq]
    · have hf := (updateFanIdle_not_running now s hnh hnc).2
      simp [ht, hf]
  · intro ha hmax
    have hu := update_runs_cooling now inp s (Or.inl hm) (by simp [ha]) hexit hv hfresh
      (by simp [maxRunExceeded, hmax])
    rw [hu, updateCooling_cooling now s ha]
    by_cases ht : s.currentTemp ≤ s.coolSetpoint - s.config.coolOverrun
    · cases hc : canTurnOff now s
      · have hlt : ¬ s.config.minOnTimeMs ≤ wsub now s.actionStartTime := by
          simpa [canTurnOff] using hc
        simp [ht, hlt, ha]
      · have hle : s.config.minOnTimeMs ≤ wsub now s.actionStartTime := by
          simpa [canTurnOff] using hc
        simp [ht, hle, stopCooling, allRelaysOff]
    · simp only [ht, if_false, false_and, iff_false]
      split_ifs with h1
      · simp [escalateCool, applyCoolLevel_eq, ha]
      · simp [ha]

/-- C23 (amended). Cooling escalation: in mode COOL or HEAT_COOL with the action COOLING, a
valid fresh temperature above `coolSetpoint - coolOverrun`, the max-run limit not exceeded
and the tick not leaving defrost (not: defrost flag set and indicator confirmed-inactive),
the tick changes the cool level from COOL to COOL_SUPP, with the COOL_SUPP relay row and
`lastEscalation = now`, if and only if `now - lastEscalation >= escalationDelayMs`, and
changes nothing when the delay has not elapsed; from COOL_SUPP it changes nothing. The
comparison and the difference of temperatures are the binary32 ones of the code. -/
theorem cooling_escalation (s : Thermostat) (now : Nat) (inp : Inputs)
    (hm : s.mode = .COOL ∨ s.mode = .HEAT_COOL) (ha : s.action = .COOLING)
    (hv : s.tempValid = true) (hfresh : ¬ wsub now s.lastTempUpdate > 300000)
    (hmax : ¬ wsub now s.actionStartTime > s.config.maxRunTimeMs)
    (hexit : ¬ (inp.defrostMode = false ∧ s.defrostActive = true))
    (htemp : s.currentTemp > s.coolSetpoint - s.config.coolOverrun) :
    (s.coolLevel = .COOL →
      ((s.update now inp).coolLevel = .COOL_SUPP ↔
        s.config.escalationDelayMs ≤ wsub now s.lastEscalation) ∧
      (s.config.escalationDelayMs ≤ wsub now s.lastEscalation →
        (s.update now inp).outputs = coolRow .COOL_SUPP ∧
        (s.update now inp).lastEscalation = now ∧
        (s.update now inp).action = .COOLING) ∧
      (wsub now s.lastEscalation < s.config.escalationDelayMs → s.update now inp = s)) ∧
    (s.coolLevel = .COOL_SUPP → s.update now inp = s) := by
  have hu := update_runs_cooling now inp s
    (hm.elim Or.inl (fun h => Or.inr ⟨h, ha⟩)) (by simp [ha]) hexit hv hfresh
    (by simp [maxRunExceeded, hmax])
  have ht : ¬ s.currentTemp ≤ s.coolSetpoint - s.config.coolOverrun :=
    F32.not_le_of_gt _ _ htemp
  rw [hu, updateCooling_cooling now s ha]
  simp only [ht, if_false]
  constructor
  · intro hl
    cases hc : canEscalate now s
    · have hlt : ¬ s.config.escalationDelayMs ≤ wsub now s.lastEscalation := by
        simpa [canEscalate] using hc
      simp [hl, hlt]
    · have hle : s.config.escalationDelayMs ≤ wsub now s.lastEscalation := by
        simpa [canEscalate] using hc
      simp [hl, hle, escalateCool, applyCoolLevel_eq, ha, not_lt.mpr hle]
  · intro hl
    simp [hl]

/-! ### The dispatch of mode HEAT_COOL -/

theorem atSwitch_action (now : Nat) (inp : Inputs) (s : Thermostat)
    (h1 : s.action ≠ .HEATING) (h2 : s.action ≠ .COOLING) :
    (s.atSwitch now inp).action ≠ .HEATING ∧ (s.atSwitch now inp).action ≠ .COOLING := by
  unfold atSwitch
  rcases handleDefrost_action_cases now inp (s.checkStale now) with h | h
  · rw [h, checkStale_action]; exact ⟨h1, h2⟩
  · rw [h.1]; simp

/-- C24 (amended). HeatCool dispatch: in mode HEAT_COOL, a tick that reaches the mode switch
(after its staleness check and defrost handling the temperature is valid and the max-run
branch is not taken) is the heating logic when the action then is HEATING and the cooling
logic when it is COOLING; otherwise it is the heating logic if the temperature is below
`heatSetpoint - heatDeadband`, else the cooling logic if the temperature is above
`coolSetpoint + coolDeadband`, else only the fan-idle logic. And in mode HEAT_COOL with the
temperature inside both thresholds, no tick takes a controller that is neither HEATING nor
COOLING to HEATING or COOLING. Comparisons, sum and difference of temperatures are the
binary32 ones of the code. -/
theorem heatCool_dispatch (s : Thermostat) (now : Nat) (inp : Inputs)
    (hm : s.mode = .HEAT_COOL) :
    (maxRunExceeded now (s.atSwitch now inp) = false →
      (s.atSwitch now inp).tempValid = true →
      ((s.atSwitch now inp).action = .HEATING →
        s.update now inp = (s.atSwitch now inp).updateHeating now inp) ∧
      ((s.atSwitch now inp).action = .COOLING →
        s.update now inp = (s.atSwitch now inp).updateCooling now) ∧
      ((s.atSwitch now inp).action ≠ .HEATING → (s.atSwitch now inp).action ≠ .COOLING →
        (s.currentTemp < s.heatSetpoint - s.config.heatDeadband →
          s.update now inp = (s.atSwitch now inp).updateHeating now inp) ∧
        (¬ s.currentTemp < s.heatSetpoint - s.config.heatDeadband →
          s.currentTemp > s.coolSetpoint + s.config.coolDeadband →
          s.update now inp = (s.atSwitch now inp).updateCooling now) ∧
        (¬ s.currentTemp < s.heatSetpoint - s.config.heatDeadband →
          ¬ s.currentTemp > s.coolSetpoint + s.config.coolDeadband →
          s.update now inp = (s.atSwitch now inp).updateFanIdle now))) ∧
    (s.action ≠ .HEATING → s.action ≠ .COOLING →
      ¬ s.currentTemp < s.heatSetpoint - s.config.heatDeadband →
      ¬ s.currentTemp > s.coolSetpoint + s.config.coolDeadband →
      (s.update now inp).action ≠ .HEATING ∧ (s.update now inp).action ≠ .COOLING) := by
  have hoff : s.mode ≠ .OFF := by rw [hm]; simp
  have hxm : (s.atSwitch now inp).mode = .HEAT_COOL := by simp [atSwitch, hm]
  have hxt : (s.atSwitch now inp).currentTemp = s.currentTemp := by simp [atSwitch]
  have hxh : (s.atSwitch now inp).heatSetpoint = s.heatSetpoint := by simp [atSwitch]
  have hxc : (s.atSwitch now inp).coolSetpoint = s.coolSetpoint := by simp [atSwitch]
  have hxg : (s.atSwitch now inp).config = s.config := by simp [atSwitch]
  have hup : s.update now inp = (s.atSwitch now inp).afterDefrost now inp := by
    simp [update, hoff, atSwitch]
  have hd := dispatch_heatCool now inp (s.atSwitch now inp) hxm
  rw [hxt, hxh, hxc, hxg] at hd
  constructor
  · intro hmax hv
    have hreach : s.update now inp = (s.atSwitch now inp).dispatch now inp := by
      rw [hup]
      simp [afterDefrost, hmax, hv]
    rw [hreach, hd]
    refine ⟨?_, ?_, ?_⟩
    · intro h; simp [h]
    · intro h; simp [h]
    · intro h1 h2
      refine ⟨?_, ?_, ?_⟩
      · intro h3; simp [h1, h2, h3]
      · intro h3 h4; simp [h1, h2, h3, h4]
      · intro h3 h4; simp [h1, h2, h3, h4]
  · intro h1 h2 h3 h4
    have hx := atSwitch_action now inp s h1 h2
    rw [hup]
    unfold afterDefrost
    split_ifs with h5 h6
    · simp [maxRunExceeded, hx.1, hx.2] at h5
    · exact hx
    · rw [hd]
      simp only [hx.1, hx.2, h3, h4, if_false]
      exact updateFanIdle_not_running now _ hx.1 hx.2

/-! ### The reported stage agrees with the action -/

theorem agree_updateFanIdle (now : Nat) (s : Thermostat) (h : StageAgrees s) :
    StageAgrees (s.updateFanIdle now) := by
  unfold updateFanIdle
  split_ifs <;> first | exact h | simp [StageAgrees]

theorem agree_escalateHeat (now : Nat) (s : Thermostat) (ha : s.action = .HEATING)
    (h : StageAgrees s) : StageAgrees (s.escalateHeat now) := by
  unfold escalateHeat
  split_ifs <;> first | exact h | simp [StageAgrees, applyHeatLevel_eq, ha]

theorem agree_outTempSwitch (now : Nat) (inp : Inputs) (s : Thermostat)
    (ha : s.action = .HEATING) (h : StageAgrees s) : StageAgrees (s.outTempSwitch now inp) := by
  unfold outTempSwitch
  split_ifs <;> first | exact h | simp [StageAgrees, applyHeatLevel_eq, ha]

theorem agree_updateHeating (now : Nat) (inp : Inputs) (s : Thermostat) (h : StageAgrees s) :
    StageAgrees (s.updateHeating now inp) := by
  unfold updateHeating
  split_ifs with h1 h2 h3 h4 h5 h6 h7 h8
  · exact h
  · exact h
  · simp only [startHeating]
    split_ifs <;> simp [StageAgrees, applyHeatLevel_eq]
  · exact agree_updateFanIdle now s h
  · exact h
  · simp [stopHeating, StageAgrees, allRelaysOff]
  · exact agree_outTempSwitch now inp _ (by simp [escalateHeat_action, h5])
      (agree_escalateHeat now s h5 h)
  · exact agree_outTempSwitch now inp _ h5 h
  · exact h

theorem agree_updateCooling (now : Nat) (s : Thermostat) (h : StageAgrees s) :
    StageAgrees (s.updateCooling now) := by
  unfold updateCooling
  split_ifs with h1 h2 h3 h4 h5 h6 h7
  · exact h
  · simp [startCooling, StageAgrees, applyCoolLevel_eq]
  · exact agree_updateFanIdle now s h
  · exact h
  · simp [stopCooling, StageAgrees, allRelaysOff]
  · simp [escalateCool, StageAgrees, applyCoolLevel_eq, h4]
  · exact h
  · exact h

theorem agree_updateFanOnly (now : Nat) (s : Thermostat) (h : StageAgrees s) :
    StageAgrees (s.updateFanOnly now) := by
  unfold updateFanOnly
  split_ifs
  · simp [StageAgrees, allRelaysOff]
  · exact h

theorem agree_handleDefrost (now : Nat) (inp : Inputs) (s : Thermostat) (h : StageAgrees s) :
    StageAgrees (s.handleDefrost now inp) := by
  unfold handleDefrost
  split_ifs with h1 h2 h3
  · simp [enterDefrost_inactive _ h2.1, StageAgrees, h2.2]
  · exact h
  · rw [exitDefrost_active now s h3]
    split_ifs with h4
    · simp [StageAgrees, h4.1, h4.2]
    · simp [StageAgrees]
  · exact h

theorem agree_dispatch (now : Nat) (inp : Inputs) (s : Thermostat) (h : StageAgrees s) :
    StageAgrees (s.dispatch now inp) := by
  unfold dispatch
  split
  · exact agree_updateHeating now inp s h
  · exact agree_updateCooling now s h
  · split_ifs
    · exact agree_updateHeating now inp s h
    · exact agree_updateCooling now s h
    · exact agree_updateHeating now inp s h
    · exact agree_updateCooling now s h
    · exact agree_updateFanIdle now s h
  · exact agree_updateFanOnly now s h
  · exact h

theorem agree_update (now : Nat) (inp : Inputs) (s : Thermostat) (h : StageAgrees s) :
    StageAgrees (s.update now inp) := by
  have h1 : StageAgrees (s.checkStale now) := by
    unfold checkStale; split_ifs
    · exact h
    · exact h
  have h2 := agree_handleDefrost now inp _ h1
  unfold update afterDefrost
  split_ifs
  · exact h
  · simp [StageAgrees, maxRunShutdown, allRelaysOff]
  · exact h2
  · exact agree_dispatch now inp _ h2

theorem agree_setMode (now : Nat) (m : ThermostatMode) (s : Thermostat) (h : StageAgrees s) :
    StageAgrees (s.setMode now m) := by
  unfold setMode
  split_ifs
  · exact h
  · simp [StageAgrees, allRelaysOff]
  · simp [StageAgrees]

/-- The defrost handling records a level other than IDLE when it enters defrost from a state
whose stage agrees with the action. -/
theorem recorded_handleDefrost (now : Nat) (inp : Inputs) (s : Thermostat)
    (ha : StageAgrees s) (h : DefrostRecorded s) :
    DefrostRecorded (s.handleDefrost now inp) := by
  unfold handleDefrost
  split_ifs with h1 h2 h3
  · intro _
    simpa [enterDefrost_inactive _ h2.1] using ha.1 h2.2
  · exact h
  · intro hx
    rw [exitDefrost_active now s h3] at hx
    split_ifs at hx
  · exact h

theorem recorded_update (now : Nat) (inp : Inputs) (s : Thermostat)
    (ha : StageAgrees s) (h : DefrostRecorded s) : DefrostRecorded (s.update now inp) := by
  unfold update
  split_ifs
  · exact h
  · have h1 : StageAgrees (s.checkStale now) := by
      unfold checkStale; split_ifs
      · exact ha
      · exact ha
    have h2 : DefrostRecorded (s.checkStale now) := by
      simpa [DefrostRecorded] using h
    have h3 := recorded_handleDefrost now inp _ h1 h2
    have hf := frame_afterDefrost now inp (handleDefrost now inp (s.checkStale now))
    intro hx
    rw [hf.2.2.2.1]
    exact h3 (by rw [← hf.2.2.1]; exact hx)

theorem recorded_setMode (now : Nat) (m : ThermostatMode) (s : Thermostat)
    (h : DefrostRecorded s) : DefrostRecorded (s.setMode now m) := by
  unfold setMode
  split_ifs
  · exact h
  · simp [DefrostRecorded, allRelaysOff]
  · exact h

end Thermostat

theorem agree_apply (op : Op) (s : Thermostat) (h : StageAgrees s) :
    StageAgrees (op.apply s) := by
  cases op with
  | update now inp => exact Thermostat.agree_update now inp s h
  | setMode now m => exact Thermostat.agree_setMode now m s h
  | _ => exact h

theorem agree_run (ops : List Op) :
    ∀ s : Thermostat, StageAgrees s → StageAgrees (run ops s) := by
  induction ops with
  | nil => intro s h; exact h
  | cons op ops ih => intro s h; exact ih _ (agree_apply op s h)

theorem recorded_apply (op : Op) (s : Thermostat) (ha : StageAgrees s)
    (h : DefrostRecorded s) : DefrostRecorded (op.apply s) := by
  cases op with
  | update now inp => exact Thermostat.recorded_update now inp s ha h
  | setMode now m => exact Thermostat.recorded_setMode now m s h
  | _ => exact h

theorem recorded_run (ops : List Op) :
    ∀ s : Thermostat, StageAgrees s → DefrostRecorded s → DefrostRecorded (run ops s) := by
  induction ops with
  | nil => intro s _ h; exact h
  | cons op ops ih => intro s ha h; exact ih _ (agree_apply op s ha) (recorded_apply op s ha h)

/-- C15. Defrost exit: in every state in Defrost reached from the constructed controller
(after `begin()`) by any sequence of ticks, mode changes, temperature updates, setpoint and
force-flag setters and configuration changes, `exitDefrost` clears the defrost flag and, if
the action is HEATING, sets the heat level to the pre-defrost level with exactly that
level's relay row on and keeps the action HEATING; if the action is not HEATING, it turns
all relays off and sets the heat level and the action to IDLE. -/
theorem exitDefrost_reachable (r : Relays) (now0 : Nat) (ops : List Op) (now : Nat)
    (hd : (run ops ((Thermostat.initial r).begin now0)).defrostActive = true) :
    ((run ops ((Thermostat.initial r).begin now0)).exitDefrost now).defrostActive = false ∧
    ((run ops ((Thermostat.initial r).begin now0)).action = .HEATING →
      ((run ops ((Thermostat.initial r).begin now0)).exitDefrost now).heatLevel =
        (run ops ((Thermostat.initial r).begin now0)).preDefrostLevel ∧
      ((run ops ((Thermostat.initial r).begin now0)).exitDefrost now).outputs =
        heatRow (run ops ((Thermostat.initial r).begin now0)).preDefrostLevel ∧
      ((run ops ((Thermostat.initial r).begin now0)).exitDefrost now).action = .HEATING) ∧
    ((run ops ((Thermostat.initial r).begin now0)).action ≠ .HEATING →
      ((run ops ((Thermostat.initial r).begin now0)).exitDefrost now).outputs
        = Relays.allOff ∧
      ((run ops ((Thermostat.initial r).begin now0)).exitDefrost now).heatLevel = .IDLE ∧
      ((run ops ((Thermostat.initial r).begin now0)).exitDefrost now).action = .IDLE) := by
  have hrec : DefrostRecorded (run ops ((Thermostat.initial r).begin now0)) :=
    recorded_run ops _ (by simp [StageAgrees, Thermostat.initial, Thermostat.begin])
      (by simp [DefrostRecorded, Thermostat.initial, Thermostat.begin])
  have hx := Thermostat.exitDefrost_effect _ now hd
  refine ⟨hx.1, fun ha => hx.2.1 ⟨ha, hrec hd⟩, fun ha => ?_⟩
  have := hx.2.2 (fun h => ha h.1)
  exact ⟨this.1, this.2.1, this.2.2.1⟩

/-- C30. The reported stage agrees with the action: in every state reached from the
constructed controller (after `begin()`) by any sequence of ticks, mode changes, temperature
updates, setpoint and force-flag setters and configuration changes, the action HEATING
implies a heat level other than IDLE and the action COOLING implies a cool level other than
IDLE. -/
theorem stage_agrees_reachable (r : Relays) (now0 : Nat) (ops : List Op) :
    ((run ops ((Thermostat.initial r).begin now0)).action = .HEATING →
      (run ops ((Thermostat.initial r).begin now0)).heatLevel ≠ .IDLE) ∧
    ((run ops ((Thermostat.initial r).begin now0)).action = .COOLING →
      (run ops ((Thermostat.initial r).begin now0)).coolLevel ≠ .IDLE) := by
  apply agree_run
  simp [StageAgrees, Thermostat.initial, Thermostat.begin]

namespace InputPin

/-! ### The poll step -/

/-- C27 (amended). The poll step waits a fixed 50 ms, not the verify delay: for an input
with a queued edge recorded at `changedAtTick`, the poll at clock value `now` arms the
verification task (clearing the queue entry, the task counting its delay from `now`) as
soon as `now >= changedAtTick + 50` in 32-bit arithmetic, or at once when the level recorded
at the edge differs from the level stored at initialisation; otherwise the poll changes
nothing, the edge stays queued. The verify delay of the input plays no part in the
decision. -/
theorem poll_arms_after_fixed_wait (p : InputPin) (now raw : Nat) (hq : p.queued = true) :
    ((now ≥ (p.changedAtTick + 50) % 4294967296 ∨ p.preValue ≠ p.value) →
      (p.onCheckInputQueue now raw).taskEnabled = true ∧
      (p.onCheckInputQueue now raw).taskStart = now ∧
      (p.onCheckInputQueue now raw).queued = false) ∧
    (¬ (now ≥ (p.changedAtTick + 50) % 4294967296 ∨ p.preValue ≠ p.value) →
      p.onCheckInputQueue now raw = p) := by
  constructor
  · intro h
    have hc : CheckTickTime now p = true := by
      simpa [CheckTickTime] using h
    simp [onCheckInputQueue, hq, hc]
  · intro h
    have hc : CheckTickTime now p = false := by
      simpa [CheckTickTime] using h
    simp [onCheckInputQueue, hq, hc]

/-- C28 (amended). The expected level is fixed at poll time: for every sequence edge, poll,
verify on one input in which the poll arms the verification, the expected level after the
poll is the level the poll reads (1 when high, 0 when low), whatever level the edge
recorded; the verify step sets the confirmed value to its live read when that agrees with
the level read by the poll, and leaves the confirmed value untouched when it does not. -/
theorem expected_level_from_poll (p : InputPin) (t1 r1 t2 r2 t3 r3 : Nat)
    (harm : CheckTickTime t2 (p.inputISRChange t1 r1) = true) :
    ((p.inputISRChange t1 r1).onCheckInputQueue t2 r2).pendingState
      = (if r2 > 0 then 1 else 0) ∧
    ((r3 > 0 ↔ r2 > 0) →
      (runInput [.onEdge t1 r1, .poll t2 r2, .verify t3 r3] p).confirmedActive
        = decide (r3 > 0)) ∧
    (¬ (r3 > 0 ↔ r2 > 0) →
      (runInput [.onEdge t1 r1, .poll t2 r2, .verify t3 r3] p).confirmedActive
        = p.confirmedActive) := by
  have hq : (p.inputISRChange t1 r1).queued = true := rfl
  have hp : ∀ q : InputPin, q.queued = true → CheckTickTime t2 q = true →
      q.onCheckInputQueue t2 r2 =
        { q with pendingState := if r2 > 0 then 1 else 0, taskEnabled := true,
                 taskStart := t2, queued := false } := by
    intro q h1 h2
    simp [onCheckInputQueue, h1, h2]
  have hp2 := hp _ hq harm
  refine ⟨by rw [hp2], ?_, ?_⟩
  · intro h
    simp only [runInput, InStep.apply, hp2, taskRun, Callback]
    by_cases h2 : r2 > 0
    · have h3 : r3 > 0 := h.mpr h2
      simp [h2, h3]
      split_ifs <;> rfl
    · have h3 : ¬ r3 > 0 := fun x => h2 (h.mp x)
      simp [h2, h3]
      split_ifs <;> rfl
  · intro h
    simp only [runInput, InStep.apply, hp2, taskRun, Callback]
    by_cases h2 : r2 > 0
    · have h3 : ¬ r3 > 0 := fun x => h ⟨fun _ => h2, fun _ => x⟩
      simp [h2, h3, inputISRChange]
    · have h3 : r3 > 0 := by
        by_contra x
        exact h ⟨fun y => absurd y x, fun y => absurd y h2⟩
      simp [h2, h3, inputISRChange]

end InputPin

/-! ### Concrete executions for the cooling, dispatch, fan, input and rollover claims -/

/-- Rounding at the thresholds. The literals `68.3f`, `0.2f` and `68.1f` are the binary32
values nearest to the decimals, and `68.3f - 0.2f` rounds to a value above `68.1f`, so the
test `68.1f < 68.3f - 0.2f` holds; in the same way `68.6f >= 68.3f + 0.3f` fails,
`70.3f > 70.1f + 0.2f` holds and `60.0f < 60.2f - 0.2f` fails. With the default setpoint and
deadband the difference `68.0f - 0.5f` is exactly `67.5f`. -/
theorem F32.rounded_thresholds :
    F32.ofTenths 681 < F32.ofTenths 683 - F32.ofTenths 2 ∧
    ¬ (F32.ofTenths 686 ≥ F32.ofTenths 683 + F32.ofTenths 3) ∧
    F32.ofTenths 703 > F32.ofTenths 701 + F32.ofTenths 2 ∧
    ¬ (F32.ofTenths 600 < F32.ofTenths 602 - F32.ofTenths 2) ∧
    F32.ofTenths 680 - F32.ofTenths 5 = F32.ofTenths 675 := by
  decide

/-- Ticks at rounded thresholds. With the setpoint `68.3f`, the deadband `0.2f` and the
temperature `68.1f` the tick starts heating, in mode HEAT and in mode HEAT_COOL; with the
cool setpoint `70.1f`, the deadband `0.2f` and the temperature `70.3f` the tick starts
cooling; and with the setpoint `68.3f`, the overrun `0.3f` and the temperature `68.6f`,
where the sum rounds to a value above `68.6f`, the tick past the minimum on-time does not
stop heating. -/
theorem rounded_threshold_ticks :
    exHeatEdge.currentTemp < exHeatEdge.heatSetpoint - exHeatEdge.config.heatDeadband ∧
    (exHeatEdge.update 180000 ⟨true, false⟩).action = .HEATING ∧
    (exAutoEdge.update 180000 ⟨true, false⟩).action = .HEATING ∧
    exCoolEdge.currentTemp > exCoolEdge.coolSetpoint + exCoolEdge.config.coolDeadband ∧
    (exCoolEdge.update 180000 ⟨true, false⟩).action = .COOLING ∧
    exStopEdge.action = .HEATING ∧
    exStopEdge.config.minOnTimeMs ≤ wsub 650000 exStopEdge.actionStartTime ∧
    ¬ (exStopEdge.currentTemp ≥ exStopEdge.heatSetpoint + exStopEdge.config.heatOverrun) ∧
    (exStopEdge.update 650000 ⟨true, false⟩).action = .HEATING := by
  decide

/-- C15, instance: heating from 180000 in HP_LOW, defrost entered by the tick at 700000;
`exitDefrost` at 750000 clears the flag, restores HP_LOW with its relay row and keeps the
action HEATING. -/
theorem exitDefrost_reachable_witness :
    (run [.setMode 0 .HEAT, .setCurrentTemperature 0 (F32.ofTenths 600),
        .update 180000 ⟨true, false⟩, .setCurrentTemperature 600000 (F32.ofTenths 600),
        .update 700000 ⟨true, true⟩]
      ((Thermostat.initial Relays.allOff).begin 0)).defrostActive = true ∧
    (run [.setMode 0 .HEAT, .setCurrentTemperature 0 (F32.ofTenths 600),
        .update 180000 ⟨true, false⟩, .setCurrentTemperature 600000 (F32.ofTenths 600),
        .update 700000 ⟨true, true⟩]
      ((Thermostat.initial Relays.allOff).begin 0)).action = .HEATING ∧
    (run [.setMode 0 .HEAT, .setCurrentTemperature 0 (F32.ofTenths 600),
        .update 180000 ⟨true, false⟩, .setCurrentTemperature 600000 (F32.ofTenths 600),
        .update 700000 ⟨true, true⟩]
      ((Thermostat.initial Relays.allOff).begin 0)).preDefrostLevel = .HP_LOW ∧
    ((run [.setMode 0 .HEAT, .setCurrentTemperature 0 (F32.ofTenths 600),
        .update 180000 ⟨true, false⟩, .setCurrentTemperature 600000 (F32.ofTenths 600),
        .update 700000 ⟨true, true⟩]
      ((Thermostat.initial Relays.allOff).begin 0)).exitDefrost 750000).defrostActive
        = false ∧
    ((run [.setMode 0 .HEAT, .setCurrentTemperature 0 (F32.ofTenths 600),
        .update 180000 ⟨true, false⟩, .setCurrentTemperature 600000 (F32.ofTenths 600),
        .update 700000 ⟨true, true⟩]
      ((Thermostat.initial Relays.allOff).begin 0)).exitDefrost 750000).heatLevel
        = .HP_LOW ∧
    ((run [.setMode 0 .HEAT, .setCurrentTemperature 0 (F32.ofTenths 600),
        .update 180000 ⟨true, false⟩, .setCurrentTemperature 600000 (F32.ofTenths 600),
        .update 700000 ⟨true, true⟩]
      ((Thermostat.initial Relays.allOff).begin 0)).exitDefrost 750000).action
        = .HEATING :=
  ⟨by decide, by decide, by decide,
    (exitDefrost_reachable Relays.allOff 0
      [.setMode 0 .HEAT, .setCurrentTemperature 0 (F32.ofTenths 600),
        .update 180000 ⟨true, false⟩, .setCurrentTemperature 600000 (F32.ofTenths 600),
        .update 700000 ⟨true, true⟩] 750000 (by decide)).1,
    ((exitDefrost_reachable Relays.allOff 0
      [.setMode 0 .HEAT, .setCurrentTemperature 0 (F32.ofTenths 600),
        .update 180000 ⟨true, false⟩, .setCurrentTemperature 600000 (F32.ofTenths 600),
        .update 700000 ⟨true, true⟩] 750000 (by decide)).2.1 (by decide)).1.trans
      (by decide),
    ((exitDefrost_reachable Relays.allOff 0
      [.setMode 0 .HEAT, .setCurrentTemperature 0 (F32.ofTenths 600),
        .update 180000 ⟨true, false⟩, .setCurrentTemperature 600000 (F32.ofTenths 600),
        .update 700000 ⟨true, true⟩] 750000 (by decide)).2.1 (by decide)).2.2⟩

/-- C21, counterexample. `exHeating` is HEATING in HP_LOW since 180000, not in Defrost, with
a valid temperature of 60.0 fed at 600000, below the stop threshold of 68.5, and no force
flag. At 650000 the max-run limit is not exceeded and the outdoor permission is
confirmed-inactive, but the tick reads the defrost indicator active: it enters defrost
instead of switching to the furnace, and `lastEscalation` stays at 180000. -/
theorem lockout_bypass_counterexample :
    exHeating.action = .HEATING ∧ exHeating.defrostActive = false ∧
    exHeating.heatLevel = .HP_LOW ∧
    exHeating.forceFurnace = false ∧ exHeating.forceNoHP = false ∧
    exHeating.tempValid = true ∧
    ¬ (wsub 650000 exHeating.lastTempUpdate > 300000) ∧
    exHeating.currentTemp < exHeating.heatSetpoint + exHeating.config.heatOverrun ∧
    ¬ (wsub 650000 exHeating.actionStartTime > exHeating.config.maxRunTimeMs) ∧
    (exHeating.update 650000 ⟨false, true⟩).heatLevel = .DEFROST ∧
    (exHeating.update 650000 ⟨false, true⟩).lastEscalation = 180000 ∧
    (exHeating.update 650000 ⟨false, true⟩).outputs =
      { fan1 := true, rev := false, furnCoolLow := true, furnCoolHigh := false,
        w1 := true, w2 := false, comp1 := true, comp2 := false } := by
  decide

/-- C21, instance of the amended claim: the same state and tick with the defrost indicator
inactive. Only 470000 ms have passed since the last escalation, less than the escalation
delay of 600000, and the tick switches to FURNACE_LOW. -/
theorem lockout_bypass_witness :
    (exHeating.mode = .HEAT ∨ exHeating.mode = .HEAT_COOL) ∧
    exHeating.action = .HEATING ∧ exHeating.defrostActive = false ∧
    exHeating.tempValid = true ∧
    ¬ (wsub 650000 exHeating.lastTempUpdate > 300000) ∧
    ¬ (wsub 650000 exHeating.actionStartTime > exHeating.config.maxRunTimeMs) ∧
    exHeating.currentTemp < exHeating.heatSetpoint + exHeating.config.heatOverrun ∧
    (exHeating.heatLevel = .HP_LOW ∨ exHeating.heatLevel = .HP_HIGH) ∧
    exHeating.forceFurnace = false ∧ exHeating.forceNoHP = false ∧
    wsub 650000 exHeating.lastEscalation < exHeating.config.escalationDelayMs ∧
    ((exHeating.update 650000 ⟨false, false⟩).heatLevel = .FURNACE_LOW ∧
      (exHeating.update 650000 ⟨false, false⟩).outputs = heatRow .FURNACE_LOW ∧
      (exHeating.update 650000 ⟨false, false⟩).lastEscalation = 650000) :=
  ⟨by decide, by decide, by decide, by decide, by decide, by decide, by decide, by decide,
    by decide, by decide, by decide,
    Thermostat.lockout_bypass exHeating 650000 ⟨false, false⟩ (by decide) (by decide)
      (by decide) rfl (by decide) (by decide) (by decide) (by decide) (by decide) rfl
      (by decide) (by decide)⟩

/-- C22, counterexample. `exCoolIdle` is idle in mode COOL with a valid temperature of 90.0
fed at 182000, above the start threshold of 76.5, and `lastActionChange = 182000`; its
defrost flag is still set from the heating cycle the mode change interrupted. At 362000 the
minimum off-time of 180000 has elapsed, but the tick reads the defrost indicator inactive:
the defrost exit sets `lastActionChange` to 362000 and cooling does not start. -/
theorem cooling_thresholds_counterexample :
    exCoolIdle.mode = .COOL ∧ exCoolIdle.action = .IDLE ∧
    exCoolIdle.tempValid = true ∧
    ¬ (wsub 362000 exCoolIdle.lastTempUpdate > 300000) ∧
    ¬ (wsub 362000 exCoolIdle.actionStartTime > exCoolIdle.config.maxRunTimeMs) ∧
    exCoolIdle.currentTemp > exCoolIdle.coolSetpoint + exCoolIdle.config.coolDeadband ∧
    exCoolIdle.config.minOffTimeMs ≤ wsub 362000 exCoolIdle.lastActionChange ∧
    exCoolIdle.defrostActive = true ∧
    (exCoolIdle.update 362000 ⟨true, false⟩).action = .IDLE ∧
    (exCoolIdle.update 362000 ⟨true, false⟩).coolLevel = .IDLE ∧
    (exCoolIdle.update 362000 ⟨true, false⟩).outputs = Relays.allOff ∧
    (exCoolIdle.update 362000 ⟨true, false⟩).lastActionChange = 362000 := by
  decide

/-- C22, instance of the amended claim: `exCoolStart` is idle in mode COOL at 90.0 with the
defrost flag clear; the tick at 180000 starts cooling in stage COOL. `exCoolRun` is cooling
since 180000 at 90.0; the tick at 780000, within the max-run limit, does not stop. -/
theorem cooling_thresholds_witness :
    exCoolStart.mode = .COOL ∧ exCoolStart.tempValid = true ∧
    ¬ (wsub 180000 exCoolStart.lastTempUpdate > 300000) ∧
    ¬ ((⟨true, false⟩ : Inputs).defrostMode = false ∧ exCoolStart.defrostActive = true) ∧
    (exCoolStart.action = .IDLE ∨ exCoolStart.action = .FAN_RUNNING) ∧
    (exCoolStart.currentTemp > exCoolStart.coolSetpoint + exCoolStart.config.coolDeadband ∧
      exCoolStart.config.minOffTimeMs ≤ wsub 180000 exCoolStart.lastActionChange) ∧
    (exCoolStart.update 180000 ⟨true, false⟩).action = .COOLING ∧
    ((exCoolStart.update 180000 ⟨true, false⟩).coolLevel = .COOL ∧
      (exCoolStart.update 180000 ⟨true, false⟩).outputs = coolRow .COOL ∧
      (exCoolStart.update 180000 ⟨true, false⟩).actionStartTime = 180000 ∧
      (exCoolStart.update 180000 ⟨true, false⟩).lastEscalation = 180000) ∧
    exCoolRun.action = .COOLING ∧
    ¬ (wsub 780000 exCoolRun.actionStartTime > exCoolRun.config.maxRunTimeMs) ∧
    (exCoolRun.update 780000 ⟨true, false⟩).action ≠ .IDLE ∧
    (exCoolRun.update 780000 ⟨true, false⟩).action = .COOLING :=
  ⟨by decide, by decide, by decide, by decide, by decide, by decide,
    (((Thermostat.cooling_thresholds exCoolStart 180000 ⟨true, false⟩ (by decide) (by decide)
      (by decide) (by decide)).1 (by decide)).1).mpr (by decide),
    ((Thermostat.cooling_thresholds exCoolStart 180000 ⟨true, false⟩ (by decide) (by decide)
      (by decide) (by decide)).1 (by decide)).2 (by decide),
    by decide, by decide, by decide,
    ((Thermostat.cooling_thresholds exCoolRun 780000 ⟨true, false⟩ (by decide) (by decide)
      (by decide) (by decide)).2 (by decide) (by decide)).2.2 (by decide)⟩

/-- C23, counterexample. `exCoolingLate` is COOLING in stage COOL since 362000 in mode COOL,
with a valid temperature of 90.0 fed at 900000, above the stop threshold of 75.5; its
defrost flag is still set. At 962000 the escalation delay of 600000 has elapsed and the
max-run limit is not exceeded, but the tick reads the defrost indicator inactive: the
defrost exit turns all relays off and sets the action to IDLE, and the cool level is not
COOL_SUPP. -/
theorem cooling_escalation_counterexample :
    exCoolingLate.mode = .COOL ∧ exCoolingLate.action = .COOLING ∧
    exCoolingLate.coolLevel = .COOL ∧ exCoolingLate.tempValid = true ∧
    ¬ (wsub 962000 exCoolingLate.lastTempUpdate > 300000) ∧
    ¬ (wsub 962000 exCoolingLate.actionStartTime > exCoolingLate.config.maxRunTimeMs) ∧
    exCoolingLate.currentTemp >
      exCoolingLate.coolSetpoint - exCoolingLate.config.coolOverrun ∧
    exCoolingLate.config.escalationDelayMs ≤ wsub 962000 exCoolingLate.lastEscalation ∧
    exCoolingLate.defrostActive = true ∧
    (exCoolingLate.update 962000 ⟨true, false⟩).coolLevel = .COOL ∧
    (exCoolingLate.update 962000 ⟨true, false⟩).action = .IDLE ∧
    (exCoolingLate.update 962000 ⟨true, false⟩).outputs = Relays.allOff ∧
    (exCoolingLate.update 962000 ⟨true, false⟩).lastEscalation = 362000 := by
  decide

/-- C23, instance of the amended claim: `exCoolRun` is COOLING in stage COOL since 180000
with the defrost flag clear; at 780000 the escalation delay has elapsed and the tick moves
to COOL_SUPP. -/
theorem cooling_escalation_witness :
    (exCoolRun.mode = .COOL ∨ exCoolRun.mode = .HEAT_COOL) ∧
    exCoolRun.action = .COOLING ∧ exCoolRun.tempValid = true ∧
    ¬ (wsub 780000 exCoolRun.lastTempUpdate > 300000) ∧
    ¬ (wsub 780000 exCoolRun.actionStartTime > exCoolRun.config.maxRunTimeMs) ∧
    ¬ ((⟨true, false⟩ : Inputs).defrostMode = false ∧ exCoolRun.defrostActive = true) ∧
    exCoolRun.currentTemp > exCoolRun.coolSetpoint - exCoolRun.config.coolOverrun ∧
    exCoolRun.coolLevel = .COOL ∧
    exCoolRun.config.escalationDelayMs ≤ wsub 780000 exCoolRun.lastEscalation ∧
    (exCoolRun.update 780000 ⟨true, false⟩).coolLevel = .COOL_SUPP ∧
    ((exCoolRun.update 780000 ⟨true, false⟩).outputs = coolRow .COOL_SUPP ∧
      (exCoolRun.update 780000 ⟨true, false⟩).lastEscalation = 780000 ∧
      (exCoolRun.update 780000 ⟨true, false⟩).action = .COOLING) :=
  ⟨by decide, by decide, by decide, by decide, by decide, by decide, by decide, by decide,
    by decide,
    (((Thermostat.cooling_escalation exCoolRun 780000 ⟨true, false⟩ (by decide) (by decide)
      (by decide) (by decide) (by decide) (by decide) (by decide)).1 (by decide)).1).mpr
        (by decide),
    ((Thermostat.cooling_escalation exCoolRun 780000 ⟨true, false⟩ (by decide) (by decide)
      (by decide) (by decide) (by decide) (by decide) (by decide)).1 (by decide)).2.1
        (by decide)⟩

/-- C24, counterexample. `exAutoHeating` is HEATING since 180000 in mode HEAT_COOL with a
valid temperature of 60.0 fed at 1900000. The tick at 1980001 is beyond the max-run limit:
it turns all relays off and sets the action to IDLE, where the heating logic would have
escalated to HP_HIGH and kept the action HEATING. -/
theorem heatCool_dispatch_counterexample :
    exAutoHeating.mode = .HEAT_COOL ∧ exAutoHeating.action = .HEATING ∧
    exAutoHeating.tempValid = true ∧
    ¬ (wsub 1980001 exAutoHeating.lastTempUpdate > 300000) ∧
    (exAutoHeating.update 1980001 ⟨true, false⟩).action = .IDLE ∧
    (exAutoHeating.update 1980001 ⟨true, false⟩).outputs = Relays.allOff ∧
    (exAutoHeating.updateHeating 1980001 ⟨true, false⟩).action = .HEATING ∧
    (exAutoHeating.updateHeating 1980001 ⟨true, false⟩).heatLevel = .HP_HIGH := by
  decide

/-- C24, instance of the amended claim: the tick of `exAutoHeating` at 1950000, within the
max-run limit, is the heating logic; and the tick at 180000 of `exAutoIdle`, idle at 72.0
between both start thresholds, starts neither heating nor cooling. -/
theorem heatCool_dispatch_witness :
    exAutoHeating.mode = .HEAT_COOL ∧
    Thermostat.maxRunExceeded 1950000 (exAutoHeating.atSwitch 1950000 ⟨true, false⟩)
      = false ∧
    (exAutoHeating.atSwitch 1950000 ⟨true, false⟩).tempValid = true ∧
    (exAutoHeating.atSwitch 1950000 ⟨true, false⟩).action = .HEATING ∧
    exAutoHeating.update 1950000 ⟨true, false⟩ =
      (exAutoHeating.atSwitch 1950000 ⟨true, false⟩).updateHeating 1950000 ⟨true, false⟩ ∧
    exAutoIdle.mode = .HEAT_COOL ∧ exAutoIdle.action = .IDLE ∧
    ¬ (exAutoIdle.currentTemp < exAutoIdle.heatSetpoint - exAutoIdle.config.heatDeadband) ∧
    ¬ (exAutoIdle.currentTemp > exAutoIdle.coolSetpoint + exAutoIdle.config.coolDeadband) ∧
    ((exAutoIdle.update 180000 ⟨true, false⟩).action ≠ .HEATING ∧
      (exAutoIdle.update 180000 ⟨true, false⟩).action ≠ .COOLING) :=
  ⟨by decide, by decide, by decide, by decide,
    ((Thermostat.heatCool_dispatch exAutoHeating 1950000 ⟨true, false⟩ (by decide)).1
      (by decide) (by decide)).1 (by decide),
    by decide, by decide, by decide, by decide,
    (Thermostat.heatCool_dispatch exAutoIdle 180000 ⟨true, false⟩ (by decide)).2
      (by decide) (by decide) (by decide) (by decide)⟩

/-- C25, instance: `exFanOnly` is idle in mode FAN_ONLY with the HP_LOW relays still on;
`updateFanOnly` at 651000 leaves only the fan relay on. -/
theorem fan_only_witness :
    exFanOnly.action ≠ .FAN_RUNNING ∧ exFanOnly.outputs.comp1 = true ∧
    ((exFanOnly.updateFanOnly 651000).action = .FAN_RUNNING ∧
      (exFanOnly.updateFanOnly 651000).outputs =
        { fan1 := true, rev := false, furnCoolLow := false, furnCoolHigh := false,
          w1 := false, w2 := false, comp1 := false, comp2 := false } ∧
      (exFanOnly.updateFanOnly 651000).lastActionChange = 651000) :=
  ⟨by decide, by decide, (Thermostat.fan_only exFanOnly 651000).1 (by decide)⟩

/-- C26, instance: `exFanIdle` is idle with the duty cycle enabled, not running, last run at
0, wait 15 min. At 900001 the wait of 900000 ms is exceeded and the fan starts; at 900000 it
is not and nothing changes. -/
theorem fan_idle_duty_cycle_witness :
    exFanIdle.config.fanIdleEnabled = true ∧
    (exFanIdle.action = .IDLE ∨ exFanIdle.action = .FAN_RUNNING) ∧
    exFanIdle.fanIdleRunning = false ∧
    wmul exFanIdle.config.fanIdleWaitMin 60000 = 900000 ∧
    wsub 900001 exFanIdle.fanIdleLastRun > wmul exFanIdle.config.fanIdleWaitMin 60000 ∧
    ((exFanIdle.updateFanIdle 900001).outputs = { exFanIdle.outputs with fan1 := true } ∧
      (exFanIdle.updateFanIdle 900001).action = .FAN_RUNNING ∧
      (exFanIdle.updateFanIdle 900001).fanIdleRunning = true ∧
      (exFanIdle.updateFanIdle 900001).fanIdleLastRun = 900001) ∧
    ¬ (wsub 900000 exFanIdle.fanIdleLastRun > wmul exFanIdle.config.fanIdleWaitMin 60000) ∧
    exFanIdle.updateFanIdle 900000 = exFanIdle :=
  ⟨by decide, by decide, by decide, by decide, by decide,
    (((Thermostat.fan_idle_duty_cycle exFanIdle 900001).2.1 (by decide) (by decide)).1
      (by decide)).1 (by decide),
    by decide,
    (((Thermostat.fan_idle_duty_cycle exFanIdle 900000).2.1 (by decide) (by decide)).1
      (by decide)).2 (by decide)⟩

/-- C27, counterexample. `exPin` has a verify delay of 2000 ms and was initialised on a low
level. An edge is recorded at 1000 with the level read low again, so the recorded level
equals the stored one. The poll at 1060, 60 ms after the edge and long before the verify
delay has elapsed, reads the same low level and arms the verification task: the queue entry
is gone. -/
theorem poll_wait_counterexample :
    exPin.delay = 2000 ∧
    (exPin.inputISRChange 1000 0).queued = true ∧
    (exPin.inputISRChange 1000 0).changedAtTick = 1000 ∧
    (exPin.inputISRChange 1000 0).preValue = (exPin.inputISRChange 1000 0).value ∧
    wsub 1060 (exPin.inputISRChange 1000 0).changedAtTick < exPin.delay ∧
    ((exPin.inputISRChange 1000 0).onCheckInputQueue 1060 0).taskEnabled = true ∧
    ((exPin.inputISRChange 1000 0).onCheckInputQueue 1060 0).taskStart = 1060 ∧
    ((exPin.inputISRChange 1000 0).onCheckInputQueue 1060 0).queued = false := by
  decide

/-- C27, instance of the amended claim: the same edge; the poll at 1050 arms the task, the
poll at 1049 changes nothing. -/
theorem poll_arms_after_fixed_wait_witness :
    (exPin.inputISRChange 1000 0).queued = true ∧
    (1050 ≥ ((exPin.inputISRChange 1000 0).changedAtTick + 50) % 4294967296 ∨
      (exPin.inputISRChange 1000 0).preValue ≠ (exPin.inputISRChange 1000 0).value) ∧
    (((exPin.inputISRChange 1000 0).onCheckInputQueue 1050 0).taskEnabled = true ∧
      ((exPin.inputISRChange 1000 0).onCheckInputQueue 1050 0).taskStart = 1050 ∧
      ((exPin.inputISRChange 1000 0).onCheckInputQueue 1050 0).queued = false) ∧
    ¬ (1049 ≥ ((exPin.inputISRChange 1000 0).changedAtTick + 50) % 4294967296 ∨
      (exPin.inputISRChange 1000 0).preValue ≠ (exPin.inputISRChange 1000 0).value) ∧
    (exPin.inputISRChange 1000 0).onCheckInputQueue 1049 0 = exPin.inputISRChange 1000 0 :=
  ⟨by decide, by decide,
    (InputPin.poll_arms_after_fixed_wait (exPin.inputISRChange 1000 0) 1050 0 (by decide)).1
      (by decide),
    by decide,
    (InputPin.poll_arms_after_fixed_wait (exPin.inputISRChange 1000 0) 1049 0 (by decide)).2
      (by decide)⟩

/-- C28, counterexample. On `exPin` (confirmed inactive) the edge at 1000 records a high
level. The poll at 1060 reads the level low and sets the expected level to 0. The verify
step at 3060 that reads the level high, as the edge recorded it, is discarded: the
confirmed value stays inactive and the callback is not called; the verify step that reads
the level low is accepted and calls the callback. -/
theorem expected_level_counterexample :
    exPin.confirmedActive = false ∧
    (exPin.inputISRChange 1000 1).preValue = 1 ∧
    ((exPin.inputISRChange 1000 1).onCheckInputQueue 1060 0).preValue = 1 ∧
    ((exPin.inputISRChange 1000 1).onCheckInputQueue 1060 0).taskEnabled = true ∧
    ((exPin.inputISRChange 1000 1).onCheckInputQueue 1060 0).pendingState = 0 ∧
    (runInput [.onEdge 1000 1, .poll 1060 0, .verify 3060 1] exPin).confirmedActive
      = false ∧
    (runInput [.onEdge 1000 1, .poll 1060 0, .verify 3060 1] exPin).clbkCalls = 0 ∧
    (runInput [.onEdge 1000 1, .poll 1060 0, .verify 3060 0] exPin).clbkCalls = 1 := by
  decide

/-- C28, instance of the amended claim: edge at 1000 recording a high level, poll at 1060
reading a high level, verify at 3060 reading a high level: the input is confirmed active. -/
theorem expected_level_from_poll_witness :
    InputPin.CheckTickTime 1060 (exPin.inputISRChange 1000 1) = true ∧
    ((exPin.inputISRChange 1000 1).onCheckInputQueue 1060 1).pendingState = 1 ∧
    (runInput [.onEdge 1000 1, .poll 1060 1, .verify 3060 1] exPin).confirmedActive = true :=
  ⟨by decide,
    (InputPin.expected_level_from_poll exPin 1000 1 1060 1 3060 1 (by decide)).1,
    ((InputPin.expected_level_from_poll exPin 1000 1 1060 1 3060 1 (by decide)).2.1
      (by decide)).trans (by decide)⟩

/-- C29, instance: `exNearWrap` holds the reference 4294900000. After 180000 ms the clock
has wrapped to 112704; `canTurnOn` and `canTurnOff` hold there (180000 >= 180000), and one
millisecond earlier they do not. -/
theorem guards_rollover_safe_witness :
    (exNearWrap.lastActionChange + 180000) % 4294967296 = 112704 ∧
    (exNearWrap.actionStartTime + 180000) % 4294967296 = 112704 ∧
    Thermostat.canTurnOn 112704 exNearWrap = true ∧
    Thermostat.canTurnOff 112704 exNearWrap = true ∧
    Thermostat.canTurnOn 112703 exNearWrap = false ∧
    Thermostat.canEscalate ((exNearWrap.lastEscalation + 4294967295) % 4294967296) exNearWrap
      = true :=
  ⟨by decide, by decide,
    (Thermostat.guards_rollover_safe exNearWrap 180000 (by decide)).1.trans (by decide),
    (Thermostat.guards_rollover_safe exNearWrap 180000 (by decide)).2.1.trans (by decide),
    (Thermostat.guards_rollover_safe exNearWrap 179999 (by decide)).1.trans (by decide),
    (Thermostat.guards_rollover_safe exNearWrap 4294967295 (by decide)).2.2.trans
      (by decide)⟩
